import Mathlib

/-!
# Nutrition-plan pipeline of `backend/routes/nutritionRoutes.js`

A shallow embedding of the `/generate-plan` route and of the helpers it calls.

Modelling conventions.

* JavaScript numbers are rationals; `JSNum = Option ℚ`, where `none` stands
  for a value that is not a finite number (`NaN`).  The continuous quantities
  (`heightInMeters`, `weightInKg`, `bmi`, `bmr`) are kept at their exact
  values.  A product or quotient that is handed to `Math.round` (`tdee` and
  the three gram targets) is computed as the binary64 operation does:
  operands and result are rounded to the nearest number with a significand
  of 53 bits, ties to even (`toDouble`).  The exponent range of binary64
  (overflow, subnormal numbers) and the two infinities are not modelled.
* A request field is a JSON primitive or absent (`JSVal`); arrays and objects
  in the body are not modelled.
* The parts of the JavaScript runtime that convert between strings and numbers
  are parameters (`Runtime`).
* Property lookup in the literal tables sees the properties inherited
  from `Object.prototype` as well as the own ones: an inherited value is not a
  number for `activityMultipliers`, and is a truthy value for `diets`.
  `FALLBACK_RECIPES` is read at the keys the handler can produce (a value of
  `diets`, or `'none'`), none of which names an inherited property.
* The four network collaborators are oracles (`Services`); every function that
  may reach one returns its result together with the list of calls it made.
-/

namespace NutritionRoutes

/-! ## JavaScript values -/

/-- JavaScript number: a finite value, or `none` for `NaN`. -/
abbrev JSNum := Option ℚ

/-- Primitive value of a request field; `undefined` is an absent field. -/
inductive JSVal where
  | undefined
  | null
  | bool (b : Bool)
  | num (x : ℚ)
  | str (s : String)
  deriving DecidableEq, Repr

/-- String/number conversions supplied by the JavaScript runtime. -/
structure Runtime where
  /-- Conversion `ToNumber` applied to a string. -/
  strToNum : String → JSNum
  /-- Conversion `Number::toString` applied to a finite number. -/
  numToStr : ℚ → String
  /-- Global `parseFloat` applied to a string. -/
  parseFloat : String → JSNum

/-- Truthiness (`ToBoolean`), as used by `!x`, `x && y`, `x || y`, `if (x)`. -/
def JSVal.truthy : JSVal → Bool
  | .undefined => false
  | .null => false
  | .bool b => b
  | .num x => decide (x ≠ 0)
  | .str s => decide (s ≠ "")

/-- Conversion `ToNumber`, applied by `*` and by relational operators. -/
def JSVal.toNumber (rt : Runtime) : JSVal → JSNum
  | .undefined => none
  | .null => some 0
  | .bool b => some (if b then 1 else 0)
  | .num x => some x
  | .str s => rt.strToNum s

/-- Rendering of a number inside a template literal. -/
def numToString (rt : Runtime) : JSNum → String
  | none => "NaN"
  | some x => rt.numToStr x

/-- Conversion `ToString`, applied by template literals and property keys. -/
def JSVal.toStr (rt : Runtime) : JSVal → String
  | .undefined => "undefined"
  | .null => "null"
  | .bool b => if b then "true" else "false"
  | .num x => rt.numToStr x
  | .str s => s

/-- Multiplication `a * b` of two numbers. -/
def jsMul (a b : JSNum) : JSNum := do
  let x ← a
  let y ← b
  pure (x * y)

/-- Addition `a + b` of two numbers. -/
def jsAdd (a b : JSNum) : JSNum := do
  let x ← a
  let y ← b
  pure (x + y)

/-- Subtraction `a - b` of two numbers. -/
def jsSub (a b : JSNum) : JSNum := do
  let x ← a
  let y ← b
  pure (x - y)

/-- Division `a / b`; a zero divisor gives a non-finite result. -/
def jsDiv (a b : JSNum) : JSNum := do
  let x ← a
  let y ← b
  if y = 0 then none else pure (x / y)

/-- Nearest integer of a finite number by `Math.round`: ties go towards `+∞`. -/
def roundHalfUp (x : ℚ) : ℤ := ⌊x + 1 / 2⌋

/-- Function `Math.round`. -/
def mathRound (a : JSNum) : JSNum := a.map fun x => ((roundHalfUp x : ℤ) : ℚ)

/-- Method `toFixed(1)`; the decimal string it returns is represented by the
number it denotes (ties go away from zero). -/
def toFixed1 (a : JSNum) : JSNum :=
  a.map fun x => if 0 ≤ x then (⌊x * 10 + 1 / 2⌋ : ℚ) / 10 else -((⌊-x * 10 + 1 / 2⌋ : ℚ) / 10)

/-- Nearest integer of a rational number, ties to the even neighbour. -/
def roundHalfEven (x : ℚ) : ℤ :=
  if x - ⌊x⌋ < 1 / 2 then ⌊x⌋
  else if 1 / 2 < x - ⌊x⌋ then ⌊x⌋ + 1
  else if ⌊x⌋ % 2 = 0 then ⌊x⌋ else ⌊x⌋ + 1

/-- Nearest binary64 number of a rational number (round to nearest, ties to
even): with `e = ⌊log₂ |x|⌋` the result is the multiple of `2 ^ (e - 52)`
nearest to `x`, so its significand has 53 bits.  The exponent is not
bounded. -/
def toDouble (x : ℚ) : ℚ :=
  if x = 0 then 0
  else (roundHalfEven (x / 2 ^ (Int.log 2 |x| - 52)) : ℚ) * 2 ^ (Int.log 2 |x| - 52)

/-- Binary64 multiplication `a * b`: the product of the two binary64 operands,
rounded to binary64. -/
def jsMul64 (a b : JSNum) : JSNum := do
  let x ← a
  let y ← b
  pure (toDouble (toDouble x * toDouble y))

/-- Binary64 division `a / b`; a zero divisor gives a non-finite result. -/
def jsDiv64 (a b : JSNum) : JSNum := do
  let x ← a
  let y ← b
  if toDouble y = 0 then none else pure (toDouble (toDouble x / toDouble y))

/-! ## Request body and biometric calculation of `/generate-plan` -/

/-- Fields destructured from `req.body`. -/
structure Body where
  age : JSVal
  gender : JSVal
  weight : JSVal
  height : JSVal
  goalWeight : JSVal
  activityLevel : JSVal
  goal : JSVal
  dietaryPreferences : JSVal
  allergies : JSVal
  mealsPerDay : JSVal
  deriving DecidableEq, Repr

/-- Condition `!age || !gender || !weight || !height || !activityLevel || !goal`. -/
def missingRequired (b : Body) : Bool :=
  !b.age.truthy || !b.gender.truthy || !b.weight.truthy || !b.height.truthy ||
    !b.activityLevel.truthy || !b.goal.truthy

/-- Local `heightInMeters = (height * 2.54) / 100`. -/
def heightInMeters (rt : Runtime) (b : Body) : JSNum :=
  jsDiv (jsMul (b.height.toNumber rt) (some 2.54)) (some 100)

/-- Local `weightInKg = weight * 0.453592`. -/
def weightInKg (rt : Runtime) (b : Body) : JSNum :=
  jsMul (b.weight.toNumber rt) (some 0.453592)

/-- Local `bmi = (weightInKg / (heightInMeters * heightInMeters)).toFixed(1)`. -/
def bmi (rt : Runtime) (b : Body) : JSNum :=
  toFixed1 (jsDiv (weightInKg rt b) (jsMul (heightInMeters rt b) (heightInMeters rt b)))

/-- Lookup `activityMultipliers[activityLevel]` followed by `ToNumber`: a key
outside the table gives `undefined`, or a function or object inherited from
`Object.prototype`, none of which converts to a number. -/
def activityMultipliers : JSVal → JSNum
  | .str "sedentary" => some 1.15
  | .str "light" => some 1.35
  | .str "moderate" => some 1.55
  | .str "active" => some 1.75
  | .str "veryActive" => some 1.95
  | _ => none

/-- Local `bmr`, both branches as written in the handler. -/
def bmr (rt : Runtime) (b : Body) : JSNum :=
  if b.gender = .str "male" then
    jsAdd (jsAdd (jsAdd (jsMul (some 10) (weightInKg rt b))
      (jsMul (some 6.25) (jsMul (b.height.toNumber rt) (some 2.54))))
      (jsMul (some 5) (b.age.toNumber rt))) (some 5)
  else
    jsSub (jsSub (jsAdd (jsMul (some 10) (weightInKg rt b))
      (jsMul (some 6.25) (jsMul (b.height.toNumber rt) (some 2.54))))
      (jsMul (some 5) (b.age.toNumber rt))) (some 161)

/-- Local `tdee = Math.round(bmr * activityMultipliers[activityLevel])`; the
product is the binary64 one. -/
def tdee (rt : Runtime) (b : Body) : JSNum :=
  mathRound (jsMul64 (bmr rt b) (activityMultipliers b.activityLevel))

/-- Local `targetCalories`. -/
def targetCalories (rt : Runtime) (b : Body) : JSNum :=
  if b.goal = .str "lose" then jsSub (tdee rt b) (some 500)
  else if b.goal = .str "gain" then jsAdd (tdee rt b) (some 500)
  else tdee rt b

/-- Object literal `{ protein, carbs, fats }`. -/
structure MacroRatios where
  protein : ℚ
  carbs : ℚ
  fats : ℚ
  deriving DecidableEq, Repr

/-- Local `macroRatios`. -/
def macroRatios (b : Body) : MacroRatios :=
  if b.goal = .str "gain" then
    if b.dietaryPreferences = .str "vegetarian" ∨ b.dietaryPreferences = .str "vegan" then
      { protein := 0.25, carbs := 0.45, fats := 0.30 }
    else
      { protein := 0.35, carbs := 0.35, fats := 0.30 }
  else if b.goal = .str "lose" then
    { protein := 0.35, carbs := 0.40, fats := 0.25 }
  else
    { protein := 0.30, carbs := 0.40, fats := 0.30 }

/-- Local `proteinGrams = Math.round((targetCalories * macroRatios.protein) / 4)`;
product and quotient are the binary64 ones. -/
def proteinGrams (rt : Runtime) (b : Body) : JSNum :=
  mathRound (jsDiv64 (jsMul64 (targetCalories rt b) (some (macroRatios b).protein)) (some 4))

/-- Local `carbsGrams = Math.round((targetCalories * macroRatios.carbs) / 4)`;
product and quotient are the binary64 ones. -/
def carbsGrams (rt : Runtime) (b : Body) : JSNum :=
  mathRound (jsDiv64 (jsMul64 (targetCalories rt b) (some (macroRatios b).carbs)) (some 4))

/-- Local `fatsGrams = Math.round((targetCalories * macroRatios.fats) / 9)`;
product and quotient are the binary64 ones. -/
def fatsGrams (rt : Runtime) (b : Body) : JSNum :=
  mathRound (jsDiv64 (jsMul64 (targetCalories rt b) (some (macroRatios b).fats)) (some 9))

/-! ## Recipes and the static fallback table -/

/-- Entry `{ name, amount }` of a recipe's `nutrition.nutrients`. -/
structure Nutrient where
  name : String
  amount : ℚ
  deriving DecidableEq, Repr

/-- Recipe object: a catalog candidate (no `nutrition` unless the catalog sent
one), an enriched candidate, or an entry of the fallback table (no `id`). -/
structure Recipe where
  id : Option Nat
  title : String
  nutrition : Option (List Nutrient)
  deriving DecidableEq, Repr

/-- Expression `x || 0` on a number: `NaN` and `0` give `0`. -/
def orZero : JSNum → ℚ
  | none => 0
  | some x => x

/-- Helper `getNutrientValue(recipe, nutrientName)`. -/
def getNutrientValue (recipe : Recipe) (nutrientName : String) : ℤ :=
  let nutrient := recipe.nutrition.bind fun ns => ns.find? fun n => n.name == nutrientName
  roundHalfUp (orZero (nutrient.map fun n => n.amount))

/-- Literal entry of `FALLBACK_RECIPES`: a title and the four nutrients in the
order Calories, Protein, Carbohydrates, Fat. -/
def fallbackEntry (title : String) (calories protein carbs fat : ℚ) : Recipe :=
  { id := none
    title := title
    nutrition := some
      [ { name := "Calories", amount := calories },
        { name := "Protein", amount := protein },
        { name := "Carbohydrates", amount := carbs },
        { name := "Fat", amount := fat } ] }

/-- Bucket `FALLBACK_RECIPES.vegetarian`. -/
def fallbackVegetarian : List Recipe :=
  [ fallbackEntry "High-Protein Chickpea Buddha Bowl" 520 24 68 16,
    fallbackEntry "Quinoa Black Bean Burrito Bowl" 485 22 72 12,
    fallbackEntry "Tofu Scramble with Roasted Vegetables" 380 28 24 18,
    fallbackEntry "Lentil Dal with Brown Rice" 450 20 78 8,
    fallbackEntry "Mediterranean Chickpea Salad" 420 18 52 16,
    fallbackEntry "Tempeh Stir-Fry with Vegetables" 410 26 38 18,
    fallbackEntry "Mediterranean Farro Bowl with Roasted Veggies" 465 16 68 14,
    fallbackEntry "Black Bean Sweet Potato Tacos" 395 15 62 10,
    fallbackEntry "Protein-Packed Overnight Oats" 425 22 58 12,
    fallbackEntry "Edamame Quinoa Power Bowl" 490 25 64 14,
    fallbackEntry "Spinach and Feta Frittata" 340 24 18 20,
    fallbackEntry "Vegetarian Chili with Beans" 385 19 58 9,
    fallbackEntry "Greek Yogurt Parfait with Granola" 380 20 54 10,
    fallbackEntry "Veggie-Loaded Whole Wheat Pasta" 475 18 76 12,
    fallbackEntry "Mushroom and Spinach Quesadilla" 420 21 48 16 ]

/-- Bucket `FALLBACK_RECIPES.vegan`. -/
def fallbackVegan : List Recipe :=
  [ fallbackEntry "Vegan Protein Smoothie Bowl" 450 20 62 14,
    fallbackEntry "Tofu and Vegetable Stir-Fry" 395 24 42 15,
    fallbackEntry "Chickpea Curry with Coconut Milk" 480 18 58 20,
    fallbackEntry "Vegan Buddha Bowl with Tahini Dressing" 510 19 68 18,
    fallbackEntry "Black Bean and Quinoa Tacos" 420 17 64 12,
    fallbackEntry "Lentil Bolognese with Whole Wheat Pasta" 465 21 72 10,
    fallbackEntry "Tempeh Power Bowl" 495 28 52 18,
    fallbackEntry "Vegan Protein Pancakes" 380 18 58 10,
    fallbackEntry "Sweet Potato and Black Bean Bowl" 445 16 72 11,
    fallbackEntry "Vegan Chili with Cornbread" 425 19 68 9 ]

/-- Bucket `FALLBACK_RECIPES.none`. -/
def fallbackNone : List Recipe :=
  [ fallbackEntry "Grilled Chicken with Quinoa and Veggies" 520 42 48 16,
    fallbackEntry "Salmon Bowl with Brown Rice" 580 38 52 22,
    fallbackEntry "Turkey and Sweet Potato Hash" 465 35 48 14,
    fallbackEntry "Greek Chicken Salad" 420 38 28 18,
    fallbackEntry "Beef and Broccoli Stir-Fry" 485 36 42 18,
    fallbackEntry "Grilled Fish Tacos" 395 32 38 12,
    fallbackEntry "Chicken Fajita Bowl" 510 40 52 16,
    fallbackEntry "Turkey Meatballs with Marinara" 445 38 36 16,
    fallbackEntry "Shrimp and Veggie Stir-Fry" 380 34 38 10,
    fallbackEntry "Chicken Burrito Bowl" 525 42 56 14,
    fallbackEntry "Baked Cod with Roasted Vegetables" 395 36 32 12,
    fallbackEntry "Steak and Sweet Potato" 580 44 42 24,
    fallbackEntry "Chicken Pesto Pasta" 545 38 58 18,
    fallbackEntry "Tuna Poke Bowl" 465 36 52 12,
    fallbackEntry "Eggs and Turkey Sausage Breakfast" 420 32 24 22 ]

/-- Lookup `FALLBACK_RECIPES[key]`; `none` is `undefined`.  The keys that the
handler passes (a value of `diets`, or `'none'`) do not name a property
inherited from `Object.prototype`, so the own properties decide. -/
def FALLBACK_RECIPES : String → Option (List Recipe)
  | "vegetarian" => some fallbackVegetarian
  | "vegan" => some fallbackVegan
  | "none" => some fallbackNone
  | _ => none

/-! ## Network collaborators -/

/-- Element of `response.data` of the embeddings endpoint. -/
structure EmbeddingDatum where
  embedding : List ℚ
  deriving DecidableEq, Repr

/-- Field `metadata` of a vector-index match. -/
structure MatchMetadata where
  title : JSVal
  content : JSVal
  category : JSVal
  source : JSVal
  url : JSVal
  deriving DecidableEq, Repr

/-- Element of `queryResponse.matches`; `metadata` may be absent. -/
structure Match where
  metadata : Option MatchMetadata
  score : JSVal
  deriving DecidableEq, Repr

/-- Article object built by `searchNutritionKnowledge`. -/
structure Article where
  title : JSVal
  content : JSVal
  category : JSVal
  source : JSVal
  url : JSVal
  score : JSVal
  deriving DecidableEq, Repr

/-- Body of a nutrition-widget response. -/
structure NutritionData where
  calories : JSVal
  protein : JSVal
  carbs : JSVal
  fat : JSVal
  deriving DecidableEq, Repr

/-- Outcome of one nutrition-widget request. -/
inductive NutritionReply where
  /-- The request rejects (or resolves without a body, so that reading
  `nutritionData.calories` raises); `status` is `error.response?.status`. -/
  | rejected (status : Option Nat)
  /-- The request resolves with this `data`. -/
  | data (d : NutritionData)
  deriving DecidableEq, Repr

/-- External call, as recorded in the order the pipeline makes it. -/
inductive Call where
  | embeddingsCreate (input : String)
  | indexQuery (vector : List ℚ) (topK : Nat)
  | complexSearch (diet : String) (intolerances : JSVal) (maxCalories : JSNum)
  | nutritionWidget (id : Option Nat)
  | generateContent (prompt : String)
  deriving DecidableEq, Repr

/-- Recognizer of a call of the text-generation service. -/
def Call.isGenerate : Call → Bool
  | .generateContent _ => true
  | _ => false

/-- Behaviour of the collaborators during one request.  A result `none` means
that the awaited call rejects (or that the part of the response the caller
dereferences is absent, which raises a `TypeError` at the same place). -/
structure Services where
  /-- Call `openai.embeddings.create`, giving `response.data`. -/
  embeddingsCreate : String → Option (List EmbeddingDatum)
  /-- Call `index.query`, giving `queryResponse.matches`. -/
  indexQuery : List ℚ → Nat → Option (List Match)
  /-- Catalog search, giving `searchResponse.data.results`. -/
  complexSearch : String → JSVal → JSNum → Option (List Recipe)
  /-- Nutrition widget for the candidate at a position of the candidate list. -/
  nutritionWidget : Nat → Option Nat → NutritionReply
  /-- Call `model.generateContent(prompt)` followed by `result.response.text()`. -/
  generateContent : String → Option String

/-! ## Knowledge retrieval -/

/-- Function `getEmbedding(text)`: `response.data[0].embedding`; `none` when it
raises. -/
def getEmbedding (sv : Services) (text : String) : Option (List ℚ) × List Call :=
  let vector := do
    let data ← sv.embeddingsCreate text
    let first ← data.head?
    pure first.embedding
  (vector, [Call.embeddingsCreate text])

/-- Callback of `queryResponse.matches.map`; `none` when `match.metadata` is
absent and reading a property of it raises. -/
def matchToArticle (m : Match) : Option Article :=
  m.metadata.map fun md =>
    { title := md.title, content := md.content, category := md.category,
      source := md.source, url := md.url, score := m.score }

/-- Function `searchNutritionKnowledge(query, topK = 3)`: every exception of
the `try` block is caught and turned into the empty list. -/
def searchNutritionKnowledge (sv : Services) (query : String) (topK : Option Nat) :
    List Article × List Call :=
  let k := topK.getD 3
  match getEmbedding sv query with
  | (none, calls) => ([], calls)
  | (some queryEmbedding, calls) =>
    let calls := calls ++ [Call.indexQuery queryEmbedding k]
    match sv.indexQuery queryEmbedding k with
    | none => ([], calls)
    | some found =>
      match found.mapM matchToArticle with
      | none => ([], calls)
      | some articles => (articles, calls)

/-! ## Recipe retrieval -/

/-- Parameter object of `retrieveRecipesWithFullNutrition`.  An absent `diet`
is the empty string (both are falsy); an absent `number` is `none`. -/
structure RecipeParams where
  diet : String
  intolerances : JSVal
  maxCalories : JSNum
  number : Option Nat
  addRecipeInformation : Bool
  fillIngredients : Bool
  deriving DecidableEq, Repr

/-- Expression `params.diet || 'none'`. -/
def fallbackKey (params : RecipeParams) : String :=
  if params.diet = "" then "none" else params.diet

/-- Expression `FALLBACK_RECIPES[fallbackKey] || FALLBACK_RECIPES.vegetarian`. -/
def fallbackOrVegetarian (params : RecipeParams) : List Recipe :=
  match FALLBACK_RECIPES (fallbackKey params) with
  | some bucket => bucket
  | none => fallbackVegetarian

/-- Expression `parseFloat(v)`: the argument is converted to a string first. -/
def parseFloatVal (rt : Runtime) (v : JSVal) : JSNum :=
  rt.parseFloat (v.toStr rt)

/-- Expression `v?.replace('g', '')`: a nullish receiver gives `undefined`, a
string loses its first `g`, and any other receiver has no `replace` method, so
the call raises (`none`). -/
def replaceG : JSVal → Option JSVal
  | .undefined => some .undefined
  | .null => some .undefined
  | .str s => some (.str (String.mk (s.data.erase 'g')))
  | .bool _ => none
  | .num _ => none

/-- Array literal `nutrients` built from a nutrition-widget body; `none` when
building it raises. -/
def parseNutrients (rt : Runtime) (d : NutritionData) : Option (List Nutrient) := do
  let protein ← replaceG d.protein
  let carbs ← replaceG d.carbs
  let fat ← replaceG d.fat
  pure
    [ { name := "Calories", amount := orZero (parseFloatVal rt d.calories) },
      { name := "Protein", amount := orZero (parseFloatVal rt protein) },
      { name := "Carbohydrates", amount := orZero (parseFloatVal rt carbs) },
      { name := "Fat", amount := orZero (parseFloatVal rt fat) } ]

/-- Loop `for (const recipe of recipes)` of step 2.  The arguments are the
remaining candidates, the position of the next one, `recipesWithNutrition` and
the calls made so far.  The result is `none` when an exception leaves the
loop.  Whenever the inner `try` raises (the request rejects, or parsing
raises), the `catch (error)` block runs and evaluates
`nutritionError.response?.status`; no binding named `nutritionError` exists,
so that evaluation raises a `ReferenceError`, which leaves the loop. -/
def enrichLoop (rt : Runtime) (sv : Services) :
    List Recipe → Nat → List Recipe → List Call → Option (List Recipe) × List Call
  | [], _, recipesWithNutrition, calls => (some recipesWithNutrition, calls)
  | recipe :: rest, i, recipesWithNutrition, calls =>
    let calls := calls ++ [Call.nutritionWidget recipe.id]
    match sv.nutritionWidget i recipe.id with
    | .rejected _ => (none, calls)
    | .data nutritionData =>
      match parseNutrients rt nutritionData with
      | none => (none, calls)
      | some nutrients =>
        let hasCompleteNutrition := nutrients.all fun n => decide (n.amount > 0)
        if hasCompleteNutrition then
          enrichLoop rt sv rest (i + 1)
            (recipesWithNutrition ++ [{ recipe with nutrition := some nutrients }]) calls
        else
          enrichLoop rt sv rest (i + 1) recipesWithNutrition calls

/-- Body of the loop of step 2 for the candidate at position `i`, as a
function: `none` when the inner `try` raises (and with it the `catch` block),
`some none` when the candidate is dropped by `hasCompleteNutrition`, and
`some (some r)` when `r` is pushed onto `recipesWithNutrition`. -/
def enrichOne (rt : Runtime) (sv : Services) (i : Nat) (recipe : Recipe) :
    Option (Option Recipe) :=
  match sv.nutritionWidget i recipe.id with
  | .rejected _ => none
  | .data nutritionData =>
    match parseNutrients rt nutritionData with
    | none => none
    | some nutrients =>
      if nutrients.all fun n => decide (n.amount > 0) then
        some (some { recipe with nutrition := some nutrients })
      else some none

/-- Specification of stage B: the candidates that survive enrichment, in
catalog order, each with its parsed nutrition; the first candidate has
position `i`. -/
def survivingRecipes (rt : Runtime) (sv : Services) : List Recipe → Nat → List Recipe
  | [], _ => []
  | recipe :: rest, i =>
    match enrichOne rt sv i recipe with
    | some (some enriched) => enriched :: survivingRecipes rt sv rest (i + 1)
    | _ => survivingRecipes rt sv rest (i + 1)

/-- Specification of a usable recipe: its nutrients are the four entries
Calories, Protein, Carbohydrates and Fat, each with an amount above 0. -/
def Recipe.usable (r : Recipe) : Bool :=
  match r.nutrition with
  | some [a, b, c, d] =>
    a.name == "Calories" && b.name == "Protein" && c.name == "Carbohydrates" &&
      d.name == "Fat" && decide (0 < a.amount) && decide (0 < b.amount) &&
      decide (0 < c.amount) && decide (0 < d.amount)
  | _ => false

/-- Order induced by the comparator `(a, b) => proteinB - proteinA`: `a` may
stand before `b` when the rounded protein of `a` is at least that of `b`. -/
def proteinGe (a b : Recipe) : Prop :=
  getNutrientValue b "Protein" ≤ getNutrientValue a "Protein"

instance : DecidableRel proteinGe := fun a b =>
  inferInstanceAs (Decidable (getNutrientValue b "Protein" ≤ getNutrientValue a "Protein"))

instance : IsTotal Recipe proteinGe :=
  ⟨fun a b => le_total (getNutrientValue b "Protein") (getNutrientValue a "Protein")⟩

instance : IsTrans Recipe proteinGe :=
  ⟨fun _ _ _ hab hbc => le_trans hbc hab⟩

/-- Expression `params.number || 20`. -/
def requestedCount (params : RecipeParams) : Nat :=
  match params.number with
  | none => 20
  | some 0 => 20
  | some n => n

/-- Function `retrieveRecipesWithFullNutrition(params)`; the result `none` is
`undefined`.  `Array.prototype.sort` is stable, and so is the insertion sort
used here. -/
def retrieveRecipesWithFullNutrition (rt : Runtime) (sv : Services) (params : RecipeParams) :
    Option (List Recipe) × List Call :=
  let calls := [Call.complexSearch params.diet params.intolerances params.maxCalories]
  match sv.complexSearch params.diet params.intolerances params.maxCalories with
  | none => (some (fallbackOrVegetarian params), calls)
  | some recipes =>
    if recipes.length = 0 then
      (FALLBACK_RECIPES (fallbackKey params), calls)
    else
      match enrichLoop rt sv recipes 0 [] calls with
      | (none, calls) => (some (fallbackOrVegetarian params), calls)
      | (some recipesWithNutrition, calls) =>
        if recipesWithNutrition.length = 0 then
          (some (fallbackOrVegetarian params), calls)
        else
          (some ((recipesWithNutrition.insertionSort proteinGe).take (requestedCount params)),
            calls)

/-! ## Prompt assembly -/

/-- Condition `v && v.length > 0`: only a non-empty string has a positive
`length`. -/
def hasLength : JSVal → Bool
  | .str s => decide (s ≠ "")
  | _ => false

/-- Local `goalKeywords`. -/
def goalKeywords (b : Body) : String :=
  if b.goal = .str "lose" then "weight loss, fat burning, calorie deficit"
  else if b.goal = .str "gain" then "muscle gain, weight gain, calorie surplus, protein"
  else "weight maintenance, balanced diet, healthy eating"

/-- Local `dietKeywords`. -/
def dietKeywords (rt : Runtime) (b : Body) : String :=
  if hasLength b.dietaryPreferences then b.dietaryPreferences.toStr rt else ""

/-- Local `allergyKeywords`. -/
def allergyKeywords (rt : Runtime) (b : Body) : String :=
  if hasLength b.allergies then b.allergies.toStr rt else ""

/-- Local `searchQuery`. -/
def searchQuery (rt : Runtime) (b : Body) : String :=
  "nutrition plan for " ++ b.goal.toStr rt ++ ". Key topics: " ++ goalKeywords b ++ ". " ++
    dietKeywords rt b ++ " " ++ allergyKeywords rt b

/-- Names of the properties that the object literal `diets` inherits from
`Object.prototype`. -/
def inheritedNames : List String :=
  ["constructor", "__defineGetter__", "__defineSetter__", "hasOwnProperty",
    "__lookupGetter__", "__lookupSetter__", "isPrototypeOf", "propertyIsEnumerable",
    "toString", "valueOf", "__proto__", "toLocaleString"]

/-- Conversion `ToString` of the value found at an inherited property name:
each value is a built-in function, except the one of `__proto__`, which is
the object `Object.prototype`. -/
def inheritedToStr (name : String) : String :=
  if name = "__proto__" then "[object Object]"
  else if name = "constructor" then "function Object() \x7b [native code] \x7d"
  else "function " ++ name ++ "() \x7b [native code] \x7d"

/-- Expression `diets[dietaryPreferences] || ''`.  The five own properties
hold catalog tokens.  An inherited property holds a function or an object,
which is truthy: it is represented by the string it converts to where it is
used as the property key `fallbackKey`.  Every other lookup is `undefined`,
and the expression is `''`. -/
def diets : JSVal → String
  | .str "vegetarian" => "vegetarian"
  | .str "vegan" => "vegan"
  | .str "keto" => "ketogenic"
  | .str "paleo" => "paleolithic"
  | .str "glutenFree" => "gluten free"
  | .str s => if s ∈ inheritedNames then inheritedToStr s else ""
  | _ => ""

/-- Argument object of the handler's call of `retrieveRecipesWithFullNutrition`. -/
def recipeParams (rt : Runtime) (b : Body) : RecipeParams :=
  { diet := diets b.dietaryPreferences
    intolerances := if b.allergies.truthy then b.allergies else .null
    maxCalories := targetCalories rt b
    number := some 50
    addRecipeInformation := true
    fillIngredients := true }

/-- Body of the loop that extends `researchSection`, from index `i` on. -/
def researchLines (rt : Runtime) : List Article → Nat → String
  | [], _ => ""
  | a :: rest, i =>
    "\n" ++ rt.numToStr ((i + 1 : Nat) : ℚ) ++ ". " ++ a.title.toStr rt ++ "\n" ++
      a.content.toStr rt ++ "\n" ++ researchLines rt rest (i + 1)

/-- Local `researchSection`. -/
def researchSection (rt : Runtime) (relevantArticles : List Article) : String :=
  "**RESEARCH-BACKED NUTRITION KNOWLEDGE:**\n" ++ researchLines rt relevantArticles 0

/-- Local `recipesToShow = recipes.slice(0, 15)`. -/
def recipesToShow (recipes : List Recipe) : List Recipe := recipes.take 15

/-- Body of the loop that extends `recipesSection`, from index `i` on. -/
def recipeLines (rt : Runtime) : List Recipe → Nat → String
  | [], _ => ""
  | recipe :: rest, i =>
    "\n" ++ rt.numToStr ((i + 1 : Nat) : ℚ) ++ ". " ++ recipe.title ++ "\n" ++
      "   - Calories: ~" ++ rt.numToStr (getNutrientValue recipe "Calories") ++
      " kcal | Protein: ~" ++ rt.numToStr (getNutrientValue recipe "Protein") ++
      "g | Carbs: ~" ++ rt.numToStr (getNutrientValue recipe "Carbohydrates") ++
      "g | Fats: ~" ++ rt.numToStr (getNutrientValue recipe "Fat") ++ "g\n" ++
      recipeLines rt rest (i + 1)

/-- Local `recipesSection`. -/
def recipesSection (rt : Runtime) (recipes : List Recipe) : String :=
  "**REAL RECIPES AVAILABLE:**\n" ++ recipeLines rt (recipesToShow recipes) 0

/-- Specification of one entry of the recipes section: the number `k`, the
title, and the four rounded nutrient values. -/
def recipeEntry (rt : Runtime) (k : Nat) (recipe : Recipe) : String :=
  "\n" ++ rt.numToStr ((k : Nat) : ℚ) ++ ". " ++ recipe.title ++ "\n" ++
    "   - Calories: ~" ++ rt.numToStr (getNutrientValue recipe "Calories") ++
    " kcal | Protein: ~" ++ rt.numToStr (getNutrientValue recipe "Protein") ++
    "g | Carbs: ~" ++ rt.numToStr (getNutrientValue recipe "Carbohydrates") ++
    "g | Fats: ~" ++ rt.numToStr (getNutrientValue recipe "Fat") ++ "g\n"

/-- Local `goalPhrase`. -/
def goalPhrase (b : Body) : String :=
  if b.goal = .str "lose" then "lose weight"
  else if b.goal = .str "gain" then "gain weight"
  else "maintain your weight"

/-- Local `dietaryDisplay`. -/
def dietaryDisplay (rt : Runtime) (b : Body) : String :=
  if b.dietaryPreferences = .str "none" ∨ b.dietaryPreferences.truthy = false then
    "No restrictions"
  else b.dietaryPreferences.toStr rt

/-- Local `goalWeightLine`. -/
def goalWeightLine (rt : Runtime) (b : Body) : String :=
  if b.goalWeight.truthy then "Goal: Aim to reach " ++ b.goalWeight.toStr rt ++ " lbs" else ""

/-- Local `allergiesLine`. -/
def allergiesLine (rt : Runtime) (b : Body) : String :=
  if hasLength b.allergies then "Allergies/Intolerances: " ++ b.allergies.toStr rt else ""

/-- Condition `x > 3` on a number. -/
def gtThree : JSNum → Bool
  | none => false
  | some x => decide (x > 3)

/-- Local `snackPlaceholder`. -/
def snackPlaceholder (rt : Runtime) (b : Body) : String :=
  if b.mealsPerDay.truthy && gtThree (b.mealsPerDay.toNumber rt) then
    "\n- Snack: [Your choice of healthy snack]"
  else ""

/-- Interpolated expression `mealsPerDay || 3`. -/
def mealsPerDayOr3 (rt : Runtime) (b : Body) : String :=
  if b.mealsPerDay.truthy then b.mealsPerDay.toStr rt else rt.numToStr 3

/-- Template literal `prompt`, one source line per row. -/
def prompt (rt : Runtime) (b : Body) (relevantArticles : List Article)
    (recipes : List Recipe) : String := String.join
  [ "You are a certified nutritionist and dietitian. Generate the response using **proper Markdown formatting** for headings, bold text, and lists.\n",
    "        \n",
    "        Using the information provided, create a personalized daily nutrition plan.\n",
    "        ", researchSection rt relevantArticles, "\n",
    "        ", recipesSection rt recipes, "\n",
    "        \n",
    "        User Details:\n",
    "        - Age: ", b.age.toStr rt, "\n",
    "        - Gender: ", b.gender.toStr rt, "\n",
    "        - Weight: ", b.weight.toStr rt, " lbs\n",
    "        - Height: ", b.height.toStr rt, " inches\n",
    "        - ", goalWeightLine rt b, "\n",
    "        - Activity Level: ", b.activityLevel.toStr rt, "\n",
    "        - Goal: ", goalPhrase b, "\n",
    "        - Dietary Preferences: ", dietaryDisplay rt b, "\n",
    "        - ", allergiesLine rt b, "\n",
    "        - Target Daily Calories: ~", numToString rt (targetCalories rt b), " kcal\n",
    "        - Meals Per Day: ", mealsPerDayOr3 rt b, "\n",
    "\n",
    "        Macronutrient Breakdown:\n",
    "        - Protein: ~", numToString rt (proteinGrams rt b), "g\n",
    "        - Carbohydrates: ~", numToString rt (carbsGrams rt b), "g\n",
    "        - Fats: ~", numToString rt (fatsGrams rt b), "g\n",
    "\n",
    "        **Instructions:**\n",
    "        1. Create a daily meal plan with breakfast, lunch, dinner, and", snackPlaceholder rt b, ".\n",
    "        2. Each meal should include a recipe from the provided recipes list.\n",
    "        3. Ensure the total daily calories align with the target of ~", numToString rt (targetCalories rt b), " kcal.\n",
    "        4. Distribute macronutrients according to the calculated grams.\n",
    "        5. Provide portion sizes for each meal.\n",
    "        6. Use a friendly and encouraging tone suitable for someone looking to ", goalPhrase b, ".\n",
    "        7. Format the meal plan clearly for easy reading.\n",
    "        8. Cite the sources of recipes used from the provided list.\n",
    "        \n",
    "        Generate the personalized nutrition plan now.\n",
    "\n",
    "        **Format**\n",
    "        # Your Personalized Nutrition Plan\n",
    "\n",
    "        ## Summary\n",
    "        [Brief overview based on research]\n",
    "\n",
    "        ## Daily Targets\n",
    "        - Calories: ", numToString rt (targetCalories rt b), " kcal\n",
    "        - Macros: ", numToString rt (proteinGrams rt b), "g | Carbs: ", numToString rt (carbsGrams rt b), "g | Fats: ", numToString rt (fatsGrams rt b), "g\n",
    "\n",
    "        ## 7-Day Meal Plan\n",
    "\n",
    "        ### Day 1\n",
    "        **Breakfast:** [Meal name]\n",
    "        - [Description]\n",
    "        - Calories: ~XXX | Protein: XXg | Carbs: XXg | Fats: XXg\n",
    "\n",
    "        **Lunch:** [Meal name]\n",
    "        - [Description]\n",
    "        - Calories: ~XXX | Protein: XXg | Carbs: XXg | Fats: XXg\n",
    "\n",
    "        **Dinner:** [Meal name]\n",
    "        - [Description]\n",
    "        - Calories: ~XXX | Protein: XXg | Carbs: XXg | Fats: XXg\n",
    "\n",
    "        ", snackPlaceholder rt b, "**Daily Total:** ~", numToString rt (targetCalories rt b), " kcal\n",
    "\n",
    "        [Repeat for Days 2-7]\n",
    "\n",
    "        ## Tips for Success\n",
    "        [5 practical tips based on research]\n",
    "\n",
    "        Keep it concise, practical, and encouraging!\n",
    "        " ]

/-! ## The `/generate-plan` handler -/

/-- Object `metadata` of the success response; `bmi` is the number denoted by
the string that `toFixed(1)` returned. -/
structure Metadata where
  proteinGrams : JSNum
  carbsGrams : JSNum
  fatsGrams : JSNum
  bmi : JSNum
  bmr : JSNum
  tdee : JSNum
  targetCalories : JSNum
  deriving DecidableEq, Repr

/-- HTTP response written by the handler: the status and the fields of the
JSON body (`none` for a field the body does not have). -/
structure Response where
  status : Nat
  success : Bool
  message : Option String
  plan : Option String
  metadata : Option Metadata
  deriving DecidableEq, Repr

/-- Response of the validation branch. -/
def validationFailure : Response :=
  { status := 400, success := false, message := some "Please provide all required fields.",
    plan := none, metadata := none }

/-- Response of the handler's `catch` block. -/
def serverError : Response :=
  { status := 500, success := false,
    message := some "Server Error: Unable to generate nutrition plan.",
    plan := none, metadata := none }

/-- Response written after the plan was generated. -/
def successResponse (rt : Runtime) (b : Body) (nutritionPlan : String) : Response :=
  { status := 200, success := true, message := none, plan := some nutritionPlan,
    metadata := some
      { proteinGrams := proteinGrams rt b
        carbsGrams := carbsGrams rt b
        fatsGrams := fatsGrams rt b
        bmi := bmi rt b
        bmr := bmr rt b
        tdee := tdee rt b
        targetCalories := targetCalories rt b } }

/-- Handler of `POST /generate-plan` after the `protect` middleware: the
response it writes and the external calls it made, in order.  An `undefined`
recipe list makes `recipes.slice(0, 15)` raise, and a failing generation call
raises too; both reach the `catch` block. -/
def generatePlan (rt : Runtime) (sv : Services) (b : Body) : Response × List Call :=
  if missingRequired b then
    (validationFailure, [])
  else
    match searchNutritionKnowledge sv (searchQuery rt b) (some 3) with
    | (relevantArticles, calls1) =>
      match retrieveRecipesWithFullNutrition rt sv (recipeParams rt b) with
      | (none, calls2) => (serverError, calls1 ++ calls2)
      | (some recipes, calls2) =>
        let text := prompt rt b relevantArticles recipes
        let calls := calls1 ++ calls2 ++ [Call.generateContent text]
        match sv.generateContent text with
        | none => (serverError, calls)
        | some nutritionPlan => (successResponse rt b nutritionPlan, calls)

/-! ## Example inputs -/

/-- Request of the worked scenario: a 30-year-old male, 180 lb, 70 in,
moderately active, who wants to lose weight. -/
def scenarioBody : Body :=
  { age := .num 30, gender := .str "male", weight := .num 180, height := .num 70,
    goalWeight := .undefined, activityLevel := .str "moderate", goal := .str "lose",
    dietaryPreferences := .str "none", allergies := .str "", mealsPerDay := .num 3 }

/-- Runtime whose conversions are constant; enough for requests that carry
numbers. -/
def plainRuntime : Runtime :=
  { strToNum := fun _ => none, numToStr := fun _ => "0", parseFloat := fun _ => none }

/-- Request that differs from the scenario by gender, size and goal. -/
def femaleBody : Body :=
  { age := .num 30, gender := .str "female", weight := .num 140, height := .num 65,
    goalWeight := .undefined, activityLevel := .str "light", goal := .str "gain",
    dietaryPreferences := .str "vegan", allergies := .str "", mealsPerDay := .num 3 }

/-- Valid request with a small frame: a 90-year-old female, 60 lb, 45 in,
sedentary, who wants to lose weight. -/
def frailBody : Body :=
  { age := .num 90, gender := .str "female", weight := .num 60, height := .num 45,
    goalWeight := .undefined, activityLevel := .str "sedentary", goal := .str "lose",
    dietaryPreferences := .str "none", allergies := .str "", mealsPerDay := .num 3 }

/-- Collaborators that all fail. -/
def failingServices : Services :=
  { embeddingsCreate := fun _ => none
    indexQuery := fun _ _ => none
    complexSearch := fun _ _ _ => none
    nutritionWidget := fun _ _ => .rejected none
    generateContent := fun _ => none }

/-- The scenario request without its `age` field. -/
def bodyWithoutAge : Body := { scenarioBody with age := .undefined }

/-- The scenario request without its `goal` field. -/
def bodyWithoutGoal : Body := { scenarioBody with goal := .undefined }

/-- Value of an unsigned decimal numeral given by its characters. -/
def decimalValue (cs : List Char) : ℚ :=
  cs.foldl (fun acc c => acc * 10 + ((c.toNat - 48 : Nat) : ℚ)) 0

/-- Reading of a string that consists of decimal digits only. -/
def readDecimal (s : String) : JSNum :=
  if s.data ≠ [] ∧ s.data.all Char.isDigit then some (decimalValue s.data) else none

/-- Runtime that reads unsigned decimal integers. -/
def decimalRuntime : Runtime :=
  { strToNum := readDecimal, numToStr := fun _ => "0", parseFloat := readDecimal }

/-- Parameters without a diet, as the handler builds them for a request
without dietary preference. -/
def plainParams : RecipeParams :=
  { diet := "", intolerances := .null, maxCalories := some 2000, number := some 50,
    addRecipeInformation := true, fillIngredients := true }

/-- Parameters for the dietary preference 'vegetarian'. -/
def vegetarianParams : RecipeParams := { plainParams with diet := "vegetarian" }

/-- Parameters for the dietary preference 'keto', whose catalog token is
'ketogenic'. -/
def ketoParams : RecipeParams := { plainParams with diet := "ketogenic" }

/-- The scenario request with dietary preference 'keto'. -/
def ketoBody : Body := { scenarioBody with dietaryPreferences := .str "keto" }

/-- First catalog candidate of the examples. -/
def candidateA : Recipe := { id := some 1, title := "Chicken Rice Bowl", nutrition := none }

/-- Second catalog candidate of the examples. -/
def candidateB : Recipe := { id := some 2, title := "Beef Stew", nutrition := none }

/-- Nutrition-widget body with all four nutrients. -/
def completeNutrition : NutritionData :=
  { calories := .str "520", protein := .str "24g", carbs := .str "68g", fat := .str "16g" }

/-- Nutrients parsed from `completeNutrition` by `decimalRuntime`. -/
def completeNutrients : List Nutrient :=
  [ { name := "Calories", amount := 520 }, { name := "Protein", amount := 24 },
    { name := "Carbohydrates", amount := 68 }, { name := "Fat", amount := 16 } ]

/-- Collaborators whose catalog finds no candidate and whose text generation
succeeds. -/
def emptyCatalogServices : Services :=
  { embeddingsCreate := fun _ => none
    indexQuery := fun _ _ => none
    complexSearch := fun _ _ _ => some []
    nutritionWidget := fun _ _ => .rejected none
    generateContent := fun _ => some "Your Personalized Nutrition Plan" }

/-- Collaborators whose catalog finds two candidates; the nutrition request of
the first resolves, that of the second is rejected with status 402. -/
def quotaServices : Services :=
  { embeddingsCreate := fun _ => none
    indexQuery := fun _ _ => none
    complexSearch := fun _ _ _ => some [candidateA, candidateB]
    nutritionWidget := fun i _ => if i = 0 then .data completeNutrition else .rejected (some 402)
    generateContent := fun _ => none }

/-- Collaborators whose catalog finds one candidate with a resolving nutrition
request. -/
def singleCandidateServices : Services :=
  { embeddingsCreate := fun _ => none
    indexQuery := fun _ _ => none
    complexSearch := fun _ _ _ => some [candidateA]
    nutritionWidget := fun _ _ => .data completeNutrition
    generateContent := fun _ => none }

/-- Match of the examples. -/
def sampleMatch : Match :=
  { metadata := some
      { title := .str "Protein timing", content := .str "Spread protein over the day.",
        category := .str "protein", source := .str "journal", url := .str "https://example.org" }
    score := .num 0.9 }

/-- Collaborators whose vector index answers every query with four matches. -/
def generousIndexServices : Services :=
  { embeddingsCreate := fun _ => some [{ embedding := [1, 0] }]
    indexQuery := fun _ _ => some [sampleMatch, sampleMatch, sampleMatch, sampleMatch]
    complexSearch := fun _ _ _ => none
    nutritionWidget := fun _ _ => .rejected none
    generateContent := fun _ => none }

/-- Collaborators whose vector index answers with as many matches as asked
for, none when zero is asked. -/
def exactIndexServices : Services :=
  { embeddingsCreate := fun _ => some [{ embedding := [1, 0] }]
    indexQuery := fun _ k => some (List.replicate k sampleMatch)
    complexSearch := fun _ _ _ => none
    nutritionWidget := fun _ _ => .rejected none
    generateContent := fun _ => none }

/-- Runtime that also reads the numeral 24.4. -/
def tableRuntime : Runtime :=
  { strToNum := fun _ => none, numToStr := fun _ => "0",
    parseFloat := fun s => if s = "24.4" then some 24.4 else readDecimal s }

/-- Nutrition-widget body with a fractional protein amount. -/
def fractionalNutrition : NutritionData :=
  { calories := .str "500", protein := .str "24.4g", carbs := .str "60g", fat := .str "15g" }

/-- Nutrients parsed from `fractionalNutrition` by `tableRuntime`. -/
def fractionalNutrients : List Nutrient :=
  [ { name := "Calories", amount := 500 }, { name := "Protein", amount := 24.4 },
    { name := "Carbohydrates", amount := 60 }, { name := "Fat", amount := 15 } ]

/-- Collaborators whose catalog finds two candidates: the first has 24 g of
protein, the second 24.4 g. -/
def tieServices : Services :=
  { embeddingsCreate := fun _ => none
    indexQuery := fun _ _ => none
    complexSearch := fun _ _ _ => some [candidateA, candidateB]
    nutritionWidget := fun i _ =>
      if i = 0 then .data completeNutrition else .data fractionalNutrition
    generateContent := fun _ => none }

/-- Parameters with an intolerance and a calorie ceiling of 300. -/
def strictParams : RecipeParams :=
  { plainParams with intolerances := .str "peanut", maxCalories := some 300 }

/-- The scenario request with the activity level the nutrition form submits
for 'Very Active'. -/
def veryActiveBody : Body := { scenarioBody with activityLevel := .str "very_active" }

/-- The scenario request with dietary preference 'mediterranean'. -/
def mediterraneanBody : Body := { scenarioBody with dietaryPreferences := .str "mediterranean" }

/-- Request whose exact `bmr × 1.15` is the tie 1644.5: a 15-year-old female,
156.25 lb, 60.3 in, sedentary, goal 'maintain'. -/
def tieBody : Body :=
  { age := .num 15, gender := .str "female", weight := .num 156.25, height := .num 60.3,
    goalWeight := .undefined, activityLevel := .str "sedentary", goal := .str "maintain",
    dietaryPreferences := .str "none", allergies := .str "", mealsPerDay := .num 3 }

/-- Request whose exact `targetCalories × 0.35 / 4` is the tie 255.5: a
30-year-old female, 146 lb, 65 in, active, goal 'gain'. -/
def gainBody : Body :=
  { age := .num 30, gender := .str "female", weight := .num 146, height := .num 65,
    goalWeight := .undefined, activityLevel := .str "active", goal := .str "gain",
    dietaryPreferences := .str "none", allergies := .str "", mealsPerDay := .num 3 }

/-- The scenario request with the weight given as the word 'heavy'. -/
def heavyBody : Body := { scenarioBody with weight := .str "heavy" }

/-- The scenario request with dietary preference 'constructor', the name of a
property that every object literal inherits. -/
def constructorBody : Body := { scenarioBody with dietaryPreferences := .str "constructor" }

/-- Third catalog candidate of the examples. -/
def candidateC : Recipe := { id := some 3, title := "Grilled Salmon", nutrition := none }

/-- Nutrition-widget body with 38 g of protein. -/
def richNutrition : NutritionData :=
  { calories := .str "610", protein := .str "38g", carbs := .str "45g", fat := .str "20g" }

/-- Nutrients parsed from `richNutrition` by `tableRuntime`. -/
def richNutrients : List Nutrient :=
  [ { name := "Calories", amount := 610 }, { name := "Protein", amount := 38 },
    { name := "Carbohydrates", amount := 45 }, { name := "Fat", amount := 20 } ]

/-- First candidate with its parsed nutrition: 24 g of protein. -/
def enrichedA : Recipe := { candidateA with nutrition := some completeNutrients }

/-- Second candidate with its parsed nutrition: 24.4 g of protein. -/
def enrichedB : Recipe := { candidateB with nutrition := some fractionalNutrients }

/-- Third candidate with its parsed nutrition: 38 g of protein. -/
def enrichedC : Recipe := { candidateC with nutrition := some richNutrients }

/-- Collaborators whose catalog finds three candidates, with 24 g, 24.4 g and
38 g of protein in catalog order. -/
def rankServices : Services :=
  { embeddingsCreate := fun _ => none
    indexQuery := fun _ _ => none
    complexSearch := fun _ _ _ => some [candidateA, candidateB, candidateC]
    nutritionWidget := fun i _ =>
      if i = 0 then .data completeNutrition
      else if i = 1 then .data fractionalNutrition else .data richNutrition
    generateContent := fun _ => none }

/-- Parameters that ask for two recipes. -/
def topTwoParams : RecipeParams := { plainParams with number := some 2 }

end NutritionRoutes

/-! # Class booking page, `frontend/src/pages/Classes.jsx`

A calendar date is the number of days since a reference Sunday; the time of
day, time zones and the time that passes between the two `new Date()` calls
are not modelled. -/

namespace Classes

/-- Array literal `daysOfWeek`. -/
def daysOfWeek : List String :=
  ["Sunday", "Monday", "Tuesday", "Wednesday", "Thursday", "Friday", "Saturday"]

/-- Method `getDay()` of a date: the index of its weekday, Sunday being 0. -/
def getDay (date : Nat) : Nat := date % 7

/-- Loop `for (let i = 0; i <= 7; i++)` from index `i` on, with `fuel`
iterations left.  A hit at index `i` returns the date built by
`nextDate.setDate(today.getDate() + i + 1)`. -/
def nextClassLoop (today : Nat) (scheduleDays : List String) : Nat → Nat → Option Nat
  | 0, _ => none
  | fuel + 1, i =>
    let checkDayIndex := (getDay today + i) % 7
    let dayName := daysOfWeek.getD checkDayIndex ""
    if scheduleDays.contains dayName then some (today + i + 1)
    else nextClassLoop today scheduleDays fuel (i + 1)

/-- Function `getNextClassDate(scheduleDays)` evaluated on the day `today`;
an absent `scheduleDays` is `none`, and the result `none` is `null`. -/
def getNextClassDate (today : Nat) (scheduleDays : Option (List String)) : Option Nat :=
  match scheduleDays with
  | none => none
  | some days => if days.length = 0 then none else nextClassLoop today days 8 0

end Classes

/-! # Stripe webhook, `backend/routes/stripeWebhook.js`

The collection of memberships is a list in insertion order.  Storage
operations succeed (the `catch` branches are not reachable in the model),
`updateMany` and `findOneAndUpdate` write the given status without running
the schema validators (the Mongoose default), and times are numbers. -/

namespace StripeWebhook

/-- Document of the `Membership` model. -/
structure Membership where
  userId : String
  membershipName : String
  membershipPrice : String
  status : String
  startDate : Nat
  endDate : Nat
  stripeSessionId : Option String
  stripeSubscriptionId : Option String
  deriving DecidableEq, Repr

/-- Values of the `enum` of the schema field `status`. -/
def statusEnum : List String := ["active", "inactive", "cancelled"]

/-- Checkout session of a `checkout.session.completed` event with the three
metadata entries the handler reads; an absent entry is `none`. -/
structure Session where
  id : Option String
  subscription : Option String
  userId : Option String
  membershipName : Option String
  membershipPrice : Option String
  deriving DecidableEq, Repr

/-- Verified event, by `event.type`. -/
inductive Event where
  | checkoutSessionCompleted (session : Session)
  | customerSubscriptionUpdated (id : String) (status : String)
  | customerSubscriptionDeleted (id : String)
  | other (type : String)
  deriving DecidableEq, Repr

/-- Answer of the handler. -/
inductive Reply where
  /-- Status 400 with a text body. -/
  | badRequest (text : String)
  /-- Status 200 with the body `received: true`. -/
  | received
  deriving DecidableEq, Repr

/-- Truthiness of a metadata entry: present and not the empty string. -/
def present : Option String → Bool
  | none => false
  | some s => decide (s ≠ "")

/-- Query `Membership.find` with the filter `userId`, `status: "active"`. -/
def findActive (db : List Membership) (userId : String) : List Membership :=
  db.filter fun m => m.userId == userId && m.status == "active"

/-- Call `Membership.updateMany` with the filter `userId`, `status: "active"`
and the update `status: "canceled"`. -/
def cancelActive (db : List Membership) (userId : String) : List Membership :=
  db.map fun m =>
    if m.userId == userId && m.status == "active" then { m with status := "canceled" } else m

/-- Call `Membership.findOneAndUpdate` with the filter `stripeSubscriptionId`
and the update `status`: the first matching document is updated. -/
def findOneAndUpdate (subscriptionId : String) (status : String) :
    List Membership → List Membership
  | [] => []
  | m :: rest =>
    if m.stripeSubscriptionId = some subscriptionId then { m with status := status } :: rest
    else m :: findOneAndUpdate subscriptionId status rest

/-- Handler of `POST /stripe`: the answer and the collection afterwards.  The
event `error message` stands for a failed signature verification with that
error message; `now` is `new Date()` and `nextMonth` its date one month
later. -/
def stripeHandler (now nextMonth : Nat) (event : Except String Event)
    (db : List Membership) : Reply × List Membership :=
  match event with
  | .error message => (.badRequest ("Webhook Error: " ++ message), db)
  | .ok (.checkoutSessionCompleted session) =>
    if !present session.userId || !present session.membershipName ||
        !present session.membershipPrice then
      (.badRequest "Missing metadata.", db)
    else
      let userId := session.userId.getD ""
      let exist := findActive db userId
      let db1 := if exist.length > 0 then cancelActive db userId else db
      let newMembership : Membership :=
        { userId := userId
          membershipName := session.membershipName.getD ""
          membershipPrice := session.membershipPrice.getD ""
          status := "active"
          stripeSessionId := session.id
          stripeSubscriptionId := session.subscription
          startDate := now
          endDate := nextMonth }
      (.received, db1 ++ [newMembership])
  | .ok (.customerSubscriptionUpdated id status) => (.received, findOneAndUpdate id status db)
  | .ok (.customerSubscriptionDeleted id) => (.received, findOneAndUpdate id "canceled" db)
  | .ok (.other _) => (.received, db)

/-- Membership bought earlier by the user `user_1`, still active. -/
def earlierMembership : Membership :=
  { userId := "user_1", membershipName := "Basic", membershipPrice := "29", status := "active",
    startDate := 100, endDate := 130, stripeSessionId := some "cs_1",
    stripeSubscriptionId := some "sub_1" }

/-- Checkout session of the same user for another plan. -/
def upgradeSession : Session :=
  { id := some "cs_2", subscription := some "sub_2", userId := some "user_1",
    membershipName := some "Premium", membershipPrice := some "49" }

end StripeWebhook

namespace NutritionRoutes

/-! ## Arithmetic of the JavaScript operators -/

@[simp] theorem jsMul_some (x y : ℚ) : jsMul (some x) (some y) = some (x * y) := rfl

@[simp] theorem jsAdd_some (x y : ℚ) : jsAdd (some x) (some y) = some (x + y) := rfl

@[simp] theorem jsSub_some (x y : ℚ) : jsSub (some x) (some y) = some (x - y) := rfl

theorem jsDiv_some (x y : ℚ) (hy : y ≠ 0) : jsDiv (some x) (some y) = some (x / y) := by
  simp [jsDiv, hy]

@[simp] theorem mathRound_some (x : ℚ) : mathRound (some x) = some ((roundHalfUp x : ℤ) : ℚ) :=
  rfl

/-- The value of `Math.round` is above its argument by at most one half. -/
theorem roundHalfUp_le (x : ℚ) : ((roundHalfUp x : ℤ) : ℚ) ≤ x + 1 / 2 :=
  Int.floor_le (x + 1 / 2)

/-- The value of `Math.round` is below its argument by less than one half. -/
theorem lt_roundHalfUp (x : ℚ) : x - 1 / 2 < ((roundHalfUp x : ℤ) : ℚ) := by
  have h := Int.lt_floor_add_one (x + 1 / 2)
  unfold roundHalfUp
  linarith

/-- Rounding a non-negative number gives a non-negative integer. -/
theorem roundHalfUp_nonneg {x : ℚ} (hx : 0 ≤ x) : 0 ≤ roundHalfUp x := by
  unfold roundHalfUp
  exact Int.floor_nonneg.mpr (by linarith)

/-! ## Binary64 rounding -/

/-- Rounding to the nearest integer moves a number by at most one half. -/
theorem roundHalfEven_close (x : ℚ) : |((roundHalfEven x : ℤ) : ℚ) - x| ≤ 1 / 2 := by
  have h1 := Int.floor_le x
  have h2 := Int.lt_floor_add_one x
  unfold roundHalfEven
  rw [abs_le]
  split_ifs with ha hb hc
  · constructor <;> linarith
  · push_cast
    constructor <;> linarith
  · constructor <;> linarith
  · push_cast
    constructor <;> linarith

/-- An integer nearer than one half is the value of the rounding. -/
theorem roundHalfEven_eq_of_close (x : ℚ) (n : ℤ) (h : |x - (n : ℚ)| < 1 / 2) :
    roundHalfEven x = n := by
  rw [abs_lt] at h
  obtain ⟨h1, h2⟩ := h
  by_cases hx : (n : ℚ) ≤ x
  · have hf : ⌊x⌋ = n := by
      rw [Int.floor_eq_iff]
      constructor
      · exact hx
      · linarith
    unfold roundHalfEven
    rw [hf, if_pos (by linarith)]
  · have hf : ⌊x⌋ = n - 1 := by
      rw [Int.floor_eq_iff]
      push_cast
      constructor
      · linarith
      · linarith [not_le.mp hx]
    unfold roundHalfEven
    rw [hf]
    push_cast
    rw [if_neg (by linarith), if_pos (by linarith)]
    ring

/-- Rounding a non-negative number gives a non-negative integer. -/
theorem roundHalfEven_nonneg {x : ℚ} (hx : 0 ≤ x) : 0 ≤ roundHalfEven x := by
  have h0 : 0 ≤ ⌊x⌋ := Int.floor_nonneg.mpr hx
  unfold roundHalfEven
  split_ifs <;> omega

/-- Relative error of the rounding to binary64: at most `2 ^ (-53)`. -/
theorem toDouble_close (x : ℚ) : |toDouble x - x| ≤ |x| / 2 ^ 53 := by
  by_cases hx : x = 0
  · simp [toDouble, hx]
  · have hpos : 0 < |x| := abs_pos.mpr hx
    have hq : (0 : ℚ) < 2 ^ (Int.log 2 |x| - 52) := zpow_pos (by norm_num) _
    have hlog : (2 : ℚ) ^ Int.log 2 |x| ≤ |x| := by
      have : ((2 : ℕ) : ℚ) ^ Int.log 2 |x| ≤ |x| :=
        Int.zpow_log_le_self (by norm_num : 1 < 2) hpos
      exact_mod_cast this
    have hr := roundHalfEven_close (x / 2 ^ (Int.log 2 |x| - 52))
    have heq : toDouble x - x =
        (((roundHalfEven (x / 2 ^ (Int.log 2 |x| - 52)) : ℤ) : ℚ) -
          x / 2 ^ (Int.log 2 |x| - 52)) * 2 ^ (Int.log 2 |x| - 52) := by
      unfold toDouble
      rw [if_neg hx]
      field_simp
    rw [heq, abs_mul, abs_of_pos hq]
    have hsplit : (2 : ℚ) ^ (Int.log 2 |x| - 52) = 2 ^ Int.log 2 |x| / 2 ^ 52 := by
      rw [zpow_sub₀ (by norm_num)]
      norm_num
    calc |((roundHalfEven (x / 2 ^ (Int.log 2 |x| - 52)) : ℤ) : ℚ) -
          x / 2 ^ (Int.log 2 |x| - 52)| * 2 ^ (Int.log 2 |x| - 52)
        ≤ 1 / 2 * 2 ^ (Int.log 2 |x| - 52) := mul_le_mul_of_nonneg_right hr hq.le
      _ = 2 ^ Int.log 2 |x| / 2 ^ 53 := by
        rw [hsplit]
        ring
      _ ≤ |x| / 2 ^ 53 := by
        apply div_le_div_of_nonneg_right hlog
        norm_num

/-- The binary64 rounding of a non-negative number is non-negative. -/
theorem toDouble_nonneg {x : ℚ} (hx : 0 ≤ x) : 0 ≤ toDouble x := by
  unfold toDouble
  split_ifs
  · exact le_refl 0
  · have hq : (0 : ℚ) < 2 ^ (Int.log 2 |x| - 52) := zpow_pos (by norm_num) _
    have h : 0 ≤ roundHalfEven (x / 2 ^ (Int.log 2 |x| - 52)) :=
      roundHalfEven_nonneg (div_nonneg hx hq.le)
    exact mul_nonneg (by exact_mod_cast h) hq.le

/-- Evaluation of `toDouble`: exponent `e` and integer significand `n`. -/
theorem toDouble_eq (x : ℚ) (e n : ℤ) (hlo : (2 : ℚ) ^ e ≤ |x|) (hhi : |x| < 2 ^ (e + 1))
    (hn : |x / 2 ^ (e - 52) - (n : ℚ)| < 1 / 2) : toDouble x = (n : ℚ) * 2 ^ (e - 52) := by
  have hpos : 0 < |x| := lt_of_lt_of_le (zpow_pos (by norm_num) _) hlo
  have hx : x ≠ 0 := abs_pos.mp hpos
  have hlog : Int.log 2 |x| = e := by
    apply le_antisymm
    · have : Int.log 2 |x| < e + 1 := by
        rw [← Int.lt_zpow_iff_log_lt (by norm_num) hpos]
        exact_mod_cast hhi
      omega
    · rw [← Int.zpow_le_iff_le_log (by norm_num) hpos]
      exact_mod_cast hlo
  unfold toDouble
  rw [if_neg hx, hlog, roundHalfEven_eq_of_close _ n hn]


/-- Rounding a number that has relative error `δ` against `v`. -/
theorem toDouble_rel (a v δ : ℚ) (h : |a - v| ≤ |v| * δ) :
    |toDouble a - v| ≤ |v| * (δ + (1 + δ) / 2 ^ 53) := by
  have h1 := toDouble_close a
  have h2 : |a| ≤ |v| * (1 + δ) := by
    have := abs_sub_abs_le_abs_sub a v
    linarith
  have h3 : |toDouble a - v| ≤ |toDouble a - a| + |a - v| := abs_sub_le _ _ _
  have h4 : |a| / 2 ^ 53 ≤ |v| * (1 + δ) / 2 ^ 53 :=
    div_le_div_of_nonneg_right h2 (by norm_num)
  calc |toDouble a - v| ≤ |toDouble a - a| + |a - v| := h3
    _ ≤ |v| * (1 + δ) / 2 ^ 53 + |v| * δ := by linarith
    _ = |v| * (δ + (1 + δ) / 2 ^ 53) := by ring

/-- Relative error of a product of two approximations. -/
theorem mul_rel (a x b y δ1 δ2 : ℚ) (h0 : 0 ≤ δ1) (h1 : |a - x| ≤ |x| * δ1)
    (h2 : |b - y| ≤ |y| * δ2) : |a * b - x * y| ≤ |x * y| * (δ1 + δ2 + δ1 * δ2) := by
  have hb : |b| ≤ |y| * (1 + δ2) := by
    have := abs_sub_abs_le_abs_sub b y
    linarith
  have hx : 0 ≤ |x| * δ1 := mul_nonneg (abs_nonneg x) h0
  have e : a * b - x * y = (a - x) * b + x * (b - y) := by ring
  calc |a * b - x * y| = |(a - x) * b + x * (b - y)| := by rw [e]
    _ ≤ |(a - x) * b| + |x * (b - y)| := abs_add _ _
    _ = |a - x| * |b| + |x| * |b - y| := by rw [abs_mul, abs_mul]
    _ ≤ (|x| * δ1) * (|y| * (1 + δ2)) + |x| * (|y| * δ2) :=
      add_le_add (mul_le_mul h1 hb (abs_nonneg b) hx)
        (mul_le_mul_of_nonneg_left h2 (abs_nonneg x))
    _ = |x * y| * (δ1 + δ2 + δ1 * δ2) := by
      rw [abs_mul]
      ring

/-- Relative error of one rounding, in product form. -/
theorem toDouble_rel0 (x : ℚ) : |toDouble x - x| ≤ |x| * (1 / 2 ^ 53) := by
  have := toDouble_close x
  rw [mul_one_div]
  exact this

/-- Binary64 product against the exact product. -/
theorem mul64_close (x y : ℚ) :
    |toDouble (toDouble x * toDouble y) - x * y| ≤ |x * y| / 2 ^ 51 := by
  have h := mul_rel _ x _ y _ _ (by norm_num) (toDouble_rel0 x) (toDouble_rel0 y)
  have h2 := toDouble_rel _ _ _ h
  have hc : (1 / 2 ^ 53 + 1 / 2 ^ 53 + 1 / 2 ^ 53 * (1 / 2 ^ 53) +
      (1 + (1 / 2 ^ 53 + 1 / 2 ^ 53 + 1 / 2 ^ 53 * (1 / 2 ^ 53))) / 2 ^ 53 : ℚ) ≤ 1 / 2 ^ 51 := by
    norm_num
  calc |toDouble (toDouble x * toDouble y) - x * y| ≤ _ := h2
    _ ≤ |x * y| * (1 / 2 ^ 51) := mul_le_mul_of_nonneg_left hc (abs_nonneg _)
    _ = |x * y| / 2 ^ 51 := by rw [mul_one_div]

/-- Binary64 quotient of a binary64 product by an exactly representable divisor. -/
theorem div64_close (x y d : ℚ) (hd : 0 < d) :
    |toDouble (toDouble (toDouble (toDouble x * toDouble y)) / d) - x * y / d| ≤
      |x * y / d| / 2 ^ 50 := by
  have h1 : |toDouble (toDouble x * toDouble y) - x * y| ≤ |x * y| * (1 / 2 ^ 51) := by
    rw [mul_one_div]
    exact mul64_close x y
  have h2 := toDouble_rel _ _ _ h1
  have h3 : |toDouble (toDouble (toDouble x * toDouble y)) / d - x * y / d| ≤
      |x * y / d| * (1 / 2 ^ 51 + (1 + 1 / 2 ^ 51) / 2 ^ 53) := by
    rw [← sub_div, abs_div, abs_div, abs_of_pos hd, div_mul_eq_mul_div]
    exact div_le_div_of_nonneg_right h2 hd.le
  have h4 := toDouble_rel _ _ _ h3
  have hc : (1 / 2 ^ 51 + (1 + 1 / 2 ^ 51) / 2 ^ 53 +
      (1 + (1 / 2 ^ 51 + (1 + 1 / 2 ^ 51) / 2 ^ 53)) / 2 ^ 53 : ℚ) ≤ 1 / 2 ^ 50 := by
    norm_num
  calc |toDouble (toDouble (toDouble (toDouble x * toDouble y)) / d) - x * y / d| ≤ _ := h4
    _ ≤ |x * y / d| * (1 / 2 ^ 50) := mul_le_mul_of_nonneg_left hc (abs_nonneg _)
    _ = |x * y / d| / 2 ^ 50 := by rw [mul_one_div]

/-- Function `Math.round` away from a tie: an argument within `s` of `v` rounds
to `k` when `v` is farther than `s` from the two ties around `k`. -/
theorem roundHalfUp_eq_of_close (g v s : ℚ) (k : ℤ) (hg : |g - v| ≤ s)
    (h1 : (k : ℚ) - 1 / 2 + s ≤ v) (h2 : v < (k : ℚ) + 1 / 2 - s) : roundHalfUp g = k := by
  rw [abs_le] at hg
  unfold roundHalfUp
  rw [Int.floor_eq_iff]
  constructor <;> linarith [hg.1, hg.2]

/-- The divisor 4 is a binary64 number. -/
theorem toDouble_four : toDouble 4 = 4 := by
  have h := toDouble_eq 4 2 (2 ^ 52) (by norm_num) (by norm_num) (by norm_num)
  rw [h]
  norm_num

/-- The divisor 9 is a binary64 number. -/
theorem toDouble_nine : toDouble 9 = 9 := by
  have h := toDouble_eq 9 3 (9 * 2 ^ 49) (by norm_num) (by norm_num) (by norm_num)
  rw [h]
  norm_num


/-- Evaluation of `toDouble` at a positive number. -/
theorem toDouble_eq_pos (x : ℚ) (e n : ℤ) (hlo : (2 : ℚ) ^ e ≤ x) (hhi : x < 2 ^ (e + 1))
    (h1 : (n : ℚ) - 1 / 2 < x / 2 ^ (e - 52)) (h2 : x / 2 ^ (e - 52) < (n : ℚ) + 1 / 2) :
    toDouble x = (n : ℚ) * 2 ^ (e - 52) := by
  have hpos : 0 < x := lt_of_lt_of_le (zpow_pos (by norm_num) _) hlo
  apply toDouble_eq x e n
  · rw [abs_of_pos hpos]
    exact hlo
  · rw [abs_of_pos hpos]
    exact hhi
  · rw [abs_lt]
    constructor <;> linarith

@[simp] theorem jsMul64_some (x y : ℚ) :
    jsMul64 (some x) (some y) = some (toDouble (toDouble x * toDouble y)) := rfl

/-- Binary64 division by 4. -/
theorem jsDiv64_four (x : ℚ) : jsDiv64 (some x) (some 4) = some (toDouble (toDouble x / 4)) := by
  have h : ¬((4 : ℚ) = 0) := by norm_num
  show (if toDouble 4 = 0 then none else some (toDouble (toDouble x / toDouble 4))) = _
  rw [toDouble_four, if_neg h]

/-- Binary64 division by 9. -/
theorem jsDiv64_nine (x : ℚ) : jsDiv64 (some x) (some 9) = some (toDouble (toDouble x / 9)) := by
  have h : ¬((9 : ℚ) = 0) := by norm_num
  show (if toDouble 9 = 0 then none else some (toDouble (toDouble x / toDouble 9))) = _
  rw [toDouble_nine, if_neg h]

/-! ## Biometric calculation -/

/-- Value of `bmr` at the scenario request. -/
theorem scenario_bmr (rt : Runtime) : bmr rt scenarioBody = some 2082.7156 := by
  simp [bmr, scenarioBody, weightInKg, JSVal.toNumber]
  norm_num

/-- Value of `tdee` for a finite `bmr` and a multiplier of the table. -/
theorem tdee_of_bmr (rt : Runtime) (b : Body) (x m : ℚ) (hb : bmr rt b = some x)
    (hm : activityMultipliers b.activityLevel = some m) :
    tdee rt b = some ((roundHalfUp (toDouble (toDouble x * toDouble m)) : ℤ) : ℚ) := by
  unfold tdee
  rw [hb, hm]
  rfl

/-- Away from a tie, `tdee` is the rounding of the exact product. -/
theorem tdee_of_away (rt : Runtime) (b : Body) (x m : ℚ) (k : ℤ) (hb : bmr rt b = some x)
    (hm : activityMultipliers b.activityLevel = some m)
    (h1 : (k : ℚ) - 1 / 2 + |x * m| / 2 ^ 51 ≤ x * m)
    (h2 : x * m < (k : ℚ) + 1 / 2 - |x * m| / 2 ^ 51) : tdee rt b = some (k : ℚ) := by
  rw [tdee_of_bmr rt b x m hb hm, roundHalfUp_eq_of_close _ _ _ k (mul64_close x m) h1 h2]

/-- Value of `tdee` at the scenario request. -/
theorem scenario_tdee (rt : Runtime) : tdee rt scenarioBody = some 3228 := by
  have h := tdee_of_away rt scenarioBody 2082.7156 1.55 3228 (scenario_bmr rt) rfl
    (by rw [abs_of_pos (by norm_num)]; norm_num) (by rw [abs_of_pos (by norm_num)]; norm_num)
  rw [h]
  norm_num

/-- Value of `targetCalories` at the scenario request. -/
theorem scenario_targetCalories (rt : Runtime) :
    targetCalories rt scenarioBody = some 2728 := by
  have hg : scenarioBody.goal = .str "lose" := rfl
  unfold targetCalories
  rw [if_pos hg, scenario_tdee rt, jsSub_some]
  norm_num

/-- C1: at the scenario request (male, age 30, 180 lb, 70 in, moderate, lose)
the handler's `bmr` is 2082.7156: the age term is added, so the value is not
the Mifflin-St Jeor value 10·weightKg + 6.25·heightCm − 5·age + 5 (1782.7156),
and `targetCalories` is 2728 where that formula would give 2263. -/
theorem scenario_male_bmr_adds_age_term (rt : Runtime) :
    bmr rt scenarioBody = some 2082.7156 ∧
      bmr rt scenarioBody ≠ some (10 * (180 * 0.453592) + 6.25 * (70 * 2.54) - 5 * 30 + 5) ∧
      targetCalories rt scenarioBody = some 2728 ∧
      ((roundHalfUp ((10 * (180 * 0.453592) + 6.25 * (70 * 2.54) - 5 * 30 + 5) * 1.55) : ℤ) : ℚ)
        - 500 = 2263 := by
  refine ⟨scenario_bmr rt, ?_, scenario_targetCalories rt, ?_⟩
  · rw [scenario_bmr rt]
    norm_num
  · have hr : roundHalfUp ((10 * (180 * 0.453592) + 6.25 * (70 * 2.54) - 5 * 30 + 5) * 1.55)
        = 2763 := by
      unfold roundHalfUp
      rw [Int.floor_eq_iff]
      norm_num
    rw [hr]
    norm_num

/-- For a gender other than `'male'` the handler takes the `else` branch. -/
theorem bmr_of_ne_male (rt : Runtime) (b : Body) (hg : b.gender ≠ .str "male") :
    bmr rt b =
      jsSub (jsSub (jsAdd (jsMul (some 10) (weightInKg rt b))
        (jsMul (some 6.25) (jsMul (b.height.toNumber rt) (some 2.54))))
        (jsMul (some 5) (b.age.toNumber rt))) (some 161) := by
  unfold bmr
  rw [if_neg hg]

/-- The gender is read by `bmr` only, and only to compare it with `'male'`. -/
theorem bmr_female_eq_other (rt : Runtime) (b : Body) :
    bmr rt { b with gender := .str "female" } = bmr rt { b with gender := .str "other" } := by
  rw [bmr_of_ne_male rt _ (by simp), bmr_of_ne_male rt _ (by simp)]
  rfl

/-- C2: for a validated request whose gender is not 'male' (numeric age,
weight and height), bmr = 10·weightKg + 6.25·heightCm − 5·age − 161 with
weightKg = weight × 0.453592 and heightCm = height × 2.54; and replacing the
gender by 'female' or by 'other' gives the same bmr, tdee, targetCalories and
gram targets. -/
theorem bmr_non_male (rt : Runtime) (b : Body) (a w h : ℚ)
    (hvalid : missingRequired b = false) (hg : b.gender ≠ .str "male")
    (ha : b.age.toNumber rt = some a) (hw : b.weight.toNumber rt = some w)
    (hh : b.height.toNumber rt = some h) :
    bmr rt b = some (10 * (w * 0.453592) + 6.25 * (h * 2.54) - 5 * a - 161) ∧
      bmr rt { b with gender := .str "female" } = bmr rt { b with gender := .str "other" } ∧
      tdee rt { b with gender := .str "female" } = tdee rt { b with gender := .str "other" } ∧
      targetCalories rt { b with gender := .str "female" } =
        targetCalories rt { b with gender := .str "other" } ∧
      proteinGrams rt { b with gender := .str "female" } =
        proteinGrams rt { b with gender := .str "other" } ∧
      carbsGrams rt { b with gender := .str "female" } =
        carbsGrams rt { b with gender := .str "other" } ∧
      fatsGrams rt { b with gender := .str "female" } =
        fatsGrams rt { b with gender := .str "other" } := by
  have _ := hvalid
  have hb := bmr_female_eq_other rt b
  have ht : tdee rt { b with gender := .str "female" } =
      tdee rt { b with gender := .str "other" } := by
    unfold tdee
    rw [hb]
  have hc : targetCalories rt { b with gender := .str "female" } =
      targetCalories rt { b with gender := .str "other" } := by
    unfold targetCalories
    rw [ht]
  refine ⟨?_, hb, ht, hc, ?_, ?_, ?_⟩
  · rw [bmr_of_ne_male rt b hg]
    unfold weightInKg
    rw [ha, hw, hh]
    rfl
  · unfold proteinGrams
    rw [hc]
    rfl
  · unfold carbsGrams
    rw [hc]
    rfl
  · unfold fatsGrams
    rw [hc]
    rfl

/-- Witness of C2 at a 30-year-old female, 140 lb, 65 in. -/
theorem bmr_non_male_witness :
    bmr plainRuntime femaleBody =
      some (10 * (140 * 0.453592) + 6.25 * (65 * 2.54) - 5 * 30 - 161) :=
  (bmr_non_male plainRuntime femaleBody 30 140 65
    (by simp [missingRequired, femaleBody, JSVal.truthy]) (by simp [femaleBody]) rfl rfl rfl).1

/-- Multiplier of a level of the table. -/
theorem activityMultipliers_of_mem (v : JSVal) (m : ℚ)
    (hm : (v, m) ∈
      [(JSVal.str "sedentary", (1.15 : ℚ)), (JSVal.str "light", 1.35),
        (JSVal.str "moderate", 1.55), (JSVal.str "active", 1.75),
        (JSVal.str "veryActive", 1.95)]) : activityMultipliers v = some m := by
  simp only [List.mem_cons, Prod.mk.injEq, List.mem_singleton, List.mem_nil_iff,
    or_false] at hm
  rcases hm with h | h | h | h | h <;> (rw [h.1, h.2]; rfl)

/-- Value of `bmr` at the request of the tie. -/
theorem tie_bmr (rt : Runtime) : bmr rt tieBody = some 1430 := by
  rw [bmr_of_ne_male rt tieBody (by simp [tieBody])]
  simp only [weightInKg, tieBody, JSVal.toNumber, jsMul_some, jsAdd_some, jsSub_some]
  norm_num

/-- Binary64 product 1430 × 1.15: the number below the tie 1644.5. -/
theorem tie_product : toDouble (toDouble 1430 * toDouble 1.15) = 7232587487510527 / 2 ^ 42 := by
  have h1 : toDouble 1430 = 1430 := by
    rw [toDouble_eq_pos 1430 10 (1430 * 2 ^ 42) (by norm_num) (by norm_num) (by norm_num)
      (by norm_num)]
    norm_num
  have h2 : toDouble 1.15 = 5179139571476070 / 2 ^ 52 := by
    rw [toDouble_eq_pos 1.15 0 5179139571476070 (by norm_num) (by norm_num) (by norm_num)
      (by norm_num)]
    norm_num
  rw [h1, h2, toDouble_eq_pos _ 10 7232587487510527 (by norm_num) (by norm_num) (by norm_num)
    (by norm_num)]
  norm_num

/-- C3, as stated, fails: the request of a 15-year-old female, 156.25 lb,
60.3 in, sedentary passes validation; its bmr is 1430 and bmr × 1.15 is the
tie 1644.5, whose rounding is 1645, but the binary64 product of the handler
is 7232587487510527 / 2^42 = 1644.4999999999998 and tdee is 1644. -/
theorem tie_request_tdee_below_round :
    missingRequired tieBody = false ∧
      bmr plainRuntime tieBody = some 1430 ∧
      activityMultipliers tieBody.activityLevel = some 1.15 ∧
      roundHalfUp (1430 * 1.15) = 1645 ∧
      tdee plainRuntime tieBody = some 1644 := by
  refine ⟨?_, tie_bmr plainRuntime, rfl, ?_, ?_⟩
  · simp [missingRequired, tieBody, JSVal.truthy]
    norm_num
  · unfold roundHalfUp
    rw [Int.floor_eq_iff]
    norm_num
  · have hr : roundHalfUp (7232587487510527 / 2 ^ 42) = 1644 := by
      unfold roundHalfUp
      rw [Int.floor_eq_iff]
      norm_num
    rw [tdee_of_bmr plainRuntime tieBody 1430 1.15 (tie_bmr plainRuntime) rfl, tie_product, hr]
    norm_num

/-- C3 (amended): for a request whose activityLevel is sedentary, light,
moderate, active or veryActive, with m = 1.15, 1.35, 1.55, 1.75, 1.95
respectively: tdee is not a number when bmr is not; for a finite bmr, tdee is
`Math.round` of the binary64 product bmr × m, an integer within
1/2 + |bmr × m| / 2^51 of bmr × m, and it is round(bmr × m) whenever bmr × m is
farther than |bmr × m| / 2^51 from the two ties around that integer. -/
theorem tdee_by_activity_binary64 (rt : Runtime) (b : Body) (m : ℚ)
    (hm : (b.activityLevel, m) ∈
      [(JSVal.str "sedentary", (1.15 : ℚ)), (JSVal.str "light", 1.35),
        (JSVal.str "moderate", 1.55), (JSVal.str "active", 1.75),
        (JSVal.str "veryActive", 1.95)]) :
    (bmr rt b = none → tdee rt b = none) ∧
      ∀ x : ℚ, bmr rt b = some x →
        tdee rt b = some ((roundHalfUp (toDouble (toDouble x * toDouble m)) : ℤ) : ℚ) ∧
          (∃ t : ℤ, tdee rt b = some (t : ℚ) ∧ |(t : ℚ) - x * m| ≤ 1 / 2 + |x * m| / 2 ^ 51) ∧
          ∀ k : ℤ, (k : ℚ) - 1 / 2 + |x * m| / 2 ^ 51 ≤ x * m →
            x * m < (k : ℚ) + 1 / 2 - |x * m| / 2 ^ 51 →
            tdee rt b = some (k : ℚ) ∧ roundHalfUp (x * m) = k := by
  have hlook := activityMultipliers_of_mem b.activityLevel m hm
  refine ⟨fun hb => ?_, fun x hb => ⟨tdee_of_bmr rt b x m hb hlook, ?_, fun k h1 h2 => ?_⟩⟩
  · unfold tdee
    rw [hb]
    rfl
  · refine ⟨_, tdee_of_bmr rt b x m hb hlook, ?_⟩
    have hc := abs_le.mp (mul64_close x m)
    have hu := roundHalfUp_le (toDouble (toDouble x * toDouble m))
    have hl := lt_roundHalfUp (toDouble (toDouble x * toDouble m))
    rw [abs_le]
    constructor <;> linarith [hc.1, hc.2]
  · refine ⟨tdee_of_away rt b x m k hb hlook h1 h2, ?_⟩
    have hs : (0 : ℚ) ≤ |x * m| / 2 ^ 51 := by positivity
    unfold roundHalfUp
    rw [Int.floor_eq_iff]
    constructor <;> linarith

/-- Witness of C3 (amended) at the scenario request (moderate, multiplier
1.55): bmr × 1.55 = 3228.20918 is away from a tie, and tdee is 3228. -/
theorem tdee_by_activity_binary64_witness :
    tdee plainRuntime scenarioBody = some ((3228 : ℤ) : ℚ) ∧
      roundHalfUp (2082.7156 * 1.55) = 3228 :=
  (tdee_by_activity_binary64 plainRuntime scenarioBody 1.55 (by simp [scenarioBody])).2
    2082.7156 (scenario_bmr plainRuntime) |>.2.2 3228
    (by rw [abs_of_pos (by norm_num)]; norm_num) (by rw [abs_of_pos (by norm_num)]; norm_num)

/-- C4: targetCalories = tdee − 500 when goal is 'lose', tdee + 500 when goal
is 'gain', and tdee for every other goal value. -/
theorem targetCalories_by_goal (rt : Runtime) (b : Body) (t : ℚ) (ht : tdee rt b = some t) :
    (b.goal = .str "lose" → targetCalories rt b = some (t - 500)) ∧
      (b.goal = .str "gain" → targetCalories rt b = some (t + 500)) ∧
      (b.goal ≠ .str "lose" → b.goal ≠ .str "gain" → targetCalories rt b = some t) := by
  refine ⟨fun h => ?_, fun h => ?_, fun h1 h2 => ?_⟩
  · unfold targetCalories
    rw [if_pos h, ht]
    rfl
  · have hne : b.goal ≠ .str "lose" := by rw [h]; simp
    unfold targetCalories
    rw [if_neg hne, if_pos h, ht]
    rfl
  · unfold targetCalories
    rw [if_neg h1, if_neg h2, ht]

/-- Witness of C4 at the scenario request (goal 'lose'). -/
theorem targetCalories_by_goal_witness :
    targetCalories plainRuntime scenarioBody = some (3228 - 500) :=
  (targetCalories_by_goal plainRuntime scenarioBody 3228 (scenario_tdee plainRuntime)).1 rfl

/-- C5: the macro ratios (protein, carbs, fat) are (.25,.45,.30) when goal is
'gain' and dietaryPreferences is 'vegetarian' or 'vegan'; (.35,.35,.30) when
goal is 'gain' with any other dietaryPreferences; (.35,.40,.25) when goal is
'lose'; (.30,.40,.30) for every other goal, whatever dietaryPreferences is; and
in every case the three ratios sum to 1. -/
theorem macroRatios_by_goal_and_diet (b : Body) :
    (b.goal = .str "gain" →
        (b.dietaryPreferences = .str "vegetarian" ∨ b.dietaryPreferences = .str "vegan") →
        macroRatios b = { protein := 0.25, carbs := 0.45, fats := 0.30 }) ∧
      (b.goal = .str "gain" → b.dietaryPreferences ≠ .str "vegetarian" →
        b.dietaryPreferences ≠ .str "vegan" →
        macroRatios b = { protein := 0.35, carbs := 0.35, fats := 0.30 }) ∧
      (b.goal = .str "lose" →
        macroRatios b = { protein := 0.35, carbs := 0.40, fats := 0.25 }) ∧
      (b.goal ≠ .str "gain" → b.goal ≠ .str "lose" →
        macroRatios b = { protein := 0.30, carbs := 0.40, fats := 0.30 }) ∧
      (macroRatios b).protein + (macroRatios b).carbs + (macroRatios b).fats = 1 := by
  refine ⟨fun hg hd => ?_, fun hg h1 h2 => ?_, fun hl => ?_, fun h1 h2 => ?_, ?_⟩
  · unfold macroRatios
    rw [if_pos hg, if_pos hd]
  · have hd : ¬(b.dietaryPreferences = .str "vegetarian" ∨ b.dietaryPreferences = .str "vegan") :=
      fun h => h.elim h1 h2
    unfold macroRatios
    rw [if_pos hg, if_neg hd]
  · have hg : b.goal ≠ .str "gain" := by rw [hl]; simp
    unfold macroRatios
    rw [if_neg hg, if_pos hl]
  · unfold macroRatios
    rw [if_neg h1, if_neg h2]
  · unfold macroRatios
    split_ifs <;> norm_num

/-- Witness of C5 at the scenario request (goal 'lose'). -/
theorem macroRatios_by_goal_and_diet_witness :
    macroRatios scenarioBody = { protein := 0.35, carbs := 0.40, fats := 0.25 } :=
  (macroRatios_by_goal_and_diet scenarioBody).2.2.1 rfl

/-- Gram targets in terms of a finite `targetCalories`: the divisors 4 and 9
are binary64 numbers other than zero, so each quotient is finite. -/
theorem grams_of_targetCalories (rt : Runtime) (b : Body) (c : ℚ)
    (hc : targetCalories rt b = some c) :
    proteinGrams rt b =
        some ((roundHalfUp (toDouble (toDouble (toDouble (toDouble c * toDouble (macroRatios b).protein)) / 4)) : ℤ) : ℚ) ∧
      carbsGrams rt b =
        some ((roundHalfUp (toDouble (toDouble (toDouble (toDouble c * toDouble (macroRatios b).carbs)) / 4)) : ℤ) : ℚ) ∧
      fatsGrams rt b =
        some ((roundHalfUp (toDouble (toDouble (toDouble (toDouble c * toDouble (macroRatios b).fats)) / 9)) : ℤ) : ℚ) := by
  refine ⟨?_, ?_, ?_⟩
  · unfold proteinGrams
    rw [hc, jsMul64_some, jsDiv64_four, mathRound_some]
  · unfold carbsGrams
    rw [hc, jsMul64_some, jsDiv64_four, mathRound_some]
  · unfold fatsGrams
    rw [hc, jsMul64_some, jsDiv64_nine, mathRound_some]

/-- Gram targets are not numbers when `targetCalories` is not. -/
theorem grams_of_nan (rt : Runtime) (b : Body) (hc : targetCalories rt b = none) :
    proteinGrams rt b = none ∧ carbsGrams rt b = none ∧ fatsGrams rt b = none := by
  unfold proteinGrams carbsGrams fatsGrams
  rw [hc]
  exact ⟨rfl, rfl, rfl⟩

/-- Rounded binary64 quotient against the exact quotient. -/
theorem round_div64_close (c r d : ℚ) (hd : 0 < d) :
    |((roundHalfUp (toDouble (toDouble (toDouble (toDouble c * toDouble r)) / d)) : ℤ) : ℚ) - c * r / d| ≤
      1 / 2 + |c * r / d| / 2 ^ 50 := by
  have hc := abs_le.mp (div64_close c r d hd)
  have hu := roundHalfUp_le (toDouble (toDouble (toDouble (toDouble c * toDouble r)) / d))
  have hl := lt_roundHalfUp (toDouble (toDouble (toDouble (toDouble c * toDouble r)) / d))
  rw [abs_le]
  constructor <;> linarith [hc.1, hc.2]

/-- Rounded binary64 quotient away from a tie: it is the rounding of the exact
quotient. -/
theorem round_div64_of_away (c r d : ℚ) (k : ℤ) (hd : 0 < d)
    (h1 : (k : ℚ) - 1 / 2 + |c * r / d| / 2 ^ 50 ≤ c * r / d)
    (h2 : c * r / d < (k : ℚ) + 1 / 2 - |c * r / d| / 2 ^ 50) :
    roundHalfUp (toDouble (toDouble (toDouble (toDouble c * toDouble r)) / d)) = k ∧
      roundHalfUp (c * r / d) = k := by
  refine ⟨roundHalfUp_eq_of_close _ _ _ k (div64_close c r d hd) h1 h2, ?_⟩
  have hs : (0 : ℚ) ≤ |c * r / d| / 2 ^ 50 := by positivity
  unfold roundHalfUp
  rw [Int.floor_eq_iff]
  constructor <;> linarith

/-- Value of `bmr` at the request of the gram tie. -/
theorem gain_bmr (rt : Runtime) : bmr rt gainBody = some 1383.11932 := by
  rw [bmr_of_ne_male rt gainBody (by simp [gainBody])]
  simp only [weightInKg, gainBody, JSVal.toNumber, jsMul_some, jsAdd_some, jsSub_some]
  norm_num

/-- Value of `targetCalories` at the request of the gram tie. -/
theorem gain_targetCalories (rt : Runtime) : targetCalories rt gainBody = some 2920 := by
  have ht := tdee_of_away rt gainBody 1383.11932 1.75 2420 (gain_bmr rt) rfl
    (by rw [abs_of_pos (by norm_num)]; norm_num) (by rw [abs_of_pos (by norm_num)]; norm_num)
  have h1 : gainBody.goal ≠ .str "lose" := by simp [gainBody]
  have h2 : gainBody.goal = .str "gain" := rfl
  unfold targetCalories
  rw [if_neg h1, if_pos h2, ht, jsAdd_some]
  norm_num

/-- Binary64 quotient (2920 × 0.35) / 4: the number below the tie 255.5. -/
theorem gain_quotient :
    toDouble (toDouble (toDouble (toDouble 2920 * toDouble 0.35)) / 4) =
      8989607068696575 / 2 ^ 45 := by
  have h1 : toDouble 2920 = 2920 := by
    rw [toDouble_eq_pos 2920 11 (2920 * 2 ^ 41) (by norm_num) (by norm_num) (by norm_num)
      (by norm_num)]
    norm_num
  have h2 : toDouble 0.35 = 6305039478318694 / 2 ^ 54 := by
    rw [toDouble_eq_pos 0.35 (-2) 6305039478318694 (by norm_num) (by norm_num) (by norm_num)
      (by norm_num)]
    norm_num
  have h3 : toDouble (2920 * (6305039478318694 / 2 ^ 54)) = 8989607068696575 / 2 ^ 43 := by
    rw [toDouble_eq_pos _ 9 8989607068696575 (by norm_num) (by norm_num) (by norm_num)
      (by norm_num)]
    norm_num
  have h4 : toDouble (8989607068696575 / 2 ^ 43) = 8989607068696575 / 2 ^ 43 := by
    rw [toDouble_eq_pos _ 9 8989607068696575 (by norm_num) (by norm_num) (by norm_num)
      (by norm_num)]
    norm_num
  have h5 : toDouble (8989607068696575 / 2 ^ 43 / 4) = 8989607068696575 / 2 ^ 45 := by
    rw [toDouble_eq_pos _ 7 8989607068696575 (by norm_num) (by norm_num) (by norm_num)
      (by norm_num)]
    norm_num
  rw [h1, h2, h3, h4, h5]

/-- C6, as stated, fails: the request of a 30-year-old female, 146 lb, 65 in,
active, goal 'gain' passes validation; its targetCalories is 2920 and its
protein and carbs ratios are 0.35, so targetCalories·ratio/4 is the tie 255.5,
whose rounding is 256, but the binary64 quotient of the handler is
8989607068696575 / 2^45 = 255.49999999999997 and both gram targets are 255. -/
theorem gain_request_grams_below_round :
    missingRequired gainBody = false ∧
      targetCalories plainRuntime gainBody = some 2920 ∧
      macroRatios gainBody = { protein := 0.35, carbs := 0.35, fats := 0.30 } ∧
      roundHalfUp (2920 * 0.35 / 4) = 256 ∧
      proteinGrams plainRuntime gainBody = some 255 ∧
      carbsGrams plainRuntime gainBody = some 255 := by
  have hm : macroRatios gainBody = { protein := 0.35, carbs := 0.35, fats := 0.30 } := by
    simp [macroRatios, gainBody]
  have hr : roundHalfUp (8989607068696575 / 2 ^ 45) = 255 := by
    unfold roundHalfUp
    rw [Int.floor_eq_iff]
    norm_num
  obtain ⟨hp, hcb, _⟩ :=
    grams_of_targetCalories plainRuntime gainBody 2920 (gain_targetCalories plainRuntime)
  rw [hm] at hp hcb
  refine ⟨by simp [missingRequired, gainBody, JSVal.truthy],
    gain_targetCalories plainRuntime, hm, ?_, ?_, ?_⟩
  · unfold roundHalfUp
    rw [Int.floor_eq_iff]
    norm_num
  · rw [hp, gain_quotient, hr]
    norm_num
  · rw [hcb, gain_quotient, hr]
    norm_num

/-- C6 (amended): the gram targets are not numbers when targetCalories is not;
for a finite targetCalories c, each gram target is `Math.round` of the binary64
quotient (c × ratio) / d, with d = 4 for protein and carbs, d = 9 for fat and
the ratios selected for the request's goal and diet: an integer within
1/2 + |c·ratio/d| / 2^50 of c·ratio/d, which is round(c·ratio/d) whenever
c·ratio/d is farther than |c·ratio/d| / 2^50 from the two ties around that
integer. -/
theorem grams_from_targetCalories_binary64 (rt : Runtime) (b : Body) :
    (targetCalories rt b = none →
        proteinGrams rt b = none ∧ carbsGrams rt b = none ∧ fatsGrams rt b = none) ∧
      ∀ c : ℚ, targetCalories rt b = some c →
        ∃ p cb f : ℤ, proteinGrams rt b = some (p : ℚ) ∧ carbsGrams rt b = some (cb : ℚ) ∧
          fatsGrams rt b = some (f : ℚ) ∧
          p = roundHalfUp (toDouble (toDouble (toDouble (toDouble c * toDouble (macroRatios b).protein)) / 4)) ∧
          cb = roundHalfUp (toDouble (toDouble (toDouble (toDouble c * toDouble (macroRatios b).carbs)) / 4)) ∧
          f = roundHalfUp (toDouble (toDouble (toDouble (toDouble c * toDouble (macroRatios b).fats)) / 9)) ∧
          |(p : ℚ) - c * (macroRatios b).protein / 4| ≤ 1 / 2 + |c * (macroRatios b).protein / 4| / 2 ^ 50 ∧
          |(cb : ℚ) - c * (macroRatios b).carbs / 4| ≤ 1 / 2 + |c * (macroRatios b).carbs / 4| / 2 ^ 50 ∧
          |(f : ℚ) - c * (macroRatios b).fats / 9| ≤ 1 / 2 + |c * (macroRatios b).fats / 9| / 2 ^ 50 ∧
          (∀ k : ℤ, (k : ℚ) - 1 / 2 + |c * (macroRatios b).protein / 4| / 2 ^ 50 ≤ c * (macroRatios b).protein / 4 →
            c * (macroRatios b).protein / 4 < (k : ℚ) + 1 / 2 - |c * (macroRatios b).protein / 4| / 2 ^ 50 →
            p = k ∧ roundHalfUp (c * (macroRatios b).protein / 4) = k) ∧
          (∀ k : ℤ, (k : ℚ) - 1 / 2 + |c * (macroRatios b).carbs / 4| / 2 ^ 50 ≤ c * (macroRatios b).carbs / 4 →
            c * (macroRatios b).carbs / 4 < (k : ℚ) + 1 / 2 - |c * (macroRatios b).carbs / 4| / 2 ^ 50 →
            cb = k ∧ roundHalfUp (c * (macroRatios b).carbs / 4) = k) ∧
          (∀ k : ℤ, (k : ℚ) - 1 / 2 + |c * (macroRatios b).fats / 9| / 2 ^ 50 ≤ c * (macroRatios b).fats / 9 →
            c * (macroRatios b).fats / 9 < (k : ℚ) + 1 / 2 - |c * (macroRatios b).fats / 9| / 2 ^ 50 →
            f = k ∧ roundHalfUp (c * (macroRatios b).fats / 9) = k) := by
  refine ⟨grams_of_nan rt b, fun c hc => ?_⟩
  obtain ⟨hp, hcb, hf⟩ := grams_of_targetCalories rt b c hc
  exact ⟨_, _, _, hp, hcb, hf, rfl, rfl, rfl,
    round_div64_close c _ 4 (by norm_num), round_div64_close c _ 4 (by norm_num),
    round_div64_close c _ 9 (by norm_num),
    fun k h1 h2 => round_div64_of_away c _ 4 k (by norm_num) h1 h2,
    fun k h1 h2 => round_div64_of_away c _ 4 k (by norm_num) h1 h2,
    fun k h1 h2 => round_div64_of_away c _ 9 k (by norm_num) h1 h2⟩

/-- Witness of C6 (amended) at the scenario request, whose targetCalories is
2728: 2728 × 0.35 / 4 = 238.7 is away from a tie, and proteinGrams is 239. -/
theorem grams_from_targetCalories_binary64_witness :
    proteinGrams plainRuntime scenarioBody = some ((239 : ℤ) : ℚ) ∧
      roundHalfUp (2728 * (macroRatios scenarioBody).protein / 4) = 239 := by
  obtain ⟨p, cb, f, hp, _, _, _, _, _, _, _, _, hk, _, _⟩ :=
    (grams_from_targetCalories_binary64 plainRuntime scenarioBody).2 2728
      (scenario_targetCalories plainRuntime)
  have hr : (macroRatios scenarioBody).protein = 0.35 := by
    simp [macroRatios, scenarioBody]
  have h := hk 239
    (by rw [hr, abs_of_pos (by norm_num)]; norm_num)
    (by rw [hr, abs_of_pos (by norm_num)]; norm_num)
  rw [hp, h.1]
  exact ⟨rfl, h.2⟩

/-- With numeric age, weight and height, `bmr` is a finite number. -/
theorem bmr_finite (rt : Runtime) (b : Body) (a w h : ℚ)
    (ha : b.age.toNumber rt = some a) (hw : b.weight.toNumber rt = some w)
    (hh : b.height.toNumber rt = some h) : ∃ x : ℚ, bmr rt b = some x := by
  unfold bmr weightInKg
  rw [ha, hw, hh]
  split_ifs <;> exact ⟨_, rfl⟩

/-- With a finite `bmr` and a level of the table, `tdee` is an integer. -/
theorem tdee_integer (rt : Runtime) (b : Body) (x : ℚ) (hb : bmr rt b = some x)
    (hact : b.activityLevel ∈ [JSVal.str "sedentary", JSVal.str "light", JSVal.str "moderate",
      JSVal.str "active", JSVal.str "veryActive"]) :
    ∃ t : ℤ, tdee rt b = some (t : ℚ) := by
  have hlook : ∃ m : ℚ, activityMultipliers b.activityLevel = some m := by
    simp only [List.mem_cons, List.mem_singleton, List.mem_nil_iff, or_false] at hact
    rcases hact with h | h | h | h | h <;> (rw [h]; exact ⟨_, rfl⟩)
  obtain ⟨m, hm⟩ := hlook
  exact ⟨_, tdee_of_bmr rt b x m hb hm⟩

/-- With an integer `tdee`, `targetCalories` is an integer. -/
theorem targetCalories_integer (rt : Runtime) (b : Body) (t : ℤ)
    (ht : tdee rt b = some (t : ℚ)) : ∃ c : ℤ, targetCalories rt b = some (c : ℚ) := by
  unfold targetCalories
  rw [ht]
  split_ifs
  · exact ⟨t - 500, by simp⟩
  · exact ⟨t + 500, by simp⟩
  · exact ⟨t, rfl⟩

/-- The ratios chosen by the handler sum to one. -/
theorem macroRatios_sum (b : Body) :
    (macroRatios b).protein + (macroRatios b).carbs + (macroRatios b).fats = 1 := by
  unfold macroRatios
  split_ifs <;> norm_num

/-- The ratios chosen by the handler are not negative. -/
theorem macroRatios_nonneg (b : Body) :
    0 ≤ (macroRatios b).protein ∧ 0 ≤ (macroRatios b).carbs ∧ 0 ≤ (macroRatios b).fats := by
  unfold macroRatios
  split_ifs <;> norm_num

/-- Calories of the rounded gram targets against the integer calories they
split: each rounding moves a gram value by at most one half, the binary64
operations move the sum by less than one half, and the difference is an
integer. -/
theorem rounded_macros_close (c : ℤ) (p cb f : ℚ) (hsum : p + cb + f = 1) (hp : 0 ≤ p)
    (hcb : 0 ≤ cb) (hf : 0 ≤ f) (hc : |(c : ℚ)| ≤ 10 ^ 12) :
    |((roundHalfUp (toDouble (toDouble (toDouble (toDouble (c : ℚ) * toDouble p)) / 4)) : ℤ) : ℚ) * 4 +
        ((roundHalfUp (toDouble (toDouble (toDouble (toDouble (c : ℚ) * toDouble cb)) / 4)) : ℤ) : ℚ) * 4 +
        ((roundHalfUp (toDouble (toDouble (toDouble (toDouble (c : ℚ) * toDouble f)) / 9)) : ℤ) : ℚ) * 9 - (c : ℚ)| ≤ 8.5 := by
  have e1 := abs_le.mp (div64_close (c : ℚ) p 4 (by norm_num))
  have e2 := abs_le.mp (div64_close (c : ℚ) cb 4 (by norm_num))
  have e3 := abs_le.mp (div64_close (c : ℚ) f 9 (by norm_num))
  have a1 : |(c : ℚ) * p / 4| = |(c : ℚ)| * p / 4 := by
    rw [abs_div, abs_mul, abs_of_nonneg hp, abs_of_pos (by norm_num : (0 : ℚ) < 4)]
  have a2 : |(c : ℚ) * cb / 4| = |(c : ℚ)| * cb / 4 := by
    rw [abs_div, abs_mul, abs_of_nonneg hcb, abs_of_pos (by norm_num : (0 : ℚ) < 4)]
  have a3 : |(c : ℚ) * f / 9| = |(c : ℚ)| * f / 9 := by
    rw [abs_div, abs_mul, abs_of_nonneg hf, abs_of_pos (by norm_num : (0 : ℚ) < 9)]
  rw [a1] at e1
  rw [a2] at e2
  rw [a3] at e3
  have u1 := roundHalfUp_le (toDouble (toDouble (toDouble (toDouble (c : ℚ) * toDouble p)) / 4))
  have l1 := lt_roundHalfUp (toDouble (toDouble (toDouble (toDouble (c : ℚ) * toDouble p)) / 4))
  have u2 := roundHalfUp_le (toDouble (toDouble (toDouble (toDouble (c : ℚ) * toDouble cb)) / 4))
  have l2 := lt_roundHalfUp (toDouble (toDouble (toDouble (toDouble (c : ℚ) * toDouble cb)) / 4))
  have u3 := roundHalfUp_le (toDouble (toDouble (toDouble (toDouble (c : ℚ) * toDouble f)) / 9))
  have l3 := lt_roundHalfUp (toDouble (toDouble (toDouble (toDouble (c : ℚ) * toDouble f)) / 9))
  have hs1 : |(c : ℚ)| * p + |(c : ℚ)| * cb + |(c : ℚ)| * f = |(c : ℚ)| := by
    rw [← mul_add, ← mul_add, hsum, mul_one]
  have hs2 : (c : ℚ) * p + (c : ℚ) * cb + (c : ℚ) * f = (c : ℚ) := by
    rw [← mul_add, ← mul_add, hsum, mul_one]
  generalize roundHalfUp (toDouble (toDouble (toDouble (toDouble (c : ℚ) * toDouble p)) / 4)) = P at u1 l1 ⊢
  generalize roundHalfUp (toDouble (toDouble (toDouble (toDouble (c : ℚ) * toDouble cb)) / 4)) = C at u2 l2 ⊢
  generalize roundHalfUp (toDouble (toDouble (toDouble (toDouble (c : ℚ) * toDouble f)) / 9)) = F at u3 l3 ⊢
  have hlt : ((P * 4 + C * 4 + F * 9 - c : ℤ) : ℚ) < 9 := by
    push_cast
    linarith [e1.2, e2.2, e3.2]
  have hgt : (-9 : ℚ) < ((P * 4 + C * 4 + F * 9 - c : ℤ) : ℚ) := by
    push_cast
    linarith [e1.1, e2.1, e3.1]
  have h1 : P * 4 + C * 4 + F * 9 - c < 9 := by exact_mod_cast hlt
  have h2 : -9 < P * 4 + C * 4 + F * 9 - c := by exact_mod_cast hgt
  have h3 : ((P * 4 + C * 4 + F * 9 - c : ℤ) : ℚ) ≤ 8 := by exact_mod_cast (by omega :
    P * 4 + C * 4 + F * 9 - c ≤ 8)
  have h4 : (-8 : ℚ) ≤ ((P * 4 + C * 4 + F * 9 - c : ℤ) : ℚ) := by exact_mod_cast (by omega :
    -8 ≤ P * 4 + C * 4 + F * 9 - c)
  push_cast at h3 h4
  rw [abs_le]
  constructor <;> linarith

/-- C7, as stated, fails: the scenario request with the weight 'heavy' passes
validation and has the recognized activityLevel 'moderate', but its weight is
not a number, so targetCalories and the three gram targets are `NaN` and the
inequality does not hold. -/
theorem heavy_request_targets_nan :
    missingRequired heavyBody = false ∧
      heavyBody.activityLevel = .str "moderate" ∧
      targetCalories decimalRuntime heavyBody = none ∧
      proteinGrams decimalRuntime heavyBody = none ∧
      carbsGrams decimalRuntime heavyBody = none ∧
      fatsGrams decimalRuntime heavyBody = none := by
  have hb : bmr decimalRuntime heavyBody = none := by
    simp [bmr, heavyBody, scenarioBody, weightInKg, JSVal.toNumber, decimalRuntime,
      readDecimal, jsMul, jsAdd]
  have ht : targetCalories decimalRuntime heavyBody = none := by
    unfold targetCalories tdee
    rw [hb]
    rfl
  exact ⟨by simp [missingRequired, heavyBody, scenarioBody, JSVal.truthy], rfl, ht,
    grams_of_nan decimalRuntime heavyBody ht⟩

/-- C7 (amended): for a validated request with numeric age, weight and height
and a recognized activityLevel, targetCalories and the three gram targets are
integers, and |proteinGrams·4 + carbsGrams·4 + fatsGrams·9 − targetCalories| ≤ 8.5
whenever |targetCalories| ≤ 10^12. -/
theorem macro_calories_within_rounding_of_numeric (rt : Runtime) (b : Body) (a w h : ℚ)
    (hvalid : missingRequired b = false)
    (ha : b.age.toNumber rt = some a) (hw : b.weight.toNumber rt = some w)
    (hh : b.height.toNumber rt = some h)
    (hact : b.activityLevel ∈ [JSVal.str "sedentary", JSVal.str "light", JSVal.str "moderate",
      JSVal.str "active", JSVal.str "veryActive"]) :
    ∃ c p cb f : ℤ, targetCalories rt b = some (c : ℚ) ∧ proteinGrams rt b = some (p : ℚ) ∧
      carbsGrams rt b = some (cb : ℚ) ∧ fatsGrams rt b = some (f : ℚ) ∧
      (|(c : ℚ)| ≤ 10 ^ 12 → |(p : ℚ) * 4 + (cb : ℚ) * 4 + (f : ℚ) * 9 - (c : ℚ)| ≤ 8.5) := by
  have _ := hvalid
  obtain ⟨x, hx⟩ := bmr_finite rt b a w h ha hw hh
  obtain ⟨t, ht⟩ := tdee_integer rt b x hx hact
  obtain ⟨c, hc⟩ := targetCalories_integer rt b t ht
  obtain ⟨hp, hcb, hf⟩ := grams_of_targetCalories rt b c hc
  obtain ⟨r1, r2, r3⟩ := macroRatios_nonneg b
  exact ⟨c, _, _, _, hc, hp, hcb, hf,
    fun hbound => rounded_macros_close c _ _ _ (macroRatios_sum b) r1 r2 r3 hbound⟩

/-- Witness of C7 (amended) at the scenario request, whose targetCalories is
2728 and whose gram targets are 239, 273 and 76. -/
theorem macro_calories_within_rounding_of_numeric_witness :
    ∃ c p cb f : ℤ, targetCalories plainRuntime scenarioBody = some (c : ℚ) ∧
      proteinGrams plainRuntime scenarioBody = some (p : ℚ) ∧
      carbsGrams plainRuntime scenarioBody = some (cb : ℚ) ∧
      fatsGrams plainRuntime scenarioBody = some (f : ℚ) ∧
      (|(c : ℚ)| ≤ 10 ^ 12 → |(p : ℚ) * 4 + (cb : ℚ) * 4 + (f : ℚ) * 9 - (c : ℚ)| ≤ 8.5) :=
  macro_calories_within_rounding_of_numeric plainRuntime scenarioBody 30 180 70
    (by simp [missingRequired, scenarioBody, JSVal.truthy]) rfl rfl rfl
    (by simp [scenarioBody])

/-- Value of `targetCalories` at the small-frame request. -/
theorem frail_targetCalories (rt : Runtime) : targetCalories rt frailBody = some (-68) := by
  have hb : bmr rt frailBody = some 375.5302 := by
    simp [bmr, frailBody, weightInKg, JSVal.toNumber]
    norm_num
  have ht := tdee_of_away rt frailBody 375.5302 1.15 432 hb rfl
    (by rw [abs_of_pos (by norm_num)]; norm_num) (by rw [abs_of_pos (by norm_num)]; norm_num)
  have hg : frailBody.goal = .str "lose" := rfl
  unfold targetCalories
  rw [if_pos hg, ht, jsSub_some]
  norm_num

/-- C8, as stated, fails: the request of a 90-year-old female, 60 lb, 45 in,
sedentary, goal 'lose' passes validation and is a valid profile, and its gram
targets are −6, −7 and −2. -/
theorem frail_request_negative_grams :
    missingRequired frailBody = false ∧
      proteinGrams plainRuntime frailBody = some (-6) ∧
      carbsGrams plainRuntime frailBody = some (-7) ∧
      fatsGrams plainRuntime frailBody = some (-2) := by
  obtain ⟨hp, hcb, hf⟩ :=
    grams_of_targetCalories plainRuntime frailBody (-68) (frail_targetCalories plainRuntime)
  have hm : macroRatios frailBody = { protein := 0.35, carbs := 0.40, fats := 0.25 } := by
    simp [macroRatios, frailBody]
  have r1 := (round_div64_of_away (-68) 0.35 4 (-6) (by norm_num)
    (by rw [abs_of_neg (by norm_num)]; norm_num) (by rw [abs_of_neg (by norm_num)]; norm_num)).1
  have r2 := (round_div64_of_away (-68) 0.40 4 (-7) (by norm_num)
    (by rw [abs_of_neg (by norm_num)]; norm_num) (by rw [abs_of_neg (by norm_num)]; norm_num)).1
  have r3 := (round_div64_of_away (-68) 0.25 9 (-2) (by norm_num)
    (by rw [abs_of_neg (by norm_num)]; norm_num) (by rw [abs_of_neg (by norm_num)]; norm_num)).1
  rw [hm] at hp hcb hf
  refine ⟨by simp [missingRequired, frailBody, JSVal.truthy], ?_, ?_, ?_⟩
  · rw [hp, r1]
    norm_num
  · rw [hcb, r2]
    norm_num
  · rw [hf, r3]
    norm_num

/-- C8 (amended): for every valid profile (integer age ≥ 13, weight > 0,
height > 0, gender male/female/other, one of the five activity levels, goal
lose/gain/maintain) targetCalories, proteinGrams, carbsGrams and fatsGrams are
integers, and the three gram targets are non-negative whenever
targetCalories ≥ 0. -/
theorem grams_integers_nonneg_of_target_nonneg (rt : Runtime) (b : Body) (n : ℤ) (w h : ℚ)
    (ha : b.age.toNumber rt = some (n : ℚ)) (hn : 13 ≤ n)
    (hw : b.weight.toNumber rt = some w) (hwpos : 0 < w)
    (hh : b.height.toNumber rt = some h) (hhpos : 0 < h)
    (hgender : b.gender ∈ [JSVal.str "male", JSVal.str "female", JSVal.str "other"])
    (hact : b.activityLevel ∈ [JSVal.str "sedentary", JSVal.str "light", JSVal.str "moderate",
      JSVal.str "active", JSVal.str "veryActive"])
    (hgoal : b.goal ∈ [JSVal.str "lose", JSVal.str "gain", JSVal.str "maintain"]) :
    ∃ c p cb f : ℤ, targetCalories rt b = some (c : ℚ) ∧ proteinGrams rt b = some (p : ℚ) ∧
      carbsGrams rt b = some (cb : ℚ) ∧ fatsGrams rt b = some (f : ℚ) ∧
      (0 ≤ c → 0 ≤ p ∧ 0 ≤ cb ∧ 0 ≤ f) := by
  have _ := hn
  have _ := hwpos
  have _ := hhpos
  have _ := hgender
  have _ := hgoal
  obtain ⟨x, hx⟩ := bmr_finite rt b n w h ha hw hh
  obtain ⟨t, ht⟩ := tdee_integer rt b x hx hact
  obtain ⟨c, hc⟩ := targetCalories_integer rt b t ht
  obtain ⟨hp, hcb, hf⟩ := grams_of_targetCalories rt b c hc
  obtain ⟨r1, r2, r3⟩ := macroRatios_nonneg b
  refine ⟨c, _, _, _, hc, hp, hcb, hf, fun h0 => ?_⟩
  have hc0 : (0 : ℚ) ≤ c := by exact_mod_cast h0
  have key : ∀ r d : ℚ, 0 ≤ r → 0 < d →
      0 ≤ roundHalfUp (toDouble (toDouble (toDouble (toDouble (c : ℚ) * toDouble r)) / d)) :=
    fun r d hr hd => roundHalfUp_nonneg (toDouble_nonneg (div_nonneg (toDouble_nonneg
      (toDouble_nonneg (mul_nonneg (toDouble_nonneg hc0) (toDouble_nonneg hr)))) hd.le))
  exact ⟨key _ 4 r1 (by norm_num), key _ 4 r2 (by norm_num), key _ 9 r3 (by norm_num)⟩

/-- Witness of C8 (amended) at the scenario request. -/
theorem grams_integers_nonneg_of_target_nonneg_witness :
    ∃ c p cb f : ℤ, targetCalories plainRuntime scenarioBody = some (c : ℚ) ∧
      proteinGrams plainRuntime scenarioBody = some (p : ℚ) ∧
      carbsGrams plainRuntime scenarioBody = some (cb : ℚ) ∧
      fatsGrams plainRuntime scenarioBody = some (f : ℚ) ∧
      (0 ≤ c → 0 ≤ p ∧ 0 ≤ cb ∧ 0 ≤ f) :=
  grams_integers_nonneg_of_target_nonneg plainRuntime scenarioBody 30 180 70
    (by simp [scenarioBody, JSVal.toNumber]) (by norm_num) rfl (by norm_num) rfl (by norm_num)
    (by simp [scenarioBody]) (by simp [scenarioBody]) (by simp [scenarioBody])

/-! ## Validation -/

/-- The validation condition holds exactly when one of the six required
fields is falsy. -/
theorem missingRequired_eq_true_iff (b : Body) :
    missingRequired b = true ↔
      (b.age.truthy = false ∨ b.gender.truthy = false ∨ b.weight.truthy = false ∨
        b.height.truthy = false ∨ b.activityLevel.truthy = false ∨ b.goal.truthy = false) := by
  unfold missingRequired
  simp only [Bool.or_eq_true, Bool.not_eq_true', or_assoc]

/-- A request that fails validation gets the fixed response, with no call. -/
theorem generatePlan_of_missing (rt : Runtime) (sv : Services) (b : Body)
    (h : missingRequired b = true) : generatePlan rt sv b = (validationFailure, []) := by
  unfold generatePlan
  rw [if_pos h]

/-- A request that passes validation gets the success response or the
response of the `catch` block. -/
theorem generatePlan_of_valid (rt : Runtime) (sv : Services) (b : Body)
    (h : missingRequired b = false) :
    (generatePlan rt sv b).1 = serverError ∨
      ∃ nutritionPlan, (generatePlan rt sv b).1 = successResponse rt b nutritionPlan := by
  unfold generatePlan
  rw [if_neg (by simp [h])]
  rcases retrieveRecipesWithFullNutrition rt sv (recipeParams rt b) with ⟨_ | recipes, calls2⟩
  · exact Or.inl rfl
  · simp only
    cases sv.generateContent
        (prompt rt b (searchNutritionKnowledge sv (searchQuery rt b) (some 3)).1 recipes) with
    | none => exact Or.inl rfl
    | some nutritionPlan => exact Or.inr ⟨nutritionPlan, rfl⟩

/-- C9: an absent (`undefined`) or `null` field is falsy; a request in which
at least one of age, gender, weight, height, activityLevel, goal is falsy gets
the validation-failure response (status 400, success = false) and the handler
makes no external call; a request in which all six are truthy does not get
the validation-failure response (its status is 200 or 500). -/
theorem validation_gate (rt : Runtime) (sv : Services) (b : Body) :
    JSVal.undefined.truthy = false ∧ JSVal.null.truthy = false ∧
      ((b.age.truthy = false ∨ b.gender.truthy = false ∨ b.weight.truthy = false ∨
          b.height.truthy = false ∨ b.activityLevel.truthy = false ∨ b.goal.truthy = false) →
        generatePlan rt sv b = (validationFailure, []) ∧
          (generatePlan rt sv b).1.status = 400 ∧ (generatePlan rt sv b).1.success = false ∧
          (generatePlan rt sv b).2 = []) ∧
      ((b.age.truthy = true ∧ b.gender.truthy = true ∧ b.weight.truthy = true ∧
          b.height.truthy = true ∧ b.activityLevel.truthy = true ∧ b.goal.truthy = true) →
        (generatePlan rt sv b).1 ≠ validationFailure ∧
          ((generatePlan rt sv b).1.status = 200 ∨ (generatePlan rt sv b).1.status = 500)) := by
  refine ⟨rfl, rfl, fun h => ?_, fun h => ?_⟩
  · have hg := generatePlan_of_missing rt sv b ((missingRequired_eq_true_iff b).mpr h)
    rw [hg]
    exact ⟨rfl, rfl, rfl, rfl⟩
  · obtain ⟨h1, h2, h3, h4, h5, h6⟩ := h
    have hv : missingRequired b = false := by
      unfold missingRequired
      rw [h1, h2, h3, h4, h5, h6]
      rfl
    rcases generatePlan_of_valid rt sv b hv with hr | ⟨nutritionPlan, hr⟩
    · rw [hr]
      exact ⟨by simp [serverError, validationFailure], Or.inr rfl⟩
    · rw [hr]
      exact ⟨by simp [successResponse, validationFailure], Or.inl rfl⟩

/-- Witness of C9: the scenario request without `age` is rejected with no
call, and the complete scenario request is not rejected, even when every
collaborator fails. -/
theorem validation_gate_witness :
    generatePlan plainRuntime failingServices bodyWithoutAge = (validationFailure, []) ∧
      (generatePlan plainRuntime failingServices scenarioBody).1 ≠ validationFailure :=
  ⟨((validation_gate plainRuntime failingServices bodyWithoutAge).2.2.1 (Or.inl rfl)).1,
    ((validation_gate plainRuntime failingServices scenarioBody).2.2.2
      (by simp [scenarioBody, JSVal.truthy])).1⟩

/-- C10, as stated, fails: the scenario request without `age` and the
scenario request without `goal` miss different required fields, and the
handler answers both with the same response. -/
theorem validation_response_same_for_different_fields :
    bodyWithoutAge.age = .undefined ∧ bodyWithoutAge.goal = .str "lose" ∧
      bodyWithoutGoal.age = .num 30 ∧ bodyWithoutGoal.goal = .undefined ∧
      (generatePlan plainRuntime failingServices bodyWithoutAge).1 =
        (generatePlan plainRuntime failingServices bodyWithoutGoal).1 := by
  refine ⟨rfl, rfl, rfl, rfl, ?_⟩
  rw [generatePlan_of_missing plainRuntime failingServices bodyWithoutAge
      (by simp [missingRequired, bodyWithoutAge, scenarioBody, JSVal.truthy]),
    generatePlan_of_missing plainRuntime failingServices bodyWithoutGoal
      (by simp [missingRequired, bodyWithoutGoal, scenarioBody, JSVal.truthy])]

/-- C10 (amended): every request that fails validation, whichever required
fields it lacks, gets one and the same response: status 400, success = false
and the fixed message 'Please provide all required fields.', with neither a
plan nor metadata. -/
theorem validation_failure_response_fixed (rt : Runtime) (sv : Services) (b : Body)
    (h : b.age.truthy = false ∨ b.gender.truthy = false ∨ b.weight.truthy = false ∨
      b.height.truthy = false ∨ b.activityLevel.truthy = false ∨ b.goal.truthy = false) :
    (generatePlan rt sv b).1 =
      { status := 400, success := false, message := some "Please provide all required fields.",
        plan := none, metadata := none } := by
  rw [generatePlan_of_missing rt sv b ((missingRequired_eq_true_iff b).mpr h)]
  rfl

/-- Witness of C10 (amended) at the scenario request without `goal`. -/
theorem validation_failure_response_fixed_witness :
    (generatePlan plainRuntime failingServices bodyWithoutGoal).1 =
      { status := 400, success := false, message := some "Please provide all required fields.",
        plan := none, metadata := none } :=
  validation_failure_response_fixed plainRuntime failingServices bodyWithoutGoal
    (Or.inr (Or.inr (Or.inr (Or.inr (Or.inr rfl)))))

/-! ## Recipe retrieval -/

/-- The example runtime reads the four fields of the example body. -/
theorem parseNutrients_complete :
    parseNutrients decimalRuntime completeNutrition = some completeNutrients := by
  simp [parseNutrients, completeNutrition, replaceG, parseFloatVal, JSVal.toStr,
    decimalRuntime, readDecimal, decimalValue, completeNutrients, orZero, List.erase]
  norm_num

/-- The count `params.number || 20` is never zero. -/
theorem requestedCount_pos (params : RecipeParams) : 0 < requestedCount params := by
  unfold requestedCount
  split
  · norm_num
  · norm_num
  · rename_i h _
    exact Nat.pos_of_ne_zero h

/-- When the key has a bucket, the expression with the vegetarian default is
that bucket. -/
theorem fallbackOrVegetarian_of_bucket (params : RecipeParams) (bucket : List Recipe)
    (hb : FALLBACK_RECIPES (fallbackKey params) = some bucket) :
    fallbackOrVegetarian params = bucket := by
  unfold fallbackOrVegetarian
  rw [hb]

/-- When the key has no bucket, the expression with the vegetarian default is
the vegetarian bucket. -/
theorem fallbackOrVegetarian_of_no_bucket (params : RecipeParams)
    (hb : FALLBACK_RECIPES (fallbackKey params) = none) :
    fallbackOrVegetarian params = fallbackVegetarian := by
  unfold fallbackOrVegetarian
  rw [hb]

/-- Return sites of `retrieveRecipesWithFullNutrition`: the bare table lookup
after an empty search, the lookup with the vegetarian default, or the ranked
and cut list of at least one enriched recipe. -/
theorem retrieve_result_cases (rt : Runtime) (sv : Services) (params : RecipeParams) :
    (sv.complexSearch params.diet params.intolerances params.maxCalories = some [] ∧
        (retrieveRecipesWithFullNutrition rt sv params).1 =
          FALLBACK_RECIPES (fallbackKey params)) ∨
      (retrieveRecipesWithFullNutrition rt sv params).1 = some (fallbackOrVegetarian params) ∨
      ∃ recipesWithNutrition : List Recipe, recipesWithNutrition ≠ [] ∧
        (retrieveRecipesWithFullNutrition rt sv params).1 =
          some ((recipesWithNutrition.insertionSort proteinGe).take (requestedCount params)) := by
  unfold retrieveRecipesWithFullNutrition
  cases hs : sv.complexSearch params.diet params.intolerances params.maxCalories with
  | none => exact Or.inr (Or.inl rfl)
  | some recipes =>
    by_cases h0 : recipes.length = 0
    · have hnil : recipes = [] := List.length_eq_zero.mp h0
      subst hnil
      exact Or.inl ⟨rfl, rfl⟩
    · simp only [if_neg h0]
      rcases enrichLoop rt sv recipes 0 []
          [Call.complexSearch params.diet params.intolerances params.maxCalories] with
        ⟨_ | recipesWithNutrition, calls⟩
      · exact Or.inr (Or.inl rfl)
      · by_cases h1 : recipesWithNutrition.length = 0
        · refine Or.inr (Or.inl ?_)
          simp only [if_pos h1]
        · refine Or.inr (Or.inr ⟨recipesWithNutrition, fun h => h1 (by rw [h]; rfl), ?_⟩)
          simp only [if_neg h1]

/-- C11: `retrieveRecipesWithFullNutrition` always returns (every exception is
caught inside it), and whenever `FALLBACK_RECIPES` has a non-empty bucket for
the key `params.diet || 'none'`, the value it returns is a non-empty recipe
list, whatever the catalog search and the nutrition requests do; a requested
count that is absent or 0 counts as 20. -/
theorem retrieve_nonempty_of_bucket (rt : Runtime) (sv : Services) (params : RecipeParams)
    (bucket : List Recipe) (hb : FALLBACK_RECIPES (fallbackKey params) = some bucket)
    (hne : bucket ≠ []) :
    ∃ l : List Recipe, (retrieveRecipesWithFullNutrition rt sv params).1 = some l ∧ l ≠ [] := by
  rcases retrieve_result_cases rt sv params with ⟨_, h⟩ | h | ⟨rwn, hrwn, h⟩
  · exact ⟨bucket, by rw [h, hb], hne⟩
  · exact ⟨bucket, by rw [h, fallbackOrVegetarian_of_bucket params bucket hb], hne⟩
  · refine ⟨_, h, fun hnil => ?_⟩
    have hlen := congrArg List.length hnil
    rw [List.length_take, List.length_insertionSort, List.length_nil] at hlen
    have h1 := requestedCount_pos params
    have h2 : 0 < rwn.length := List.length_pos.mpr hrwn
    omega

/-- Witness of C11: no diet (key 'none') and a catalog search that rejects. -/
theorem retrieve_nonempty_of_bucket_witness :
    ∃ l : List Recipe,
      (retrieveRecipesWithFullNutrition plainRuntime failingServices plainParams).1 = some l ∧
        l ≠ [] :=
  retrieve_nonempty_of_bucket plainRuntime failingServices plainParams fallbackNone rfl
    (by simp [fallbackNone])

/-- C12: with dietary token 'ketogenic' and a catalog search that finds zero
candidates, `retrieveRecipesWithFullNutrition` returns `undefined`: the return
statement of this branch is the bare lookup `FALLBACK_RECIPES[fallbackKey]`,
without the vegetarian default of the two other fallback sites. -/
theorem empty_search_keto_returns_undefined (rt : Runtime) :
    emptyCatalogServices.complexSearch ketoParams.diet ketoParams.intolerances
        ketoParams.maxCalories = some [] ∧
      FALLBACK_RECIPES (fallbackKey ketoParams) = none ∧
      (retrieveRecipesWithFullNutrition rt emptyCatalogServices ketoParams).1 = none ∧
      fallbackOrVegetarian ketoParams = fallbackVegetarian := by
  have hk : FALLBACK_RECIPES (fallbackKey ketoParams) = none := by
    simp [fallbackKey, ketoParams, plainParams, FALLBACK_RECIPES]
  refine ⟨rfl, hk, ?_, fallbackOrVegetarian_of_no_bucket ketoParams hk⟩
  rcases retrieve_result_cases rt emptyCatalogServices ketoParams with ⟨_, h⟩ | h | ⟨rwn, hrwn, h⟩
  · rw [h, hk]
  · exact absurd h (by simp [retrieveRecipesWithFullNutrition, emptyCatalogServices, hk])
  · exact absurd h (by simp [retrieveRecipesWithFullNutrition, emptyCatalogServices, hk])

/-- C13: the catalog finds two candidates; the first gets complete nutrition,
the nutrition request of the second is rejected with status 402.  The `catch`
block then reads the unbound name `nutritionError`, the `ReferenceError`
reaches the outer `catch`, and the function returns the fallback bucket
'none' instead of the one recipe enriched so far. -/
theorem quota_signal_discards_enriched :
    quotaServices.nutritionWidget 0 candidateA.id = .data completeNutrition ∧
      parseNutrients decimalRuntime completeNutrition = some completeNutrients ∧
      (completeNutrients.all fun n => decide (n.amount > 0)) = true ∧
      quotaServices.nutritionWidget 1 candidateB.id = .rejected (some 402) ∧
      (retrieveRecipesWithFullNutrition decimalRuntime quotaServices plainParams).1 =
        some fallbackNone ∧
      (retrieveRecipesWithFullNutrition decimalRuntime quotaServices plainParams).1 ≠
        some [{ candidateA with nutrition := some completeNutrients }] := by
  have hall : (completeNutrients.all fun n => decide (n.amount > 0)) = true := by
    simp [completeNutrients]
  have hr : (retrieveRecipesWithFullNutrition decimalRuntime quotaServices plainParams).1 =
      some fallbackNone := by
    simp [retrieveRecipesWithFullNutrition, quotaServices, enrichLoop, parseNutrients_complete,
      hall, fallbackOrVegetarian, fallbackKey, plainParams, FALLBACK_RECIPES]
  refine ⟨rfl, parseNutrients_complete, hall, rfl, hr, ?_⟩
  rw [hr]
  simp [fallbackNone]

/-- When every nutrition request resolves, parses, and is incomplete, the loop
ends normally and adds no recipe. -/
theorem enrichLoop_none_survive (rt : Runtime) (sv : Services) :
    ∀ (recipes : List Recipe) (i : Nat) (acc : List Recipe) (calls : List Call),
      (∀ j r, recipes[j]? = some r → ∃ d ns, sv.nutritionWidget (i + j) r.id = .data d ∧
        parseNutrients rt d = some ns ∧ (ns.all fun n => decide (n.amount > 0)) = false) →
      (enrichLoop rt sv recipes i acc calls).1 = some acc
  | [], _, _, _, _ => rfl
  | recipe :: rest, i, acc, calls, h => by
    obtain ⟨d, ns, hd, hp, hall⟩ := h 0 recipe (by simp)
    rw [Nat.add_zero] at hd
    have hrest : ∀ j r, rest[j]? = some r → ∃ d ns,
        sv.nutritionWidget (i + 1 + j) r.id = .data d ∧ parseNutrients rt d = some ns ∧
          (ns.all fun n => decide (n.amount > 0)) = false := by
      intro j r hj
      have hj' := h (j + 1) r (by simpa using hj)
      rwa [show i + (j + 1) = i + 1 + j by omega] at hj'
    have ih := enrichLoop_none_survive rt sv rest (i + 1) acc
      (calls ++ [Call.nutritionWidget recipe.id]) hrest
    simp only [enrichLoop, hd, hp, hall]
    exact ih

/-- C14: when the catalog finds at least one candidate, every nutrition
request resolves and parses, and no candidate has all four amounts above 0,
`retrieveRecipesWithFullNutrition` returns the bucket of the key
`params.diet || 'none'` (so the bucket 'none' when no diet is given), and the
vegetarian bucket when that key has no bucket. -/
theorem retrieve_fallback_when_none_survive (rt : Runtime) (sv : Services)
    (params : RecipeParams) (recipes : List Recipe)
    (hs : sv.complexSearch params.diet params.intolerances params.maxCalories = some recipes)
    (hne : recipes ≠ [])
    (hinc : ∀ j r, recipes[j]? = some r → ∃ d ns, sv.nutritionWidget j r.id = .data d ∧
      parseNutrients rt d = some ns ∧ (ns.all fun n => decide (n.amount > 0)) = false) :
    (∀ bucket, FALLBACK_RECIPES (fallbackKey params) = some bucket →
        (retrieveRecipesWithFullNutrition rt sv params).1 = some bucket) ∧
      (FALLBACK_RECIPES (fallbackKey params) = none →
        (retrieveRecipesWithFullNutrition rt sv params).1 = some fallbackVegetarian) ∧
      (params.diet = "" → fallbackKey params = "none") := by
  have hloop := enrichLoop_none_survive rt sv recipes 0 []
    [Call.complexSearch params.diet params.intolerances params.maxCalories]
    (fun j r hj => by simpa using hinc j r hj)
  have h0 : ¬recipes.length = 0 := fun h => hne (List.length_eq_zero.mp h)
  have hr : (retrieveRecipesWithFullNutrition rt sv params).1 =
      some (fallbackOrVegetarian params) := by
    unfold retrieveRecipesWithFullNutrition
    simp only [hs, if_neg h0]
    rcases hres : enrichLoop rt sv recipes 0 []
        [Call.complexSearch params.diet params.intolerances params.maxCalories] with
      ⟨res, calls⟩
    rw [hres] at hloop
    simp only at hloop
    subst hloop
    simp
  refine ⟨fun bucket hb => ?_, fun hb => ?_, fun hd => ?_⟩
  · rw [hr, fallbackOrVegetarian_of_bucket params bucket hb]
  · rw [hr, fallbackOrVegetarian_of_no_bucket params hb]
  · unfold fallbackKey
    rw [if_pos hd]

/-- Witness of C14: one candidate whose nutrition strings the plain runtime
reads as no number, so that every amount is 0; no diet is given. -/
theorem retrieve_fallback_when_none_survive_witness :
    (retrieveRecipesWithFullNutrition plainRuntime singleCandidateServices plainParams).1 =
      some fallbackNone :=
  (retrieve_fallback_when_none_survive plainRuntime singleCandidateServices plainParams
    [candidateA] rfl (by simp)
    (fun j r _ => ⟨completeNutrition, _, rfl, rfl, by
      simp [orZero, parseFloatVal, plainRuntime]⟩)).1 fallbackNone rfl

/-- Rounded protein of a table entry. -/
theorem getNutrientValue_fallbackEntry_protein (title : String) (calories protein carbs fat : ℚ) :
    getNutrientValue (fallbackEntry title calories protein carbs fat) "Protein" =
      roundHalfUp protein := by
  simp [getNutrientValue, fallbackEntry, List.find?, orZero]

/-- The function `Math.round` fixes an integer. -/
theorem roundHalfUp_intCast (z : ℤ) : roundHalfUp (z : ℚ) = z := by
  unfold roundHalfUp
  rw [Int.floor_eq_iff]
  constructor <;> norm_num

/-- C15, as stated, fails: with diet 'vegetarian' and a catalog search that
rejects, the function returns the vegetarian bucket in table order, where the
entry at index 1 has 22 g of protein and the entry at index 2 has 28 g. -/
theorem fallback_bucket_not_sorted :
    (retrieveRecipesWithFullNutrition plainRuntime failingServices vegetarianParams).1 =
        some fallbackVegetarian ∧
      fallbackVegetarian[1]? =
        some (fallbackEntry "Quinoa Black Bean Burrito Bowl" 485 22 72 12) ∧
      fallbackVegetarian[2]? =
        some (fallbackEntry "Tofu Scramble with Roasted Vegetables" 380 28 24 18) ∧
      getNutrientValue (fallbackEntry "Quinoa Black Bean Burrito Bowl" 485 22 72 12) "Protein" <
        getNutrientValue (fallbackEntry "Tofu Scramble with Roasted Vegetables" 380 28 24 18)
          "Protein" := by
  refine ⟨rfl, rfl, rfl, ?_⟩
  rw [getNutrientValue_fallbackEntry_protein, getNutrientValue_fallbackEntry_protein]
  have h22 := roundHalfUp_intCast 22
  have h28 := roundHalfUp_intCast 28
  norm_num at h22 h28
  rw [h22, h28]
  norm_num

/-- The enriched path is taken in the example with one complete candidate. -/
theorem retrieve_single_candidate :
    (retrieveRecipesWithFullNutrition decimalRuntime singleCandidateServices plainParams).1 =
      some [{ candidateA with nutrition := some completeNutrients }] := by
  have hall : (completeNutrients.all fun n => decide (n.amount > 0)) = true := by
    simp [completeNutrients]
  simp [retrieveRecipesWithFullNutrition, singleCandidateServices, enrichLoop,
    parseNutrients_complete, hall, requestedCount, plainParams]

/-! ## Knowledge retrieval -/

/-- A match without metadata makes the mapping of the matches raise. -/
theorem mapM_matchToArticle_none (found : List Match)
    (h : ∃ m ∈ found, m.metadata = none) : found.mapM matchToArticle = none := by
  rw [← List.mapM'_eq_mapM]
  induction found with
  | nil =>
    obtain ⟨m, hm, _⟩ := h
    cases hm
  | cons a rest ih =>
    rw [List.mapM'_cons]
    cases ha : a.metadata with
    | none =>
      have hnone : matchToArticle a = none := by
        unfold matchToArticle
        rw [ha]
        rfl
      rw [hnone]
      rfl
    | some md =>
      have hrest : ∃ m ∈ rest, m.metadata = none := by
        obtain ⟨m, hm, hmd⟩ := h
        rcases List.mem_cons.mp hm with h1 | h1
        · rw [h1, ha] at hmd
          cases hmd
        · exact ⟨m, h1, hmd⟩
      rw [ih hrest]
      cases matchToArticle a <;> rfl

/-- The mapping of the matches gives one article per match. -/
theorem mapM_matchToArticle_length (found : List Match) :
    ∀ articles : List Article,
      found.mapM matchToArticle = some articles → articles.length = found.length := by
  rw [← List.mapM'_eq_mapM]
  induction found with
  | nil =>
    intro articles h
    cases h
    rfl
  | cons a rest ih =>
    intro articles h
    rw [List.mapM'_cons] at h
    cases ha : matchToArticle a with
    | none =>
      rw [ha] at h
      cases h
    | some art =>
      cases hr : rest.mapM' matchToArticle with
      | none =>
        rw [ha, hr] at h
        cases h
      | some arts =>
        rw [ha, hr] at h
        cases h
        rw [List.length_cons, List.length_cons, ih arts hr]

/-- Result of `searchNutritionKnowledge` in terms of the two awaited calls. -/
theorem searchNutritionKnowledge_result (sv : Services) (query : String) (topK : Option Nat) :
    (searchNutritionKnowledge sv query topK).1 =
      match (getEmbedding sv query).1 with
      | none => []
      | some queryEmbedding =>
        match sv.indexQuery queryEmbedding (topK.getD 3) with
        | none => []
        | some found => (found.mapM matchToArticle).getD [] := by
  unfold searchNutritionKnowledge
  rcases getEmbedding sv query with ⟨_ | queryEmbedding, calls⟩
  · rfl
  · simp only
    cases sv.indexQuery queryEmbedding (topK.getD 3) with
    | none => rfl
    | some found =>
      simp only
      cases found.mapM matchToArticle <;> rfl

/-- C16: `searchNutritionKnowledge` always returns a list, and the list is
empty when the embedding call rejects, when its response has no first datum,
when the vector-index query rejects, and when some match lacks metadata. -/
theorem search_empty_on_failure (sv : Services) (query : String) (topK : Option Nat) :
    (sv.embeddingsCreate query = none → (searchNutritionKnowledge sv query topK).1 = []) ∧
      (sv.embeddingsCreate query = some [] → (searchNutritionKnowledge sv query topK).1 = []) ∧
      (∀ queryEmbedding, (getEmbedding sv query).1 = some queryEmbedding →
        sv.indexQuery queryEmbedding (topK.getD 3) = none →
        (searchNutritionKnowledge sv query topK).1 = []) ∧
      (∀ queryEmbedding found, (getEmbedding sv query).1 = some queryEmbedding →
        sv.indexQuery queryEmbedding (topK.getD 3) = some found →
        (∃ m ∈ found, m.metadata = none) →
        (searchNutritionKnowledge sv query topK).1 = []) := by
  refine ⟨fun h => ?_, fun h => ?_, fun v hv hq => ?_, fun v found hv hq hm => ?_⟩
  · have he : (getEmbedding sv query).1 = none := by
      unfold getEmbedding
      rw [h]
      rfl
    rw [searchNutritionKnowledge_result, he]
  · have he : (getEmbedding sv query).1 = none := by
      unfold getEmbedding
      rw [h]
      rfl
    rw [searchNutritionKnowledge_result, he]
  · rw [searchNutritionKnowledge_result, hv]
    simp only [hq]
  · rw [searchNutritionKnowledge_result, hv]
    simp only [hq, mapM_matchToArticle_none found hm]
    rfl

/-- Witness of C16: every collaborator fails. -/
theorem search_empty_on_failure_witness :
    (searchNutritionKnowledge failingServices "nutrition plan for lose" (some 3)).1 = [] :=
  (search_empty_on_failure failingServices "nutrition plan for lose" (some 3)).1 rfl

/-- C17, as stated, fails: asked for 3 snippets, the function returns the 4
matches with which the vector index answers. -/
theorem search_returns_every_match :
    generousIndexServices.indexQuery [1, 0] 3 =
        some [sampleMatch, sampleMatch, sampleMatch, sampleMatch] ∧
      (searchNutritionKnowledge generousIndexServices "nutrition plan for lose"
        (some 3)).1.length = 4 := by
  refine ⟨rfl, ?_⟩
  rw [searchNutritionKnowledge_result]
  rfl

/-- C17 (amended): `searchNutritionKnowledge` does not cut the answer of the
vector index: it returns one snippet per match, or none at all.  Hence it
returns at most topK snippets (at most 3 when topK is omitted) when the
index returns at most as many matches as it was asked for. -/
theorem search_length_le_topK (sv : Services) (query : String) (topK : Option Nat)
    (hidx : ∀ queryEmbedding k found, sv.indexQuery queryEmbedding k = some found →
      found.length ≤ k) :
    (searchNutritionKnowledge sv query topK).1.length ≤ topK.getD 3 ∧
      (∀ queryEmbedding found, (getEmbedding sv query).1 = some queryEmbedding →
        sv.indexQuery queryEmbedding (topK.getD 3) = some found →
        (searchNutritionKnowledge sv query topK).1.length = found.length ∨
          (searchNutritionKnowledge sv query topK).1 = []) := by
  have hres := searchNutritionKnowledge_result sv query topK
  constructor
  · rw [hres]
    cases he : (getEmbedding sv query).1 with
    | none => exact Nat.zero_le _
    | some v =>
      simp only
      cases hq : sv.indexQuery v (topK.getD 3) with
      | none => exact Nat.zero_le _
      | some found =>
        simp only
        cases hm : found.mapM matchToArticle with
        | none => exact Nat.zero_le _
        | some articles =>
          rw [Option.getD_some, mapM_matchToArticle_length found articles hm]
          exact hidx v _ found hq
  · intro v found hv hq
    rw [hres, hv]
    simp only [hq]
    cases hm : found.mapM matchToArticle with
    | none => exact Or.inr rfl
    | some articles =>
      exact Or.inl (by rw [Option.getD_some, mapM_matchToArticle_length found articles hm])

/-- Witness of C17 (amended): an index that answers with exactly as many
matches as asked for, and an omitted topK. -/
theorem search_length_le_topK_witness :
    (searchNutritionKnowledge exactIndexServices "nutrition plan for lose" none).1.length ≤ 3 :=
  (search_length_le_topK exactIndexServices "nutrition plan for lose" none
    (fun _ k found h => by
      have hf : found = List.replicate k sampleMatch := by
        have h' : some (List.replicate k sampleMatch) = some found := h
        exact (Option.some.inj h').symm
      rw [hf, List.length_replicate])).1

/-! ## Calls made by the retrieval stage -/

/-- The knowledge retrieval makes no text-generation call. -/
theorem search_calls_no_generate (sv : Services) (query : String) (topK : Option Nat) :
    ∀ c ∈ (searchNutritionKnowledge sv query topK).2, c.isGenerate = false := by
  intro c hc
  have h2 : (getEmbedding sv query).2 = [Call.embeddingsCreate query] := rfl
  unfold searchNutritionKnowledge at hc
  rcases hge : getEmbedding sv query with ⟨_ | v, calls⟩
  · rw [hge] at hc h2
    simp only at hc h2
    subst h2
    rw [List.mem_singleton.mp hc]
    rfl
  · rw [hge] at hc h2
    simp only at hc h2
    subst h2
    have hmem : c ∈ [Call.embeddingsCreate query] ++ [Call.indexQuery v (topK.getD 3)] := by
      cases hq : sv.indexQuery v (topK.getD 3) with
      | none =>
        rw [hq] at hc
        exact hc
      | some found =>
        rw [hq] at hc
        simp only at hc
        cases hm : found.mapM matchToArticle with
        | none =>
          rw [hm] at hc
          exact hc
        | some articles =>
          rw [hm] at hc
          exact hc
    rcases List.mem_append.mp hmem with h1 | h1
    · rw [List.mem_singleton.mp h1]
      rfl
    · rw [List.mem_singleton.mp h1]
      rfl

/-- The enrichment loop adds nutrition requests only. -/
theorem enrichLoop_calls_no_generate (rt : Runtime) (sv : Services) :
    ∀ (recipes : List Recipe) (i : Nat) (acc : List Recipe) (calls : List Call),
      (∀ c ∈ calls, c.isGenerate = false) →
      ∀ c ∈ (enrichLoop rt sv recipes i acc calls).2, c.isGenerate = false
  | [], _, _, _, h => h
  | recipe :: rest, i, acc, calls, h => by
    have hcalls : ∀ c ∈ calls ++ [Call.nutritionWidget recipe.id], c.isGenerate = false := by
      intro c hc
      rcases List.mem_append.mp hc with h1 | h1
      · exact h c h1
      · rw [List.mem_singleton.mp h1]
        rfl
    unfold enrichLoop
    simp only
    cases sv.nutritionWidget i recipe.id with
    | rejected status => exact hcalls
    | data nutritionData =>
      simp only
      cases parseNutrients rt nutritionData with
      | none => exact hcalls
      | some nutrients =>
        simp only
        split
        · exact enrichLoop_calls_no_generate rt sv rest (i + 1) _ _ hcalls
        · exact enrichLoop_calls_no_generate rt sv rest (i + 1) _ _ hcalls

/-- The recipe retrieval makes no text-generation call. -/
theorem retrieve_calls_no_generate (rt : Runtime) (sv : Services) (params : RecipeParams) :
    ∀ c ∈ (retrieveRecipesWithFullNutrition rt sv params).2, c.isGenerate = false := by
  have h0 : ∀ c ∈ [Call.complexSearch params.diet params.intolerances params.maxCalories],
      c.isGenerate = false := by
    intro c hc
    rw [List.mem_singleton.mp hc]
    rfl
  unfold retrieveRecipesWithFullNutrition
  simp only
  cases sv.complexSearch params.diet params.intolerances params.maxCalories with
  | none => exact h0
  | some recipes =>
    simp only
    split
    · exact h0
    · have hloop := enrichLoop_calls_no_generate rt sv recipes 0 [] _ h0
      rcases hres : enrichLoop rt sv recipes 0 []
          [Call.complexSearch params.diet params.intolerances params.maxCalories] with
        ⟨_ | recipesWithNutrition, calls⟩
      · rw [hres] at hloop
        exact hloop
      · rw [hres] at hloop
        simp only
        split <;> exact hloop

/-! ## Outcomes of the handler -/

/-- Response of the handler to a request that passes validation. -/
theorem generatePlan_valid_result (rt : Runtime) (sv : Services) (b : Body)
    (h : missingRequired b = false) :
    (generatePlan rt sv b).1 =
      match (retrieveRecipesWithFullNutrition rt sv (recipeParams rt b)).1 with
      | none => serverError
      | some recipes =>
        match sv.generateContent
            (prompt rt b (searchNutritionKnowledge sv (searchQuery rt b) (some 3)).1 recipes) with
        | none => serverError
        | some nutritionPlan => successResponse rt b nutritionPlan := by
  unfold generatePlan
  rw [if_neg (by simp [h])]
  rcases retrieveRecipesWithFullNutrition rt sv (recipeParams rt b) with ⟨_ | recipes, calls2⟩
  · rfl
  · simp only
    cases sv.generateContent
        (prompt rt b (searchNutritionKnowledge sv (searchQuery rt b) (some 3)).1 recipes) <;> rfl

/-- Calls of the handler for a request that passes validation: those of the
two retrievals, then the generation call if a recipe list was returned. -/
theorem generatePlan_valid_calls (rt : Runtime) (sv : Services) (b : Body)
    (h : missingRequired b = false) :
    (generatePlan rt sv b).2 =
      (searchNutritionKnowledge sv (searchQuery rt b) (some 3)).2 ++
        (retrieveRecipesWithFullNutrition rt sv (recipeParams rt b)).2 ++
        match (retrieveRecipesWithFullNutrition rt sv (recipeParams rt b)).1 with
        | none => []
        | some recipes =>
          [Call.generateContent
            (prompt rt b (searchNutritionKnowledge sv (searchQuery rt b) (some 3)).1 recipes)] := by
  unfold generatePlan
  rw [if_neg (by simp [h])]
  rcases retrieveRecipesWithFullNutrition rt sv (recipeParams rt b) with ⟨_ | recipes, calls2⟩
  · simp
  · simp only
    cases sv.generateContent
        (prompt rt b (searchNutritionKnowledge sv (searchQuery rt b) (some 3)).1 recipes) <;> rfl

/-- After a search without candidates the function returns the bare lookup. -/
theorem retrieve_of_empty_search (rt : Runtime) (sv : Services) (params : RecipeParams)
    (hs : sv.complexSearch params.diet params.intolerances params.maxCalories = some []) :
    (retrieveRecipesWithFullNutrition rt sv params).1 =
      FALLBACK_RECIPES (fallbackKey params) := by
  unfold retrieveRecipesWithFullNutrition
  simp [hs]

/-- C18: the scenario request with dietaryPreferences 'keto' passes
validation, the catalog finds zero candidates and the text generation would
succeed for every prompt; the recipe retrieval returns `undefined`, so
`recipes.slice(0, 15)` raises, the handler answers with the 500 response and
never makes the generation call. -/
theorem keto_empty_catalog_server_error (rt : Runtime) :
    missingRequired ketoBody = false ∧
      (∀ text, emptyCatalogServices.generateContent text =
        some "Your Personalized Nutrition Plan") ∧
      (retrieveRecipesWithFullNutrition rt emptyCatalogServices (recipeParams rt ketoBody)).1 =
        none ∧
      (generatePlan rt emptyCatalogServices ketoBody).1 = serverError ∧
      (generatePlan rt emptyCatalogServices ketoBody).1.status = 500 ∧
      ∀ c ∈ (generatePlan rt emptyCatalogServices ketoBody).2, c.isGenerate = false := by
  have hv : missingRequired ketoBody = false := by
    simp [missingRequired, ketoBody, scenarioBody, JSVal.truthy]
  have hr : (retrieveRecipesWithFullNutrition rt emptyCatalogServices
      (recipeParams rt ketoBody)).1 = none := by
    rw [retrieve_of_empty_search rt emptyCatalogServices (recipeParams rt ketoBody) rfl]
    simp [fallbackKey, recipeParams, ketoBody, diets, FALLBACK_RECIPES]
  have hresp : (generatePlan rt emptyCatalogServices ketoBody).1 = serverError := by
    rw [generatePlan_valid_result rt emptyCatalogServices ketoBody hv, hr]
  refine ⟨hv, fun _ => rfl, hr, hresp, by rw [hresp]; rfl, ?_⟩
  intro c hc
  rw [generatePlan_valid_calls rt emptyCatalogServices ketoBody hv, hr] at hc
  simp only [List.append_nil] at hc
  rcases List.mem_append.mp hc with h1 | h1
  · exact search_calls_no_generate _ _ _ c h1
  · exact retrieve_calls_no_generate _ _ _ c h1

/-- C19: when a request passes validation, a recipe list is returned, and the
text-generation call made with the assembled prompt fails, the response has
status 500 and success = false, and it has neither a plan nor metadata. -/
theorem generation_failure_response (rt : Runtime) (sv : Services) (b : Body)
    (recipes : List Recipe) (hvalid : missingRequired b = false)
    (hrec : (retrieveRecipesWithFullNutrition rt sv (recipeParams rt b)).1 = some recipes)
    (hgen : sv.generateContent
      (prompt rt b (searchNutritionKnowledge sv (searchQuery rt b) (some 3)).1 recipes) = none) :
    Call.generateContent
        (prompt rt b (searchNutritionKnowledge sv (searchQuery rt b) (some 3)).1 recipes) ∈
        (generatePlan rt sv b).2 ∧
      (generatePlan rt sv b).1.status = 500 ∧ (generatePlan rt sv b).1.success = false ∧
      (generatePlan rt sv b).1.plan = none ∧ (generatePlan rt sv b).1.metadata = none := by
  have hresp : (generatePlan rt sv b).1 = serverError := by
    rw [generatePlan_valid_result rt sv b hvalid, hrec]
    simp only [hgen]
  refine ⟨?_, ?_, ?_, ?_, ?_⟩
  · rw [generatePlan_valid_calls rt sv b hvalid, hrec]
    simp
  all_goals rw [hresp]; rfl

/-- Witness of C19: the scenario request when every collaborator fails. -/
theorem generation_failure_response_witness :
    (generatePlan plainRuntime failingServices scenarioBody).1.status = 500 ∧
      (generatePlan plainRuntime failingServices scenarioBody).1.plan = none ∧
      (generatePlan plainRuntime failingServices scenarioBody).1.metadata = none :=
  have h := generation_failure_response plainRuntime failingServices scenarioBody fallbackNone
    (by simp [missingRequired, scenarioBody, JSVal.truthy]) rfl rfl
  ⟨h.2.1, h.2.2.2.1, h.2.2.2.2⟩

/-- Filtering a list without generation calls for them leaves nothing. -/
theorem filter_isGenerate_eq_nil (calls : List Call)
    (h : ∀ c ∈ calls, c.isGenerate = false) : calls.filter Call.isGenerate = [] := by
  rw [List.filter_eq_nil_iff]
  intro c hc
  rw [h c hc]
  simp

/-- C20: a success response is written only after one text-generation call
that succeeded; its plan is the text of that call, unchanged, its status is
200, and its metadata has all seven fields proteinGrams, carbsGrams,
fatsGrams, bmi, bmr, tdee and targetCalories, each with the value the handler
computed for the request. -/
theorem success_response_complete (rt : Runtime) (sv : Services) (b : Body)
    (hs : (generatePlan rt sv b).1.success = true) :
    ∃ (recipes : List Recipe) (nutritionPlan : String),
      (retrieveRecipesWithFullNutrition rt sv (recipeParams rt b)).1 = some recipes ∧
        sv.generateContent
          (prompt rt b (searchNutritionKnowledge sv (searchQuery rt b) (some 3)).1 recipes) =
          some nutritionPlan ∧
        (generatePlan rt sv b).2.filter Call.isGenerate =
          [Call.generateContent
            (prompt rt b (searchNutritionKnowledge sv (searchQuery rt b) (some 3)).1 recipes)] ∧
        (generatePlan rt sv b).1.status = 200 ∧
        (generatePlan rt sv b).1.plan = some nutritionPlan ∧
        (generatePlan rt sv b).1.metadata = some
          { proteinGrams := proteinGrams rt b
            carbsGrams := carbsGrams rt b
            fatsGrams := fatsGrams rt b
            bmi := bmi rt b
            bmr := bmr rt b
            tdee := tdee rt b
            targetCalories := targetCalories rt b } := by
  have hv : missingRequired b = false := by
    cases hm : missingRequired b with
    | false => rfl
    | true =>
      rw [generatePlan_of_missing rt sv b hm] at hs
      cases hs
  have hres := generatePlan_valid_result rt sv b hv
  have hcalls := generatePlan_valid_calls rt sv b hv
  cases hrec : (retrieveRecipesWithFullNutrition rt sv (recipeParams rt b)).1 with
  | none =>
    rw [hrec] at hres
    rw [hres] at hs
    cases hs
  | some recipes =>
    rw [hrec] at hres hcalls
    simp only at hres hcalls
    cases hgen : sv.generateContent
        (prompt rt b (searchNutritionKnowledge sv (searchQuery rt b) (some 3)).1 recipes) with
    | none =>
      rw [hgen] at hres
      rw [hres] at hs
      cases hs
    | some nutritionPlan =>
      rw [hgen] at hres
      refine ⟨recipes, nutritionPlan, rfl, hgen, ?_, ?_, ?_, ?_⟩
      · rw [hcalls, List.filter_append, List.filter_append,
          filter_isGenerate_eq_nil _ (search_calls_no_generate sv _ _),
          filter_isGenerate_eq_nil _ (retrieve_calls_no_generate rt sv _)]
        rfl
      · rw [hres]
        rfl
      · rw [hres]
        rfl
      · rw [hres]
        rfl

/-- Success of the scenario request when the catalog finds no candidate and
the text generation succeeds. -/
theorem scenario_success :
    (generatePlan plainRuntime emptyCatalogServices scenarioBody).1.success = true := by
  rw [generatePlan_valid_result plainRuntime emptyCatalogServices scenarioBody
    (by simp [missingRequired, scenarioBody, JSVal.truthy])]
  rfl

/-- Witness of C20: the plan of the scenario request is the text the example
generation service returns. -/
theorem success_response_complete_witness :
    ∃ (recipes : List Recipe) (nutritionPlan : String),
      (retrieveRecipesWithFullNutrition plainRuntime emptyCatalogServices
          (recipeParams plainRuntime scenarioBody)).1 = some recipes ∧
        emptyCatalogServices.generateContent
          (prompt plainRuntime scenarioBody
            (searchNutritionKnowledge emptyCatalogServices
              (searchQuery plainRuntime scenarioBody) (some 3)).1 recipes) =
          some nutritionPlan ∧
        (generatePlan plainRuntime emptyCatalogServices scenarioBody).2.filter Call.isGenerate =
          [Call.generateContent
            (prompt plainRuntime scenarioBody
              (searchNutritionKnowledge emptyCatalogServices
                (searchQuery plainRuntime scenarioBody) (some 3)).1 recipes)] ∧
        (generatePlan plainRuntime emptyCatalogServices scenarioBody).1.status = 200 ∧
        (generatePlan plainRuntime emptyCatalogServices scenarioBody).1.plan =
          some nutritionPlan ∧
        (generatePlan plainRuntime emptyCatalogServices scenarioBody).1.metadata = some
          { proteinGrams := proteinGrams plainRuntime scenarioBody
            carbsGrams := carbsGrams plainRuntime scenarioBody
            fatsGrams := fatsGrams plainRuntime scenarioBody
            bmi := bmi plainRuntime scenarioBody
            bmr := bmr plainRuntime scenarioBody
            tdee := tdee plainRuntime scenarioBody
            targetCalories := targetCalories plainRuntime scenarioBody } :=
  success_response_complete plainRuntime emptyCatalogServices scenarioBody scenario_success

/-! ## Enrichment loop against its specification -/

/-- One step of the loop in terms of `enrichOne`. -/
theorem enrichLoop_cons (rt : Runtime) (sv : Services) (recipe : Recipe) (rest : List Recipe)
    (i : Nat) (acc : List Recipe) (calls : List Call) :
    (enrichLoop rt sv (recipe :: rest) i acc calls).1 =
      match enrichOne rt sv i recipe with
      | none => none
      | some none =>
        (enrichLoop rt sv rest (i + 1) acc (calls ++ [Call.nutritionWidget recipe.id])).1
      | some (some enriched) =>
        (enrichLoop rt sv rest (i + 1) (acc ++ [enriched])
          (calls ++ [Call.nutritionWidget recipe.id])).1 := by
  simp only [enrichLoop, enrichOne]
  cases sv.nutritionWidget i recipe.id with
  | rejected status => rfl
  | data nutritionData =>
    simp only
    cases parseNutrients rt nutritionData with
    | none => rfl
    | some nutrients =>
      simp only
      split <;> rfl

/-- When the loop body raises for some candidate, the loop is left by an
exception. -/
theorem enrichLoop_raises (rt : Runtime) (sv : Services) :
    ∀ (recipes : List Recipe) (i : Nat) (acc : List Recipe) (calls : List Call),
      (∃ j c, recipes[j]? = some c ∧ enrichOne rt sv (i + j) c = none) →
      (enrichLoop rt sv recipes i acc calls).1 = none
  | [], _, _, _, h => by
    obtain ⟨j, c, hj, _⟩ := h
    simp at hj
  | recipe :: rest, i, acc, calls, h => by
    rw [enrichLoop_cons]
    cases hone : enrichOne rt sv i recipe with
    | none => rfl
    | some outcome =>
      have hrest : ∃ j c, rest[j]? = some c ∧ enrichOne rt sv (i + 1 + j) c = none := by
        obtain ⟨j, c, hj, hc⟩ := h
        cases j with
        | zero =>
          simp at hj
          rw [← hj, Nat.add_zero, hone] at hc
          cases hc
        | succ k =>
          refine ⟨k, c, by simpa using hj, ?_⟩
          rwa [show i + 1 + k = i + (k + 1) by omega]
      cases outcome with
      | none => exact enrichLoop_raises rt sv rest (i + 1) _ _ hrest
      | some enriched => exact enrichLoop_raises rt sv rest (i + 1) _ _ hrest

/-- When the loop body raises for no candidate, the loop ends normally with
the surviving recipes appended. -/
theorem enrichLoop_survivors (rt : Runtime) (sv : Services) :
    ∀ (recipes : List Recipe) (i : Nat) (acc : List Recipe) (calls : List Call),
      (∀ j c, recipes[j]? = some c → enrichOne rt sv (i + j) c ≠ none) →
      (enrichLoop rt sv recipes i acc calls).1 = some (acc ++ survivingRecipes rt sv recipes i)
  | [], _, acc, _, _ => by
    unfold enrichLoop survivingRecipes
    rw [List.append_nil]
  | recipe :: rest, i, acc, calls, h => by
    have hrest : ∀ j c, rest[j]? = some c → enrichOne rt sv (i + 1 + j) c ≠ none := by
      intro j c hj
      have hj' := h (j + 1) c (by simpa using hj)
      rwa [show i + (j + 1) = i + 1 + j by omega] at hj'
    have h0 : enrichOne rt sv i recipe ≠ none := by
      have := h 0 recipe (by simp)
      rwa [Nat.add_zero] at this
    rw [enrichLoop_cons]
    unfold survivingRecipes
    cases hone : enrichOne rt sv i recipe with
    | none => exact absurd hone h0
    | some outcome =>
      cases outcome with
      | none => exact enrichLoop_survivors rt sv rest (i + 1) acc _ hrest
      | some enriched =>
        simp only
        rw [enrichLoop_survivors rt sv rest (i + 1) (acc ++ [enriched]) _ hrest,
          List.append_assoc]
        rfl

/-- Every surviving recipe is a candidate with the nutrients parsed from its
own nutrition response, all of them above 0. -/
theorem survivingRecipes_origin (rt : Runtime) (sv : Services) :
    ∀ (recipes : List Recipe) (i : Nat), ∀ r ∈ survivingRecipes rt sv recipes i,
      ∃ j c d ns, recipes[j]? = some c ∧ sv.nutritionWidget (i + j) c.id = .data d ∧
        parseNutrients rt d = some ns ∧ (ns.all fun n => decide (n.amount > 0)) = true ∧
        r = { c with nutrition := some ns }
  | [], _, r, hr => by
    unfold survivingRecipes at hr
    cases hr
  | recipe :: rest, i, r, hr => by
    have lift : r ∈ survivingRecipes rt sv rest (i + 1) →
        ∃ j c d ns, (recipe :: rest)[j]? = some c ∧ sv.nutritionWidget (i + j) c.id = .data d ∧
          parseNutrients rt d = some ns ∧ (ns.all fun n => decide (n.amount > 0)) = true ∧
          r = { c with nutrition := some ns } := by
      intro hmem
      obtain ⟨j, c, d, ns, hj, hd, hp, hall, hrc⟩ :=
        survivingRecipes_origin rt sv rest (i + 1) r hmem
      refine ⟨j + 1, c, d, ns, by simpa using hj, ?_, hp, hall, hrc⟩
      rwa [show i + (j + 1) = i + 1 + j by omega]
    unfold survivingRecipes at hr
    cases hone : enrichOne rt sv i recipe with
    | none =>
      rw [hone] at hr
      exact lift hr
    | some outcome =>
      cases outcome with
      | none =>
        rw [hone] at hr
        exact lift hr
      | some enriched =>
        rw [hone] at hr
        rcases List.mem_cons.mp hr with heq | hmem
        · unfold enrichOne at hone
          cases hd : sv.nutritionWidget i recipe.id with
          | rejected status =>
            rw [hd] at hone
            cases hone
          | data d =>
            rw [hd] at hone
            simp only at hone
            cases hp : parseNutrients rt d with
            | none =>
              rw [hp] at hone
              cases hone
            | some ns =>
              rw [hp] at hone
              simp only at hone
              by_cases hall : (ns.all fun n => decide (n.amount > 0)) = true
              · rw [if_pos hall] at hone
                have he : enriched = { recipe with nutrition := some ns } := by
                  cases hone
                  rfl
                exact ⟨0, recipe, d, ns, by simp, by rw [Nat.add_zero]; exact hd, hp, hall,
                  by rw [heq, he]⟩
              · rw [if_neg hall] at hone
                cases hone
        · exact lift hmem

/-- The parsed nutrients are the four named entries. -/
theorem parseNutrients_shape (rt : Runtime) (d : NutritionData) (ns : List Nutrient)
    (h : parseNutrients rt d = some ns) :
    ∃ calories protein carbs fat : ℚ,
      ns = [ { name := "Calories", amount := calories }, { name := "Protein", amount := protein },
        { name := "Carbohydrates", amount := carbs }, { name := "Fat", amount := fat } ] := by
  unfold parseNutrients at h
  cases hp : replaceG d.protein with
  | none =>
    rw [hp] at h
    cases h
  | some protein =>
    cases hc : replaceG d.carbs with
    | none =>
      rw [hp, hc] at h
      cases h
    | some carbs =>
      cases hf : replaceG d.fat with
      | none =>
        rw [hp, hc, hf] at h
        cases h
      | some fat =>
        rw [hp, hc, hf] at h
        cases h
        exact ⟨_, _, _, _, rfl⟩

/-- A recipe with parsed nutrients that are all above 0 is usable. -/
theorem usable_of_parsed (rt : Runtime) (c : Recipe) (d : NutritionData) (ns : List Nutrient)
    (hp : parseNutrients rt d = some ns)
    (hall : (ns.all fun n => decide (n.amount > 0)) = true) :
    Recipe.usable { c with nutrition := some ns } = true := by
  obtain ⟨calories, protein, carbs, fat, hns⟩ := parseNutrients_shape rt d ns hp
  subst hns
  simp only [List.all_cons, List.all_nil, Bool.and_true, Bool.and_eq_true,
    decide_eq_true_eq] at hall
  obtain ⟨h1, h2, h3, h4⟩ := hall
  simp [Recipe.usable, h1, h2, h3, h4]

/-- An entry of the fallback table is usable when its four amounts are
above 0. -/
theorem usable_fallbackEntry (title : String) (calories protein carbs fat : ℚ)
    (h1 : 0 < calories) (h2 : 0 < protein) (h3 : 0 < carbs) (h4 : 0 < fat) :
    Recipe.usable (fallbackEntry title calories protein carbs fat) = true := by
  simp [Recipe.usable, fallbackEntry, h1, h2, h3, h4]

/-- Every entry of every bucket of the fallback table is usable. -/
theorem fallback_buckets_usable (key : String) (bucket : List Recipe)
    (hb : FALLBACK_RECIPES key = some bucket) : ∀ r ∈ bucket, r.usable = true := by
  have hveg : ∀ r ∈ fallbackVegetarian, r.usable = true := by
    intro r hr
    simp only [fallbackVegetarian, List.mem_cons, List.mem_singleton, List.mem_nil_iff,
      or_false] at hr
    rcases hr with h | h | h | h | h | h | h | h | h | h | h | h | h | h | h <;>
      (rw [h]; exact usable_fallbackEntry _ _ _ _ _ (by norm_num) (by norm_num) (by norm_num)
        (by norm_num))
  have hvegan : ∀ r ∈ fallbackVegan, r.usable = true := by
    intro r hr
    simp only [fallbackVegan, List.mem_cons, List.mem_singleton, List.mem_nil_iff,
      or_false] at hr
    rcases hr with h | h | h | h | h | h | h | h | h | h <;>
      (rw [h]; exact usable_fallbackEntry _ _ _ _ _ (by norm_num) (by norm_num) (by norm_num)
        (by norm_num))
  have hnone : ∀ r ∈ fallbackNone, r.usable = true := by
    intro r hr
    simp only [fallbackNone, List.mem_cons, List.mem_singleton, List.mem_nil_iff,
      or_false] at hr
    rcases hr with h | h | h | h | h | h | h | h | h | h | h | h | h | h | h <;>
      (rw [h]; exact usable_fallbackEntry _ _ _ _ _ (by norm_num) (by norm_num) (by norm_num)
        (by norm_num))
  unfold FALLBACK_RECIPES at hb
  split at hb
  · cases hb
    exact hveg
  · cases hb
    exact hvegan
  · cases hb
    exact hnone
  · cases hb

/-- The enriched path: the search finds candidates, no loop body raises, and
some recipe survives.  The function then returns the ranked survivors, cut to
the requested count. -/
theorem retrieve_enriched (rt : Runtime) (sv : Services) (params : RecipeParams)
    (recipes : List Recipe)
    (hs : sv.complexSearch params.diet params.intolerances params.maxCalories = some recipes)
    (hok : ∀ j c, recipes[j]? = some c → enrichOne rt sv j c ≠ none)
    (hsurv : survivingRecipes rt sv recipes 0 ≠ []) :
    (retrieveRecipesWithFullNutrition rt sv params).1 =
      some (((survivingRecipes rt sv recipes 0).insertionSort proteinGe).take
        (requestedCount params)) := by
  have hloop := enrichLoop_survivors rt sv recipes 0 []
    [Call.complexSearch params.diet params.intolerances params.maxCalories]
    (fun j c hj => by simpa using hok j c hj)
  rw [List.nil_append] at hloop
  have hne : recipes ≠ [] := by
    intro h
    rw [h] at hsurv
    exact hsurv rfl
  have h0 : ¬recipes.length = 0 := fun h => hne (List.length_eq_zero.mp h)
  have h1 : ¬(survivingRecipes rt sv recipes 0).length = 0 :=
    fun h => hsurv (List.length_eq_zero.mp h)
  unfold retrieveRecipesWithFullNutrition
  simp only [hs, if_neg h0]
  rcases hres : enrichLoop rt sv recipes 0 []
      [Call.complexSearch params.diet params.intolerances params.maxCalories] with ⟨res, calls⟩
  rw [hres] at hloop
  simp only at hloop
  subst hloop
  simp only [if_neg h1]

/-- A usable recipe has parsed nutrients that are all above 0. -/
theorem all_pos_of_usable (c : Recipe) (ns : List Nutrient)
    (h : Recipe.usable { c with nutrition := some ns } = true) :
    (ns.all fun n => decide (n.amount > 0)) = true := by
  unfold Recipe.usable at h
  simp only at h
  split at h
  · rename_i a b c' d heq
    cases heq
    simp only [Bool.and_eq_true, decide_eq_true_eq] at h
    simp [h.1.1.1.2, h.1.1.2, h.1.2, h.2]
  · cases h

/-- In the example with one candidate the loop body pushes the candidate. -/
theorem enrichOne_single (j : Nat) (c : Recipe) :
    enrichOne decimalRuntime singleCandidateServices j c =
      some (some { c with nutrition := some completeNutrients }) := by
  have hall : (completeNutrients.all fun n => decide (n.amount > 0)) = true := by
    simp [completeNutrients]
  have hd : singleCandidateServices.nutritionWidget j c.id = .data completeNutrition := rfl
  unfold enrichOne
  rw [hd]
  simp only [parseNutrients_complete, hall, if_true]

/-- C21: on the enriched path (the search finds candidates, no nutrition
request raises, at least one recipe survives) the function returns a list in
which every recipe has exactly the four nutrients Calories, Protein,
Carbohydrates and Fat, each with amount > 0; every returned recipe is a
candidate with the nutrients parsed from its own response; a candidate whose
parsed nutrients are not all above 0 is not in the list; and every recipe of
every `FALLBACK_RECIPES` bucket has the four nutrients with amount > 0. -/
theorem enriched_recipes_usable (rt : Runtime) (sv : Services) (params : RecipeParams)
    (recipes : List Recipe)
    (hs : sv.complexSearch params.diet params.intolerances params.maxCalories = some recipes)
    (hok : ∀ j c, recipes[j]? = some c → enrichOne rt sv j c ≠ none)
    (hsurv : survivingRecipes rt sv recipes 0 ≠ []) :
    (∃ l : List Recipe, (retrieveRecipesWithFullNutrition rt sv params).1 = some l ∧
        (∀ r ∈ l, r.usable = true ∧
          ∃ j c d ns, recipes[j]? = some c ∧ sv.nutritionWidget j c.id = .data d ∧
            parseNutrients rt d = some ns ∧ r = { c with nutrition := some ns }) ∧
        ∀ (c : Recipe) (ns : List Nutrient),
          (ns.all fun n => decide (n.amount > 0)) = false →
          ({ c with nutrition := some ns } : Recipe) ∉ l) ∧
      ∀ key bucket, FALLBACK_RECIPES key = some bucket → ∀ r ∈ bucket, r.usable = true := by
  have hmem : ∀ r ∈ ((survivingRecipes rt sv recipes 0).insertionSort proteinGe).take
      (requestedCount params), r ∈ survivingRecipes rt sv recipes 0 := by
    intro r hr
    exact (List.perm_insertionSort proteinGe _).subset ((List.take_sublist _ _).subset hr)
  have huse : ∀ r ∈ ((survivingRecipes rt sv recipes 0).insertionSort proteinGe).take
      (requestedCount params), r.usable = true ∧
        ∃ j c d ns, recipes[j]? = some c ∧ sv.nutritionWidget j c.id = .data d ∧
          parseNutrients rt d = some ns ∧ r = { c with nutrition := some ns } := by
    intro r hr
    obtain ⟨j, c, d, ns, hj, hd, hp, hall, hrc⟩ :=
      survivingRecipes_origin rt sv recipes 0 r (hmem r hr)
    rw [Nat.zero_add] at hd
    exact ⟨by rw [hrc]; exact usable_of_parsed rt c d ns hp hall, j, c, d, ns, hj, hd, hp, hrc⟩
  refine ⟨⟨_, retrieve_enriched rt sv params recipes hs hok hsurv, huse, ?_⟩,
    fallback_buckets_usable⟩
  intro c ns hall hin
  have hu := (huse _ hin).1
  rw [all_pos_of_usable c ns hu] at hall
  cases hall

/-- Witness of C21: one candidate with complete nutrition. -/
theorem enriched_recipes_usable_witness :
    ∃ l : List Recipe,
      (retrieveRecipesWithFullNutrition decimalRuntime singleCandidateServices plainParams).1 =
        some l ∧ ∀ r ∈ l, r.usable = true :=
  have h := (enriched_recipes_usable decimalRuntime singleCandidateServices plainParams
    [candidateA] rfl
    (fun j c _ => by rw [enrichOne_single]; simp)
    (by
      unfold survivingRecipes
      rw [enrichOne_single]
      simp)).1
  ⟨h.choose, h.choose_spec.1, fun r hr => (h.choose_spec.2.1 r hr).1⟩

/-- The example runtime with the table reads the two example bodies. -/
theorem parseNutrients_table :
    parseNutrients tableRuntime completeNutrition = some completeNutrients ∧
      parseNutrients tableRuntime fractionalNutrition = some fractionalNutrients := by
  constructor
  · simp [parseNutrients, completeNutrition, replaceG, parseFloatVal, JSVal.toStr,
      tableRuntime, readDecimal, decimalValue, completeNutrients, orZero, List.erase]
    norm_num
  · simp [parseNutrients, fractionalNutrition, replaceG, parseFloatVal, JSVal.toStr,
      tableRuntime, readDecimal, decimalValue, fractionalNutrients, orZero, List.erase]
    norm_num

/-- Rounded protein of the two enriched example candidates. -/
theorem tie_rounded_protein :
    getNutrientValue { candidateA with nutrition := some completeNutrients } "Protein" = 24 ∧
      getNutrientValue { candidateB with nutrition := some fractionalNutrients } "Protein" =
        24 := by
  have h1 : roundHalfUp (24 : ℚ) = 24 := by
    unfold roundHalfUp
    rw [Int.floor_eq_iff]
    norm_num
  have h2 : roundHalfUp (24.4 : ℚ) = 24 := by
    unfold roundHalfUp
    rw [Int.floor_eq_iff]
    norm_num
  constructor
  · simp [getNutrientValue, completeNutrients, List.find?, orZero, h1]
  · simp [getNutrientValue, fractionalNutrients, List.find?, orZero, h2]

/-- Survivors of the example with two candidates of equal rounded protein. -/
theorem tie_survivors :
    (∀ j c, enrichOne tableRuntime tieServices j c ≠ none) ∧
      survivingRecipes tableRuntime tieServices [candidateA, candidateB] 0 =
        [{ candidateA with nutrition := some completeNutrients },
          { candidateB with nutrition := some fractionalNutrients }] := by
  have hall1 : (completeNutrients.all fun n => decide (n.amount > 0)) = true := by
    simp [completeNutrients]
  have hall2 : (fractionalNutrients.all fun n => decide (n.amount > 0)) = true := by
    simp [fractionalNutrients]
    norm_num
  have h0 : ∀ c, enrichOne tableRuntime tieServices 0 c =
      some (some { c with nutrition := some completeNutrients }) := by
    intro c
    have hd : tieServices.nutritionWidget 0 c.id = .data completeNutrition := rfl
    unfold enrichOne
    rw [hd]
    simp only [parseNutrients_table.1, hall1, if_true]
  have h1 : ∀ j c, j ≠ 0 → enrichOne tableRuntime tieServices j c =
      some (some { c with nutrition := some fractionalNutrients }) := by
    intro j c hj
    have hd : tieServices.nutritionWidget j c.id = .data fractionalNutrition := by
      simp [tieServices, hj]
    unfold enrichOne
    rw [hd]
    simp only [parseNutrients_table.2, hall2, if_true]
  constructor
  · intro j c
    by_cases hj : j = 0
    · rw [hj, h0]
      simp
    · rw [h1 j c hj]
      simp
  · simp only [survivingRecipes, h0, h1 1 candidateB (by norm_num)]

/-- C22, as stated, fails: the first candidate has 24 g of protein and the
second 24.4 g; both round to 24, the comparator sees a tie, and the function
returns them in catalog order, the smaller protein amount first. -/
theorem rounded_tie_keeps_catalog_order :
    (retrieveRecipesWithFullNutrition tableRuntime tieServices plainParams).1 =
        some [{ candidateA with nutrition := some completeNutrients },
          { candidateB with nutrition := some fractionalNutrients }] ∧
      completeNutrients[1]? = some { name := "Protein", amount := 24 } ∧
      fractionalNutrients[1]? = some { name := "Protein", amount := 24.4 } ∧
      (24 : ℚ) < 24.4 := by
  refine ⟨?_, rfl, rfl, by norm_num⟩
  have hsurv := tie_survivors.2
  rw [retrieve_enriched tableRuntime tieServices plainParams [candidateA, candidateB] rfl
    (fun j c _ => tie_survivors.1 j c) (by rw [hsurv]; simp), hsurv]
  have hge : proteinGe { candidateA with nutrition := some completeNutrients }
      { candidateB with nutrition := some fractionalNutrients } := by
    unfold proteinGe
    rw [tie_rounded_protein.1, tie_rounded_protein.2]
  simp [List.insertionSort, List.orderedInsert, hge, requestedCount, plainParams]

/-- C22 (amended): on the enriched path the returned list is the first N
elements of the stable sort of the surviving recipes by rounded protein
(`getNutrientValue(recipe, 'Protein')`) descending, where N is the requested
count (20 when none is given): the sorted list is a permutation of the
survivors, the returned list is a prefix of it, a sub-permutation of the
survivors and has length min(N, number of survivors), and two survivors with
equal rounded protein keep their catalog order in the sorted list. -/
theorem enriched_result_ranked (rt : Runtime) (sv : Services) (params : RecipeParams)
    (recipes : List Recipe)
    (hs : sv.complexSearch params.diet params.intolerances params.maxCalories = some recipes)
    (hok : ∀ j c, recipes[j]? = some c → enrichOne rt sv j c ≠ none)
    (hsurv : survivingRecipes rt sv recipes 0 ≠ []) :
    (retrieveRecipesWithFullNutrition rt sv params).1 =
        some (((survivingRecipes rt sv recipes 0).insertionSort proteinGe).take
          (requestedCount params)) ∧
      (params.number = none → requestedCount params = 20) ∧
      (∀ n, 0 < n → params.number = some n → requestedCount params = n) ∧
      ((survivingRecipes rt sv recipes 0).insertionSort proteinGe).Pairwise
        (fun a b => getNutrientValue b "Protein" ≤ getNutrientValue a "Protein") ∧
      ((survivingRecipes rt sv recipes 0).insertionSort proteinGe).Perm
        (survivingRecipes rt sv recipes 0) ∧
      List.IsPrefix
        (((survivingRecipes rt sv recipes 0).insertionSort proteinGe).take
          (requestedCount params))
        ((survivingRecipes rt sv recipes 0).insertionSort proteinGe) ∧
      (((survivingRecipes rt sv recipes 0).insertionSort proteinGe).take
        (requestedCount params)).Subperm (survivingRecipes rt sv recipes 0) ∧
      (((survivingRecipes rt sv recipes 0).insertionSort proteinGe).take
        (requestedCount params)).length =
        min (requestedCount params) (survivingRecipes rt sv recipes 0).length ∧
      ∀ a b, List.Sublist [a, b] (survivingRecipes rt sv recipes 0) →
        getNutrientValue a "Protein" = getNutrientValue b "Protein" →
        List.Sublist [a, b] ((survivingRecipes rt sv recipes 0).insertionSort proteinGe) := by
  refine ⟨retrieve_enriched rt sv params recipes hs hok hsurv, ?_, ?_,
    List.sorted_insertionSort proteinGe _, List.perm_insertionSort proteinGe _,
    List.take_prefix _ _, ?_, ?_, ?_⟩
  · intro h
    unfold requestedCount
    rw [h]
  · intro n hn h
    unfold requestedCount
    rw [h]
    cases n with
    | zero => exact absurd hn (Nat.lt_irrefl 0)
    | succ k => rfl
  · exact (List.take_sublist _ _).subperm.trans (List.perm_insertionSort proteinGe _).subperm
  · rw [List.length_take, List.length_insertionSort]
  · intro a b hab heq
    exact List.pair_sublist_insertionSort (le_of_eq heq.symm) hab

/-- The example runtime with the table reads the body with 38 g of protein. -/
theorem parseNutrients_rich : parseNutrients tableRuntime richNutrition = some richNutrients := by
  simp [parseNutrients, richNutrition, replaceG, parseFloatVal, JSVal.toStr,
    tableRuntime, readDecimal, decimalValue, richNutrients, orZero, List.erase]
  norm_num

/-- Rounded protein of the three enriched example candidates: 24, 24, 38. -/
theorem rank_rounded_protein :
    getNutrientValue enrichedA "Protein" = 24 ∧ getNutrientValue enrichedB "Protein" = 24 ∧
      getNutrientValue enrichedC "Protein" = 38 := by
  have h3 : roundHalfUp (38 : ℚ) = 38 := by
    unfold roundHalfUp
    rw [Int.floor_eq_iff]
    norm_num
  refine ⟨tie_rounded_protein.1, tie_rounded_protein.2, ?_⟩
  simp [getNutrientValue, enrichedC, richNutrients, List.find?, orZero, h3]

/-- Survivors of the example with three candidates: all three, in catalog
order. -/
theorem rank_survivors :
    (∀ j c, enrichOne tableRuntime rankServices j c ≠ none) ∧
      survivingRecipes tableRuntime rankServices [candidateA, candidateB, candidateC] 0 =
        [enrichedA, enrichedB, enrichedC] := by
  have hall1 : (completeNutrients.all fun n => decide (n.amount > 0)) = true := by
    simp [completeNutrients]
  have hall2 : (fractionalNutrients.all fun n => decide (n.amount > 0)) = true := by
    simp [fractionalNutrients]
    norm_num
  have hall3 : (richNutrients.all fun n => decide (n.amount > 0)) = true := by
    simp [richNutrients]
  have h0 : ∀ c, enrichOne tableRuntime rankServices 0 c =
      some (some { c with nutrition := some completeNutrients }) := by
    intro c
    have hd : rankServices.nutritionWidget 0 c.id = .data completeNutrition := rfl
    unfold enrichOne
    rw [hd]
    simp only [parseNutrients_table.1, hall1, if_true]
  have h1 : ∀ c, enrichOne tableRuntime rankServices 1 c =
      some (some { c with nutrition := some fractionalNutrients }) := by
    intro c
    have hd : rankServices.nutritionWidget 1 c.id = .data fractionalNutrition := rfl
    unfold enrichOne
    rw [hd]
    simp only [parseNutrients_table.2, hall2, if_true]
  have h2 : ∀ j c, j ≠ 0 → j ≠ 1 → enrichOne tableRuntime rankServices j c =
      some (some { c with nutrition := some richNutrients }) := by
    intro j c hj0 hj1
    have hd : rankServices.nutritionWidget j c.id = .data richNutrition := by
      simp [rankServices, hj0, hj1]
    unfold enrichOne
    rw [hd]
    simp only [parseNutrients_rich, hall3, if_true]
  constructor
  · intro j c
    by_cases hj0 : j = 0
    · rw [hj0, h0]
      simp
    · by_cases hj1 : j = 1
      · rw [hj1, h1]
        simp
      · rw [h2 j c hj0 hj1]
        simp
  · simp only [survivingRecipes, h0, h1, h2 2 candidateC (by norm_num) (by norm_num)]
    rfl

/-- Ranking of the three example survivors: the candidate with 38 g comes
first, the two candidates with rounded protein 24 keep their catalog order. -/
theorem rank_sorted :
    [enrichedA, enrichedB, enrichedC].insertionSort proteinGe =
      [enrichedC, enrichedA, enrichedB] := by
  obtain ⟨ha, hb, hc⟩ := rank_rounded_protein
  have hbc : ¬proteinGe enrichedB enrichedC := by
    unfold proteinGe
    rw [hb, hc]
    norm_num
  have hac : ¬proteinGe enrichedA enrichedC := by
    unfold proteinGe
    rw [ha, hc]
    norm_num
  have hab : proteinGe enrichedA enrichedB := by
    unfold proteinGe
    rw [ha, hb]
  simp [List.insertionSort, List.orderedInsert, hbc, hac, hab]

/-- Witness of C22 (amended): three candidates with 24 g, 24.4 g and 38 g of
protein in catalog order and a requested count of 2.  The sort moves the third
candidate to the front, the two candidates of rounded protein 24 keep their
catalog order, and the cut drops the last of them: the length is min(2, 3). -/
theorem enriched_result_ranked_witness :
    (retrieveRecipesWithFullNutrition tableRuntime rankServices topTwoParams).1 =
        some [enrichedC, enrichedA] ∧
      requestedCount topTwoParams = 2 ∧
      ([enrichedC, enrichedA] : List Recipe).length = min 2 3 ∧
      List.Sublist [enrichedA, enrichedB] [enrichedC, enrichedA, enrichedB] := by
  have h := enriched_result_ranked tableRuntime rankServices topTwoParams
    [candidateA, candidateB, candidateC] rfl (fun j c _ => rank_survivors.1 j c)
    (by rw [rank_survivors.2]; simp)
  rw [rank_survivors.2, rank_sorted] at h
  obtain ⟨h1, _, h3, _, _, _, _, _, h9⟩ := h
  have hn : requestedCount topTwoParams = 2 := h3 2 (by norm_num) rfl
  rw [hn] at h1
  refine ⟨h1, hn, rfl, h9 enrichedA enrichedB ?_ ?_⟩
  · exact List.Sublist.cons₂ _ (List.Sublist.cons₂ _ (List.nil_sublist _))
  · rw [rank_rounded_protein.1, rank_rounded_protein.2.1]

/-- After a search with candidates and a loop left by an exception the
function returns the lookup with the vegetarian default. -/
theorem retrieve_of_loop_raise (rt : Runtime) (sv : Services) (params : RecipeParams)
    (recipes : List Recipe)
    (hs : sv.complexSearch params.diet params.intolerances params.maxCalories = some recipes)
    (hne : recipes ≠ [])
    (hloop : (enrichLoop rt sv recipes 0 []
      [Call.complexSearch params.diet params.intolerances params.maxCalories]).1 = none) :
    (retrieveRecipesWithFullNutrition rt sv params).1 = some (fallbackOrVegetarian params) := by
  have h0 : ¬recipes.length = 0 := fun h => hne (List.length_eq_zero.mp h)
  unfold retrieveRecipesWithFullNutrition
  simp only [hs, if_neg h0]
  rcases hres : enrichLoop rt sv recipes 0 []
      [Call.complexSearch params.diet params.intolerances params.maxCalories] with ⟨res, calls⟩
  rw [hres] at hloop
  simp only at hloop
  subst hloop
  rfl

/-- C26: if the nutrition request of any one candidate rejects, with any
status, the function returns `FALLBACK_RECIPES[params.diet || 'none']`, or
the vegetarian bucket when that key has no bucket, and no enriched recipe;
hence a result other than this fallback is returned only when every
nutrition request resolves. -/
theorem nutrition_failure_gives_fallback (rt : Runtime) (sv : Services)
    (params : RecipeParams) (recipes : List Recipe)
    (hs : sv.complexSearch params.diet params.intolerances params.maxCalories =
      some recipes) :
    (∀ j c status, recipes[j]? = some c → sv.nutritionWidget j c.id = .rejected status →
        (retrieveRecipesWithFullNutrition rt sv params).1 = some (fallbackOrVegetarian params) ∧
          (∀ bucket, FALLBACK_RECIPES (fallbackKey params) = some bucket →
            (retrieveRecipesWithFullNutrition rt sv params).1 = some bucket) ∧
          (FALLBACK_RECIPES (fallbackKey params) = none →
            (retrieveRecipesWithFullNutrition rt sv params).1 = some fallbackVegetarian)) ∧
      ((retrieveRecipesWithFullNutrition rt sv params).1 ≠ some (fallbackOrVegetarian params) →
        ∀ j c, recipes[j]? = some c → ∃ d, sv.nutritionWidget j c.id = .data d) := by
  have hfall : ∀ j c status, recipes[j]? = some c →
      sv.nutritionWidget j c.id = .rejected status →
      (retrieveRecipesWithFullNutrition rt sv params).1 =
        some (fallbackOrVegetarian params) := by
    intro j c status hj hrej
    have hne : recipes ≠ [] := by
      intro h
      rw [h] at hj
      simp at hj
    have hone : enrichOne rt sv (0 + j) c = none := by
      unfold enrichOne
      rw [Nat.zero_add, hrej]
    exact retrieve_of_loop_raise rt sv params recipes hs hne
      (enrichLoop_raises rt sv recipes 0 [] _ ⟨j, c, hj, hone⟩)
  refine ⟨fun j c status hj hrej => ?_, fun hne j c hj => ?_⟩
  · have hr := hfall j c status hj hrej
    refine ⟨hr, fun bucket hb => ?_, fun hb => ?_⟩
    · rw [hr, fallbackOrVegetarian_of_bucket params bucket hb]
    · rw [hr, fallbackOrVegetarian_of_no_bucket params hb]
  · cases hd : sv.nutritionWidget j c.id with
    | rejected status => exact absurd (hfall j c status hj hd) hne
    | data d => exact ⟨d, rfl⟩

/-- Witness of C26: the nutrition request of the second candidate rejects
after the first candidate was enriched; no diet is given. -/
theorem nutrition_failure_gives_fallback_witness :
    (retrieveRecipesWithFullNutrition decimalRuntime quotaServices plainParams).1 =
      some fallbackNone :=
  ((nutrition_failure_gives_fallback decimalRuntime quotaServices plainParams
    [candidateA, candidateB] rfl).1 1 candidateB (some 402) rfl rfl).2.1 fallbackNone rfl

/-! ## Prompt assembly -/

/-- The loop of the recipes section writes one entry per recipe, numbered
from `i + 1`. -/
theorem recipeLines_eq_entries (rt : Runtime) :
    ∀ (l : List Recipe) (i : Nat),
      recipeLines rt l i =
        ((l.enumFrom i).map fun p => recipeEntry rt (p.1 + 1) p.2).foldr (· ++ ·) ""
  | [], _ => rfl
  | recipe :: rest, i => by
    rw [List.enumFrom_cons, List.map_cons, List.foldr_cons,
      ← recipeLines_eq_entries rt rest (i + 1)]
    rfl

/-- Folding from a prefix is appending to the prefix. -/
theorem foldl_append_string (l : List String) :
    ∀ init : String, l.foldl (fun r s => r ++ s) init = init ++ l.foldl (fun r s => r ++ s) "" := by
  induction l with
  | nil =>
    intro init
    simp
  | cons a rest ih =>
    intro init
    rw [List.foldl_cons, List.foldl_cons, ih (init ++ a), ih ("" ++ a), String.empty_append,
      String.append_assoc]

/-- Joining around one element. -/
theorem join_around (l1 l2 : List String) (x : String) :
    String.join (l1 ++ x :: l2) = String.join l1 ++ x ++ String.join l2 := by
  unfold String.join
  rw [List.foldl_append, List.foldl_cons, foldl_append_string l2]

/-- C23: for every recipe list (empty, shorter or longer than 15) the recipes
section is its heading followed by one entry for each of the first
min(15, n) recipes, in order and numbered from 1, each entry giving the title
and the rounded Calories, Protein, Carbohydrates and Fat values; and for
every request and every snippet list (empty or not) the prompt is assembled
and contains this section. -/
theorem recipesSection_lists_first_fifteen (rt : Runtime) (recipes : List Recipe) :
    recipesSection rt recipes =
        "**REAL RECIPES AVAILABLE:**\n" ++
          (((recipes.take 15).enum.map fun p => recipeEntry rt (p.1 + 1) p.2).foldr
            (· ++ ·) "") ∧
      (recipes.take 15).length = min 15 recipes.length ∧
      (∀ (k : Nat) (recipe : Recipe), recipeEntry rt k recipe =
        "\n" ++ rt.numToStr (k : ℚ) ++ ". " ++ recipe.title ++ "\n" ++
          "   - Calories: ~" ++ rt.numToStr ((roundHalfUp (orZero
            ((recipe.nutrition.bind fun ns => ns.find? fun n => n.name == "Calories").map
              fun n => n.amount)) : ℤ) : ℚ) ++
          " kcal | Protein: ~" ++ rt.numToStr ((roundHalfUp (orZero
            ((recipe.nutrition.bind fun ns => ns.find? fun n => n.name == "Protein").map
              fun n => n.amount)) : ℤ) : ℚ) ++
          "g | Carbs: ~" ++ rt.numToStr ((roundHalfUp (orZero
            ((recipe.nutrition.bind fun ns => ns.find? fun n => n.name == "Carbohydrates").map
              fun n => n.amount)) : ℤ) : ℚ) ++
          "g | Fats: ~" ++ rt.numToStr ((roundHalfUp (orZero
            ((recipe.nutrition.bind fun ns => ns.find? fun n => n.name == "Fat").map
              fun n => n.amount)) : ℤ) : ℚ) ++ "g\n") ∧
      ∀ (b : Body) (relevantArticles : List Article), ∃ before after : String,
        prompt rt b relevantArticles recipes = before ++ recipesSection rt recipes ++ after := by
  refine ⟨?_, List.length_take _ _, fun k recipe => rfl, fun b relevantArticles => ?_⟩
  · unfold recipesSection recipesToShow
    rw [recipeLines_eq_entries]
    rfl
  · unfold prompt
    exact ⟨_, _, join_around
      [ "You are a certified nutritionist and dietitian. Generate the response using **proper Markdown formatting** for headings, bold text, and lists.\n",
        "        \n",
        "        Using the information provided, create a personalized daily nutrition plan.\n",
        "        ", researchSection rt relevantArticles, "\n",
        "        " ] _ (recipesSection rt recipes)⟩

/-! ## Body-mass index and unrecognized activity levels -/

/-- The value denoted by `toFixed(1)` is a multiple of one tenth within one
twentieth of the argument. -/
theorem toFixed1_close (x : ℚ) :
    ∃ n : ℤ, toFixed1 (some x) = some ((n : ℚ) / 10) ∧ |(n : ℚ) / 10 - x| ≤ 1 / 20 := by
  by_cases hx : 0 ≤ x
  · refine ⟨⌊x * 10 + 1 / 2⌋, ?_, ?_⟩
    · unfold toFixed1
      simp [hx]
    · have h1 := Int.floor_le (x * 10 + 1 / 2)
      have h2 := Int.lt_floor_add_one (x * 10 + 1 / 2)
      rw [abs_le]
      constructor <;> linarith
  · refine ⟨-⌊-x * 10 + 1 / 2⌋, ?_, ?_⟩
    · unfold toFixed1
      simp [hx]
      ring
    · have h1 := Int.floor_le (-x * 10 + 1 / 2)
      have h2 := Int.lt_floor_add_one (-x * 10 + 1 / 2)
      rw [abs_le]
      push_cast
      constructor <;> linarith

/-- C24: for a validated request with numeric weight and a numeric height
other than 0, bmi is weightKg / heightM² rounded to one decimal place: a
multiple of 0.1 at distance at most 0.05 from the quotient, with
weightKg = weight × 0.453592 and heightM = height × 2.54 / 100. -/
theorem bmi_rounded_one_decimal (rt : Runtime) (b : Body) (w h : ℚ)
    (hvalid : missingRequired b = false)
    (hw : b.weight.toNumber rt = some w) (hh : b.height.toNumber rt = some h) (hh0 : h ≠ 0) :
    ∃ n : ℤ, bmi rt b = some ((n : ℚ) / 10) ∧
      |(n : ℚ) / 10 - w * 0.453592 / (h * 2.54 / 100 * (h * 2.54 / 100))| ≤ 1 / 20 := by
  have _ := hvalid
  have hm : heightInMeters rt b = some (h * 2.54 / 100) := by
    unfold heightInMeters
    rw [hh, jsMul_some, jsDiv_some _ _ (by norm_num)]
  have hsq : h * 2.54 / 100 * (h * 2.54 / 100) ≠ 0 := by
    have h1 : h * 2.54 / 100 ≠ 0 := by
      have : (2.54 : ℚ) / 100 ≠ 0 := by norm_num
      rw [mul_div_assoc]
      exact mul_ne_zero hh0 this
    exact mul_ne_zero h1 h1
  have hb : bmi rt b =
      toFixed1 (some (w * 0.453592 / (h * 2.54 / 100 * (h * 2.54 / 100)))) := by
    unfold bmi weightInKg
    rw [hm, hw, jsMul_some, jsMul_some, jsDiv_some _ _ hsq]
  rw [hb]
  exact toFixed1_close _

/-- Witness of C24 at the scenario request (180 lb, 70 in). -/
theorem bmi_rounded_one_decimal_witness :
    ∃ n : ℤ, bmi plainRuntime scenarioBody = some ((n : ℚ) / 10) ∧
      |(n : ℚ) / 10 - 180 * 0.453592 / (70 * 2.54 / 100 * (70 * 2.54 / 100))| ≤ 1 / 20 :=
  bmi_rounded_one_decimal plainRuntime scenarioBody 180 70
    (by simp [missingRequired, scenarioBody, JSVal.truthy]) rfl rfl (by norm_num)

/-- A binary64 product with `NaN` on the right is `NaN`. -/
theorem jsMul64_none_right (a : JSNum) : jsMul64 a none = none := by
  cases a <;> rfl

/-- A string outside the table has no multiplier. -/
theorem activityMultipliers_of_unlisted (s : String)
    (hout : s ∉ ["sedentary", "light", "moderate", "active", "veryActive"]) :
    activityMultipliers (.str s) = none := by
  simp only [List.mem_cons, List.mem_singleton, List.mem_nil_iff, or_false, not_or] at hout
  obtain ⟨h1, h2, h3, h4, h5⟩ := hout
  unfold activityMultipliers
  split <;> simp_all

/-- C25: a request whose activityLevel is a non-empty string outside
sedentary, light, moderate, active, veryActive has a truthy activityLevel,
the multiplier lookup gives no number, and tdee, targetCalories,
proteinGrams, carbsGrams and fatsGrams are all NaN; when the other five
required fields are truthy the request passes validation and the response is
not the validation failure. -/
theorem unlisted_activity_gives_nan (rt : Runtime) (sv : Services) (b : Body) (s : String)
    (hs : b.activityLevel = .str s) (hne : s ≠ "")
    (hout : s ∉ ["sedentary", "light", "moderate", "active", "veryActive"]) :
    b.activityLevel.truthy = true ∧ activityMultipliers b.activityLevel = none ∧
      tdee rt b = none ∧ targetCalories rt b = none ∧ proteinGrams rt b = none ∧
      carbsGrams rt b = none ∧ fatsGrams rt b = none ∧
      (b.age.truthy = true → b.gender.truthy = true → b.weight.truthy = true →
        b.height.truthy = true → b.goal.truthy = true →
        missingRequired b = false ∧ (generatePlan rt sv b).1 ≠ validationFailure) := by
  have hlook : activityMultipliers b.activityLevel = none := by
    rw [hs]
    exact activityMultipliers_of_unlisted s hout
  have htruthy : b.activityLevel.truthy = true := by
    rw [hs]
    simp [JSVal.truthy, hne]
  have ht : tdee rt b = none := by
    unfold tdee
    rw [hlook, jsMul64_none_right]
    rfl
  have hc : targetCalories rt b = none := by
    unfold targetCalories
    rw [ht]
    split_ifs <;> rfl
  refine ⟨htruthy, hlook, ht, hc, ?_, ?_, ?_, ?_⟩
  · unfold proteinGrams
    rw [hc]
    rfl
  · unfold carbsGrams
    rw [hc]
    rfl
  · unfold fatsGrams
    rw [hc]
    rfl
  · intro h1 h2 h3 h4 h5
    have hv : missingRequired b = false := by
      unfold missingRequired
      rw [h1, h2, h3, h4, h5, htruthy]
      rfl
    refine ⟨hv, ?_⟩
    rcases generatePlan_of_valid rt sv b hv with hr | ⟨nutritionPlan, hr⟩
    · rw [hr]
      simp [serverError, validationFailure]
    · rw [hr]
      simp [successResponse, validationFailure]

/-- Witness of C25: the value 'very_active' that the nutrition form submits. -/
theorem unlisted_activity_gives_nan_witness :
    tdee plainRuntime veryActiveBody = none ∧ targetCalories plainRuntime veryActiveBody = none ∧
      proteinGrams plainRuntime veryActiveBody = none ∧
      (generatePlan plainRuntime failingServices veryActiveBody).1 ≠ validationFailure :=
  have h := unlisted_activity_gives_nan plainRuntime failingServices veryActiveBody
    "very_active" rfl (by decide) (by decide)
  ⟨h.2.2.1, h.2.2.2.1, h.2.2.2.2.1,
    (h.2.2.2.2.2.2.2 (by simp [veryActiveBody, scenarioBody, JSVal.truthy])
      (by simp [veryActiveBody, scenarioBody, JSVal.truthy])
      (by simp [veryActiveBody, scenarioBody, JSVal.truthy])
      (by simp [veryActiveBody, scenarioBody, JSVal.truthy])
      (by simp [veryActiveBody, scenarioBody, JSVal.truthy])).2⟩

/-! ## Fallback buckets and the dietary preference -/

/-- The lookup with the vegetarian default reads `params.diet` only. -/
theorem fallbackOrVegetarian_congr (p1 p2 : RecipeParams) (hdiet : p1.diet = p2.diet) :
    fallbackOrVegetarian p1 = fallbackOrVegetarian p2 := by
  unfold fallbackOrVegetarian fallbackKey
  rw [hdiet]

/-- A list returned at a fallback site is the lookup with the vegetarian
default. -/
theorem fallback_result_eq (rt : Runtime) (sv : Services) (params : RecipeParams)
    (hf : (retrieveRecipesWithFullNutrition rt sv params).1 =
        FALLBACK_RECIPES (fallbackKey params) ∨
      (retrieveRecipesWithFullNutrition rt sv params).1 = some (fallbackOrVegetarian params))
    (hr : (retrieveRecipesWithFullNutrition rt sv params).1 ≠ none) :
    (retrieveRecipesWithFullNutrition rt sv params).1 = some (fallbackOrVegetarian params) := by
  rcases hf with h | h
  · cases hb : FALLBACK_RECIPES (fallbackKey params) with
    | none =>
      rw [h, hb] at hr
      exact absurd rfl hr
    | some bucket => rw [h, hb, fallbackOrVegetarian_of_bucket params bucket hb]
  · exact h

/-- C27: when two calls of `retrieveRecipesWithFullNutrition` with the same
`params.diet` both return a bucket at a fallback site (the lookup after an
empty search, or the lookup with the vegetarian default), they return the
same list, whatever their intolerances, calorie ceilings and collaborators
are: the list is determined by `params.diet` alone. -/
theorem fallback_depends_on_diet_only (rt1 rt2 : Runtime) (sv1 sv2 : Services)
    (p1 p2 : RecipeParams) (hdiet : p1.diet = p2.diet)
    (hf1 : (retrieveRecipesWithFullNutrition rt1 sv1 p1).1 = FALLBACK_RECIPES (fallbackKey p1) ∨
      (retrieveRecipesWithFullNutrition rt1 sv1 p1).1 = some (fallbackOrVegetarian p1))
    (hr1 : (retrieveRecipesWithFullNutrition rt1 sv1 p1).1 ≠ none)
    (hf2 : (retrieveRecipesWithFullNutrition rt2 sv2 p2).1 = FALLBACK_RECIPES (fallbackKey p2) ∨
      (retrieveRecipesWithFullNutrition rt2 sv2 p2).1 = some (fallbackOrVegetarian p2))
    (hr2 : (retrieveRecipesWithFullNutrition rt2 sv2 p2).1 ≠ none) :
    (retrieveRecipesWithFullNutrition rt1 sv1 p1).1 =
        (retrieveRecipesWithFullNutrition rt2 sv2 p2).1 ∧
      (retrieveRecipesWithFullNutrition rt1 sv1 p1).1 = some (fallbackOrVegetarian p1) := by
  have h1 := fallback_result_eq rt1 sv1 p1 hf1 hr1
  have h2 := fallback_result_eq rt2 sv2 p2 hf2 hr2
  exact ⟨by rw [h1, h2, fallbackOrVegetarian_congr p1 p2 hdiet], h1⟩

/-- Witness of C27: without a diet, a call with the intolerance 'peanut' and
a ceiling of 300 kcal and a call without intolerance and with a ceiling of
2000 kcal return the same bucket when the catalog search rejects. -/
theorem fallback_depends_on_diet_only_witness :
    (retrieveRecipesWithFullNutrition plainRuntime failingServices strictParams).1 =
      (retrieveRecipesWithFullNutrition plainRuntime failingServices plainParams).1 :=
  (fallback_depends_on_diet_only plainRuntime plainRuntime failingServices failingServices
    strictParams plainParams rfl (Or.inr rfl) (by simp [retrieveRecipesWithFullNutrition,
      failingServices]) (Or.inr rfl) (by simp [retrieveRecipesWithFullNutrition,
      failingServices])).1

/-- The bucket returned under the ceiling of 300 kcal has a recipe of
580 kcal. -/
theorem fallback_exceeds_ceiling :
    strictParams.maxCalories = some 300 ∧
      (retrieveRecipesWithFullNutrition plainRuntime failingServices strictParams).1 =
        some fallbackNone ∧
      fallbackEntry "Salmon Bowl with Brown Rice" 580 38 52 22 ∈ fallbackNone := by
  refine ⟨rfl, rfl, ?_⟩
  simp [fallbackNone]

/-- After a rejected catalog search the function returns the lookup with the
vegetarian default. -/
theorem retrieve_of_search_reject (rt : Runtime) (sv : Services) (params : RecipeParams)
    (hs : sv.complexSearch params.diet params.intolerances params.maxCalories = none) :
    (retrieveRecipesWithFullNutrition rt sv params).1 = some (fallbackOrVegetarian params) := by
  unfold retrieveRecipesWithFullNutrition
  simp [hs]

/-- A preference that is neither a key of the table of catalog tokens nor the
name of an inherited property maps to the empty token. -/
theorem diets_of_unmapped (v : JSVal)
    (hout : v ∉ [JSVal.str "vegetarian", JSVal.str "vegan", JSVal.str "keto",
      JSVal.str "paleo", JSVal.str "glutenFree"])
    (hown : ∀ s : String, v = .str s → s ∉ inheritedNames) : diets v = "" := by
  simp only [List.mem_cons, List.mem_singleton, List.mem_nil_iff, or_false, not_or] at hout
  obtain ⟨h1, h2, h3, h4, h5⟩ := hout
  unfold diets
  split
  · exact absurd rfl h1
  · exact absurd rfl h2
  · exact absurd rfl h3
  · exact absurd rfl h4
  · exact absurd rfl h5
  · rename_i s _ _ _ _ _
    rw [if_neg (hown s rfl)]
  · rfl

/-- The key that the handler passes to `FALLBACK_RECIPES` does not name an
inherited property. -/
theorem handler_key_not_inherited (rt : Runtime) (b : Body) :
    fallbackKey (recipeParams rt b) ∉ inheritedNames := by
  have hd : ∀ v : JSVal, diets v ≠ "" → diets v ∉ inheritedNames := by
    intro v hv
    unfold diets at hv ⊢
    split at hv <;> try (simp [inheritedNames]; done)
    · rename_i s _ _ _ _ _
      by_cases hin : s ∈ inheritedNames
      · rw [if_pos hin]
        simp only [inheritedNames, List.mem_cons, List.mem_singleton, List.mem_nil_iff,
          or_false] at hin
        rcases hin with e | e | e | e | e | e | e | e | e | e | e | e <;>
          (rw [e]; simp [inheritedNames, inheritedToStr])
      · rw [if_neg hin] at hv
        exact absurd rfl hv
  unfold fallbackKey
  by_cases h : (recipeParams rt b).diet = ""
  · rw [if_pos h]
    simp [inheritedNames]
  · rw [if_neg h]
    exact hd b.dietaryPreferences h

/-- The token of the scenario request with preference 'constructor'. -/
theorem constructor_token (rt : Runtime) :
    (recipeParams rt constructorBody).diet = "function Object() \x7b [native code] \x7d" := by
  simp [recipeParams, constructorBody, diets, inheritedNames, inheritedToStr]

/-- C28, as stated, fails: the preference 'constructor' is not a key of the
table `diets`, but the lookup finds the function inherited from
`Object.prototype`, which is truthy; no bucket has it as key, and after a
rejected catalog search the handler builds the prompt from the vegetarian
bucket, not from the bucket 'none'. -/
theorem constructor_preference_gets_vegetarian :
    missingRequired constructorBody = false ∧
      constructorBody.dietaryPreferences ∉ [JSVal.str "vegetarian", JSVal.str "vegan",
        JSVal.str "keto", JSVal.str "paleo", JSVal.str "glutenFree"] ∧
      (retrieveRecipesWithFullNutrition plainRuntime failingServices
        (recipeParams plainRuntime constructorBody)).1 = some fallbackVegetarian ∧
      Call.generateContent (prompt plainRuntime constructorBody
        (searchNutritionKnowledge failingServices
          (searchQuery plainRuntime constructorBody) (some 3)).1 fallbackVegetarian) ∈
        (generatePlan plainRuntime failingServices constructorBody).2 ∧
      fallbackVegetarian ≠ fallbackNone := by
  have hvalid : missingRequired constructorBody = false := by
    simp [missingRequired, constructorBody, scenarioBody, JSVal.truthy]
  have hr : (retrieveRecipesWithFullNutrition plainRuntime failingServices
      (recipeParams plainRuntime constructorBody)).1 = some fallbackVegetarian := by
    rw [retrieve_of_search_reject plainRuntime failingServices _ rfl]
    unfold fallbackOrVegetarian fallbackKey
    rw [constructor_token plainRuntime]
    rfl
  refine ⟨hvalid, by simp [constructorBody], hr, ?_, ?_⟩
  · rw [generatePlan_valid_calls plainRuntime failingServices constructorBody hvalid, hr]
    simp
  · intro h
    have hhead := congrArg (fun l => (l.head?).map Recipe.title) h
    simp [fallbackVegetarian, fallbackNone, fallbackEntry] at hhead

/-- C28 (amended): when a request passes validation and the catalog search
rejects, the handler continues with a fallback bucket and builds the prompt of
the generation call from it: the vegetarian bucket for dietaryPreferences
'vegetarian', the vegan bucket for 'vegan', the vegetarian bucket for 'keto',
'paleo' and 'glutenFree' and for the name of a property inherited from
`Object.prototype` (such as 'constructor' or 'toString'), and the bucket
'none' for every other value, among them 'none', 'mediterranean' and a missing
value. -/
theorem search_failure_bucket_by_lookup (rt : Runtime) (sv : Services) (b : Body)
    (hvalid : missingRequired b = false)
    (hs : sv.complexSearch (recipeParams rt b).diet (recipeParams rt b).intolerances
      (recipeParams rt b).maxCalories = none) :
    ∃ bucket : List Recipe,
      (retrieveRecipesWithFullNutrition rt sv (recipeParams rt b)).1 = some bucket ∧
        Call.generateContent
          (prompt rt b (searchNutritionKnowledge sv (searchQuery rt b) (some 3)).1 bucket) ∈
          (generatePlan rt sv b).2 ∧
        (b.dietaryPreferences = .str "vegetarian" → bucket = fallbackVegetarian) ∧
        (b.dietaryPreferences = .str "vegan" → bucket = fallbackVegan) ∧
        (b.dietaryPreferences = .str "keto" → bucket = fallbackVegetarian) ∧
        (b.dietaryPreferences = .str "paleo" → bucket = fallbackVegetarian) ∧
        (b.dietaryPreferences = .str "glutenFree" → bucket = fallbackVegetarian) ∧
        (∀ s : String, b.dietaryPreferences = .str s → s ∈ inheritedNames →
          bucket = fallbackVegetarian) ∧
        (b.dietaryPreferences ∉ [JSVal.str "vegetarian", JSVal.str "vegan", JSVal.str "keto",
            JSVal.str "paleo", JSVal.str "glutenFree"] →
          (∀ s : String, b.dietaryPreferences = .str s → s ∉ inheritedNames) →
          bucket = fallbackNone) := by
  have hr := retrieve_of_search_reject rt sv (recipeParams rt b) hs
  have hkey : ∀ token : String, diets b.dietaryPreferences = token →
      fallbackOrVegetarian (recipeParams rt b) =
        match FALLBACK_RECIPES (if token = "" then "none" else token) with
        | some bucket => bucket
        | none => fallbackVegetarian := by
    intro token ht
    unfold fallbackOrVegetarian fallbackKey recipeParams
    simp only [ht]
  refine ⟨fallbackOrVegetarian (recipeParams rt b), hr, ?_, ?_, ?_, ?_, ?_, ?_, ?_, ?_⟩
  · rw [generatePlan_valid_calls rt sv b hvalid, hr]
    simp
  · intro h
    rw [hkey "vegetarian" (by rw [h]; rfl)]
    rfl
  · intro h
    rw [hkey "vegan" (by rw [h]; rfl)]
    rfl
  · intro h
    rw [hkey "ketogenic" (by rw [h]; rfl)]
    rfl
  · intro h
    rw [hkey "paleolithic" (by rw [h]; rfl)]
    rfl
  · intro h
    rw [hkey "gluten free" (by rw [h]; rfl)]
    rfl
  · intro s h hin
    have hd : diets b.dietaryPreferences = inheritedToStr s := by
      rw [h]
      simp only [inheritedNames, List.mem_cons, List.mem_singleton, List.mem_nil_iff,
        or_false] at hin
      rcases hin with e | e | e | e | e | e | e | e | e | e | e | e <;> (rw [e]; rfl)
    rw [hkey _ hd]
    simp only [inheritedNames, List.mem_cons, List.mem_singleton, List.mem_nil_iff,
      or_false] at hin
    rcases hin with e | e | e | e | e | e | e | e | e | e | e | e <;> (rw [e]; rfl)
  · intro h hown
    rw [hkey "" (diets_of_unmapped _ h hown)]
    rfl

/-- Witness of C28 (amended): the preference 'mediterranean' when every
collaborator fails. -/
theorem search_failure_bucket_by_lookup_witness :
    (retrieveRecipesWithFullNutrition plainRuntime failingServices
      (recipeParams plainRuntime mediterraneanBody)).1 = some fallbackNone :=
  have h := search_failure_bucket_by_lookup plainRuntime failingServices mediterraneanBody
    (by simp [missingRequired, mediterraneanBody, scenarioBody, JSVal.truthy]) rfl
  have hb : h.choose = fallbackNone :=
    h.choose_spec.2.2.2.2.2.2.2.2 (by simp [mediterraneanBody])
      (by simp [mediterraneanBody, inheritedNames])
  hb ▸ h.choose_spec.1

/-! ## Ranking belongs to the enriched path -/

/-- A list sorted pairwise, read by positions. -/
theorem pairwise_at_positions (l : List Recipe)
    (hp : l.Pairwise fun a b => getNutrientValue b "Protein" ≤ getNutrientValue a "Protein")
    (i j : Nat) (a b : Recipe) (hij : i < j) (ha : l[i]? = some a) (hb : l[j]? = some b) :
    getNutrientValue b "Protein" ≤ getNutrientValue a "Protein" := by
  obtain ⟨hi, rfl⟩ := List.getElem?_eq_some_iff.mp ha
  obtain ⟨hj, rfl⟩ := List.getElem?_eq_some_iff.mp hb
  exact List.pairwise_iff_getElem.mp hp i j hi hj hij

/-- C15 (amended): the sort belongs to the enriched path.  When the search
finds candidates, no nutrition request raises and at least one recipe
survives, the function returns a non-empty list of survivors, of length
min(N, number of survivors), that is sorted by rounded protein descending: for
all i < j, round(protein[j]) ≤ round(protein[i]), where round(protein) is
`getNutrientValue(recipe, 'Protein')`; and a survivor left out of the list has
a rounded protein that is at most that of every returned recipe.  When the
search rejects, or finds no candidate, the function returns the lookup in the
static table, whose buckets are in table order. -/
theorem retrieve_enriched_sorted (rt : Runtime) (sv : Services) (params : RecipeParams) :
    (∀ recipes : List Recipe,
        sv.complexSearch params.diet params.intolerances params.maxCalories = some recipes →
        (∀ j c, recipes[j]? = some c → enrichOne rt sv j c ≠ none) →
        survivingRecipes rt sv recipes 0 ≠ [] →
        ∃ l : List Recipe, (retrieveRecipesWithFullNutrition rt sv params).1 = some l ∧
          l ≠ [] ∧
          l.length = min (requestedCount params) (survivingRecipes rt sv recipes 0).length ∧
          (∀ r ∈ l, r ∈ survivingRecipes rt sv recipes 0) ∧
          (∀ (i j : Nat) (a b : Recipe), i < j → l[i]? = some a → l[j]? = some b →
            getNutrientValue b "Protein" ≤ getNutrientValue a "Protein") ∧
          ∀ r ∈ survivingRecipes rt sv recipes 0, r ∉ l →
            ∀ a ∈ l, getNutrientValue r "Protein" ≤ getNutrientValue a "Protein") ∧
      (sv.complexSearch params.diet params.intolerances params.maxCalories = none →
        (retrieveRecipesWithFullNutrition rt sv params).1 =
          some (fallbackOrVegetarian params)) ∧
      (sv.complexSearch params.diet params.intolerances params.maxCalories = some [] →
        (retrieveRecipesWithFullNutrition rt sv params).1 =
          FALLBACK_RECIPES (fallbackKey params)) := by
  refine ⟨fun recipes hs hok hsurv => ?_, retrieve_of_search_reject rt sv params,
    retrieve_of_empty_search rt sv params⟩
  have hsorted := List.sorted_insertionSort proteinGe (survivingRecipes rt sv recipes 0)
  have hperm := List.perm_insertionSort proteinGe (survivingRecipes rt sv recipes 0)
  have hlen : (((survivingRecipes rt sv recipes 0).insertionSort proteinGe).take
      (requestedCount params)).length =
      min (requestedCount params) (survivingRecipes rt sv recipes 0).length := by
    rw [List.length_take, List.length_insertionSort]
  refine ⟨_, retrieve_enriched rt sv params recipes hs hok hsurv, ?_, hlen, ?_, ?_, ?_⟩
  · intro hnil
    have h0 := congrArg List.length hnil
    rw [hlen] at h0
    have hpos := requestedCount_pos params
    have hspos : 0 < (survivingRecipes rt sv recipes 0).length :=
      List.length_pos.mpr hsurv
    simp only [List.length_nil] at h0
    omega
  · intro r hr
    exact hperm.subset ((List.take_sublist _ _).subset hr)
  · intro i j a b hij ha hb
    exact pairwise_at_positions _ (hsorted.sublist (List.take_sublist _ _)) i j a b hij ha hb
  · intro r hr hnot a ha
    have hsplit := List.take_append_drop (requestedCount params)
      ((survivingRecipes rt sv recipes 0).insertionSort proteinGe)
    have hmem : r ∈ ((survivingRecipes rt sv recipes 0).insertionSort proteinGe) :=
      hperm.symm.subset hr
    rw [← hsplit, List.mem_append] at hmem
    have hdrop := hmem.resolve_left hnot
    have hpw : (((survivingRecipes rt sv recipes 0).insertionSort proteinGe).take
        (requestedCount params) ++
        ((survivingRecipes rt sv recipes 0).insertionSort proteinGe).drop
          (requestedCount params)).Pairwise proteinGe := by
      rw [hsplit]
      exact hsorted
    exact (List.pairwise_append.mp hpw).2.2 a ha r hdrop

/-- Witness of C15 (amended): the catalog finds three candidates with 24 g,
24.4 g and 38 g of protein in this order; the returned list starts with the
third candidate, and its rounded protein 38 is at least the 24 of the
recipe that follows. -/
theorem retrieve_enriched_sorted_witness :
    (retrieveRecipesWithFullNutrition tableRuntime rankServices plainParams).1 =
        some [enrichedC, enrichedA, enrichedB] ∧
      getNutrientValue enrichedA "Protein" ≤ getNutrientValue enrichedC "Protein" ∧
      getNutrientValue enrichedB "Protein" ≤ getNutrientValue enrichedA "Protein" := by
  have hres : (retrieveRecipesWithFullNutrition tableRuntime rankServices plainParams).1 =
      some [enrichedC, enrichedA, enrichedB] := by
    rw [retrieve_enriched tableRuntime rankServices plainParams
      [candidateA, candidateB, candidateC] rfl (fun j c _ => rank_survivors.1 j c)
      (by rw [rank_survivors.2]; simp), rank_survivors.2, rank_sorted]
    rfl
  obtain ⟨l, hl, _, _, _, hsorted, _⟩ :=
    (retrieve_enriched_sorted tableRuntime rankServices plainParams).1
      [candidateA, candidateB, candidateC] rfl (fun j c _ => rank_survivors.1 j c)
      (by rw [rank_survivors.2]; simp)
  have hlist : l = [enrichedC, enrichedA, enrichedB] :=
    Option.some.inj (hl.symm.trans hres)
  subst hlist
  exact ⟨hres, hsorted 0 1 enrichedC enrichedA (by norm_num) rfl rfl,
    hsorted 1 2 enrichedA enrichedB (by norm_num) rfl rfl⟩

end NutritionRoutes

/-! # Class booking page -/

namespace Classes

/-- A date found by the loop is the day after a day whose weekday name is in
`scheduleDays`. -/
theorem nextClassLoop_day_after (today : Nat) (scheduleDays : List String) :
    ∀ (fuel i d : Nat), nextClassLoop today scheduleDays fuel i = some d →
      1 ≤ d ∧ scheduleDays.contains (daysOfWeek.getD (getDay (d - 1)) "") = true
  | 0, _, _, h => by
    unfold nextClassLoop at h
    cases h
  | fuel + 1, i, d, h => by
    unfold nextClassLoop at h
    simp only at h
    split at h
    · rename_i hc
      cases h
      refine ⟨by omega, ?_⟩
      have hd : getDay (today + i + 1 - 1) = (getDay today + i) % 7 := by
        unfold getDay
        rw [Nat.add_sub_cancel]
        omega
      rw [hd]
      exact hc
    · exact nextClassLoop_day_after today scheduleDays fuel (i + 1) d h

/-- C29: on a Monday (day 1, day 0 being a Sunday) a class scheduled on
Mondays gets the date of day 2, a Tuesday, which is not a day of the
schedule: the loop finds today at i = 0 and the date is set to
`today.getDate() + i + 1`. -/
theorem monday_class_dated_tuesday :
    daysOfWeek.getD (getDay 1) "" = "Monday" ∧
      getNextClassDate 1 (some ["Monday"]) = some 2 ∧
      daysOfWeek.getD (getDay 2) "" = "Tuesday" ∧
      "Tuesday" ∉ ["Monday"] := by
  refine ⟨rfl, rfl, rfl, by decide⟩

end Classes

/-! # Stripe webhook -/

namespace StripeWebhook

/-- After `cancelActive` the user has no active membership. -/
theorem findActive_cancelActive (db : List Membership) (userId : String) :
    findActive (cancelActive db userId) userId = [] := by
  unfold findActive cancelActive
  rw [List.filter_eq_nil_iff]
  intro m hm
  obtain ⟨m0, _, hm0⟩ := List.mem_map.mp hm
  by_cases hc : (m0.userId == userId && m0.status == "active") = true
  · rw [if_pos hc] at hm0
    rw [← hm0]
    simp
  · rw [if_neg hc] at hm0
    rw [← hm0]
    exact hc

/-- After a completed checkout with all three metadata entries, the new
membership is the only active membership of the user. -/
theorem checkout_single_active (now nextMonth : Nat) (session : Session) (db : List Membership)
    (h1 : present session.userId = true) (h2 : present session.membershipName = true)
    (h3 : present session.membershipPrice = true) :
    findActive (stripeHandler now nextMonth (.ok (.checkoutSessionCompleted session)) db).2
        (session.userId.getD "") =
      [{ userId := session.userId.getD ""
         membershipName := session.membershipName.getD ""
         membershipPrice := session.membershipPrice.getD ""
         status := "active"
         stripeSessionId := session.id
         stripeSubscriptionId := session.subscription
         startDate := now
         endDate := nextMonth }] := by
  unfold stripeHandler
  simp only [h1, h2, h3, Bool.not_true, Bool.or_self, Bool.false_eq_true, if_false]
  have hnew : ∀ m : Membership, m.userId = session.userId.getD "" → m.status = "active" →
      findActive [m] (session.userId.getD "") = [m] := by
    intro m hu hst
    simp [findActive, hu, hst]
  by_cases hex : (findActive db (session.userId.getD "")).length > 0
  · simp only [if_pos hex]
    unfold findActive
    rw [List.filter_append]
    have hc := findActive_cancelActive db (session.userId.getD "")
    unfold findActive at hc
    rw [hc, List.nil_append]
    exact hnew _ rfl rfl
  · simp only [if_neg hex]
    have hnil : findActive db (session.userId.getD "") = [] :=
      List.length_eq_zero.mp (by omega)
    unfold findActive at hnil ⊢
    rw [List.filter_append, hnil, List.nil_append]
    exact hnew _ rfl rfl

/-- C30: the user `user_1` has one active membership and completes a
checkout for another plan.  The handler answers 200; afterwards the new
membership is the only active one of the user, and the earlier membership has
the status 'canceled', which is not a value of the schema's enum (active,
inactive, cancelled). -/
theorem checkout_leaves_status_outside_enum :
    stripeHandler 200 230 (.ok (.checkoutSessionCompleted upgradeSession))
        [earlierMembership] =
        (.received,
          [{ earlierMembership with status := "canceled" },
            { userId := "user_1", membershipName := "Premium", membershipPrice := "49",
              status := "active", startDate := 200, endDate := 230,
              stripeSessionId := some "cs_2", stripeSubscriptionId := some "sub_2" }]) ∧
      findActive (stripeHandler 200 230 (.ok (.checkoutSessionCompleted upgradeSession))
        [earlierMembership]).2 "user_1" =
        [{ userId := "user_1", membershipName := "Premium", membershipPrice := "49",
            status := "active", startDate := 200, endDate := 230,
            stripeSessionId := some "cs_2", stripeSubscriptionId := some "sub_2" }] ∧
      "canceled" ∉ statusEnum ∧ "cancelled" ∈ statusEnum := by
  refine ⟨by decide, by decide, by decide, by decide⟩

end StripeWebhook
